import Mathlib

/-!
# MusafirGO local pipelines: step harness, endpoint exerciser, latency aggregation

A shallow embedding of `local/musafirgo-itinerary-service/pipeline.go` and
`local/musafirgo-web-service/pipeline.go`.

Conventions of the embedding.

* `float64` values are exact rationals (`ℚ`); Go `int` counters are `Nat`, HTTP status codes
  are `Int`.
* A `time.Time` is a number of nanoseconds since the zero time; elapsed times read from the
  monotonic clock are natural numbers.
* Everything outside the process (HTTP servers, commands, files, the clock) is a parameter of
  the function that talks to it, so a theorem quantified over that parameter speaks about every
  behaviour of the outside.
* What the process emits (log lines, HTTP requests, commands, the data handed to the report
  template, files written) is appended to the `Trace` of the pipeline, in program order.  The
  timestamp that `Log` puts in front of a line is not part of the recorded line.
* A runtime panic of an operation is the `faulted` outcome, carrying the text that `%v` prints
  for the recovered value.
-/

namespace MusafirGo

/-! ## Library functions of Go used by the pipelines -/

namespace strings

/-- Substring test on character lists (`strings.Contains`). -/
def containsChars (substr : List Char) : List Char → Bool
  | [] => substr.isPrefixOf []
  | c :: s => substr.isPrefixOf (c :: s) || containsChars substr s

/-- Go `strings.Contains(s, substr)`. -/
def Contains (s substr : String) : Bool :=
  containsChars substr.data s.data

/-- Left-to-right replacement of the non-overlapping occurrences of a non-empty `old`;
`skip` counts the characters of a matched occurrence that are still to be dropped. -/
def replaceChars (old new : List Char) : Nat → List Char → List Char
  | _, [] => []
  | skip + 1, _ :: s => replaceChars old new skip s
  | 0, c :: s =>
    if old.isPrefixOf (c :: s) then new ++ replaceChars old new (old.length - 1) s
    else c :: replaceChars old new 0 s

/-- Go `strings.ReplaceAll(s, old, new)`.  An empty `old` matches before every character and
at the end of the string. -/
def ReplaceAll (s old new : String) : String :=
  if old.data = [] then ⟨new.data ++ s.data.flatMap (fun c => c :: new.data)⟩
  else ⟨replaceChars old.data new.data 0 s.data⟩

end strings

namespace fmt

/-- Text of an integer under the verb `%d`. -/
def d (n : Int) : String := toString n

/-- Text of a number under the verb `%.2f`: two decimals, nearest, ties to even. -/
def f2 (x : ℚ) : String :=
  let y := x * 100
  let k := Rat.floor y
  let r := y - k
  let n : Int := if r < 1 / 2 then k else if 1 / 2 < r then k + 1 else if k % 2 = 0 then k else k + 1
  let a := n.natAbs
  (if n < 0 then "-" else "") ++ toString (a / 100) ++ "." ++
    (if a % 100 < 10 then "0" else "") ++ toString (a % 100)

end fmt

/-! ## Data model -/

/-- Go `APITestResult`. -/
structure APITestResult where
  Total : Nat := 0
  Passed : Nat := 0
  Failed : Nat := 0
  SuccessRate : ℚ := 0
  Details : List String := []
  deriving DecidableEq

/-- The dynamic value held by `Step.Result` (an `interface{}` in Go): the boolean of a plain
step, or the pointer that `APITests` or `PerformanceTests` returned.  `P` is the
`PerformanceResult` type of the pipeline variant. -/
inductive Payload (P : Type) where
  | bool (b : Bool)
  | api (r : APITestResult)
  | perf (r : P)
  deriving DecidableEq

/-- Go `Step`.  `Result = none` is the nil interface. -/
structure Step (P : Type) where
  Name : String
  Success : Bool
  Duration : ℚ
  Error : String
  Result : Option (Payload P)
  deriving DecidableEq

/-- Go `PipelineResult`.  `Steps` is the map from step name to `Step`, kept as an association
list with one entry per key. -/
structure PipelineResult (P : Type) where
  StartTime : Nat
  EndTime : Nat := 0
  TotalDuration : ℚ := 0
  Success : Bool := false
  Steps : List (String × Step P) := []

/-- What a request carries. -/
inductive RequestBody where
  | empty
  | json (text : String)
  | multipartFile (field filename : String)
  deriving DecidableEq

/-- One HTTP request handed to the client. -/
structure Request where
  Method : String
  URL : String
  Body : RequestBody
  deriving DecidableEq

/-- How one HTTP exchange ends for the caller: a response with its status code, or an error
with no response (`resp == nil`). -/
inductive HttpOutcome where
  | response (StatusCode : Int)
  | failed (err : String)
  deriving DecidableEq

/-- The anonymous struct that `GenerateHTMLReport` hands to the template.  The two time fields
hold the instants whose formatted text the template shows. -/
structure ReportData (P : Type) where
  Title : String
  StartTime : Nat
  EndTime : Nat
  TotalDuration : ℚ
  Success : Bool
  Steps : List (String × Step P)
  APIResults : APITestResult
  Performance : P

/-- Go `exec.Cmd` as far as the pipelines set it: the arguments, the program first, and the
working directory (`""`: that of the process). -/
structure Command where
  Args : List String
  Dir : String := ""
  deriving DecidableEq

/-- What the process emits. -/
inductive Event (P : Type) where
  | log (level message : String)
  | http (r : Request)
  | render (data : ReportData P)
  | writeFile (name : String)
  | exec (cmd : Command)

/-- Go `MusafirGoPipeline` / `MusafirGoWebPipeline`.  `DockerClient` tells whether the client
pointer is non-nil; the logger is the `log` events of `Trace`. -/
structure Pipeline (P : Type) where
  BaseURL : String
  Results : PipelineResult P
  DockerClient : Bool
  SkipInit : Bool
  SkipDataLoad : Bool
  SkipTests : Bool
  Trace : List (Event P) := []

/-- How a call ends: it returns a value, or it panics. -/
inductive Outcome (α : Type) where
  | returned (value : α)
  | faulted (description : String)
  deriving DecidableEq

/-- The text of the runtime error raised by a use of a nil pointer. -/
def nilDereference : String :=
  "runtime error: invalid memory address or nil pointer dereference"

namespace Pipeline

variable {P : Type}

/-- Go `Log(level, message)`. -/
def Log (p : Pipeline P) (level message : String) : Pipeline P :=
  { p with Trace := p.Trace ++ [Event.log level message] }

/-- The request leaves the process. -/
def send (p : Pipeline P) (r : Request) : Pipeline P :=
  { p with Trace := p.Trace ++ [Event.http r] }

/-- The command is started. -/
def exec (p : Pipeline P) (cmd : Command) : Pipeline P :=
  { p with Trace := p.Trace ++ [Event.exec cmd] }

end Pipeline

/-- Go `EndpointCase`: one row of the table of `APITests`. -/
structure Endpoint where
  Method : String
  URL : String
  Desc : String
  Body : String
  ExpectedStatus : Int
  Category : String
  deriving DecidableEq

/-- The running tally of `APITests` together with the pipeline it logs to. -/
structure ApiState (P : Type) where
  p : Pipeline P
  result : APITestResult

/-- The request leaves the process; the tally is untouched. -/
def ApiState.send {P : Type} (st : ApiState P) (r : Request) : ApiState P :=
  { st with p := st.p.send r }

/-- Tail of the loop body of `APITests`, from `if err != nil` on: `err` and `resp` are the two
variables the body declared at its top. -/
def classify {P : Type} (st : ApiState P) (method url : String) (expected : Int)
    (elapsed : String) : HttpOutcome → ApiState P
  | HttpOutcome.failed err =>
    let detail := method ++ " " ++ url ++ " - FAILED (" ++ err ++ ")"
    { p := st.p.Log "ERROR" detail,
      result := { st.result with Failed := st.result.Failed + 1,
                                 Details := st.result.Details ++ [detail] } }
  | HttpOutcome.response code =>
    if code = expected then
      let detail := method ++ " " ++ url ++ " - PASSED (" ++ elapsed ++ ")"
      { p := st.p.Log "SUCCESS" detail,
        result := { st.result with Passed := st.result.Passed + 1,
                                   Details := st.result.Details ++ [detail] } }
    else
      let detail := method ++ " " ++ url ++ " - FAILED (Expected: " ++ fmt.d expected ++
        ", Got: " ++ fmt.d code ++ ")"
      { p := st.p.Log "ERROR" detail,
        result := { st.result with Failed := st.result.Failed + 1,
                                   Details := st.result.Details ++ [detail] } }

/-- The four log lines that close `APITests`, after the success rate is stored. -/
def logSummary {P : Type} (p : Pipeline P) (result : APITestResult) : Pipeline P :=
  let p := p.Log "INFO" "=== COMPREHENSIVE API TEST RESULTS ==="
  let p := p.Log "INFO" ("Total Tests: " ++ fmt.d result.Total)
  let p := p.Log "SUCCESS" ("Passed: " ++ fmt.d result.Passed)
  let p := p.Log "ERROR" ("Failed: " ++ fmt.d result.Failed)
  p.Log "INFO" ("Success Rate: " ++ fmt.f2 result.SuccessRate ++ "%")

/-! ## Step harness (the same text in both files) -/

/-- Lookup `m[name]` in the step map. -/
def getStep {P : Type} (name : String) : List (String × Step P) → Option (Step P)
  | [] => none
  | (k, v) :: rest => if k = name then some v else getStep name rest

/-- Assignment `m[name] = s` in the step map: an existing key keeps its place and gets the new
value, a new key is added. -/
def setStep {P : Type} (name : String) (s : Step P) : List (String × Step P) → List (String × Step P)
  | [] => [(name, s)]
  | (k, v) :: rest => if k = name then (k, s) :: rest else (k, v) :: setStep name s rest

/-- Go `ExecuteStep(name, fn)`.  `elapsed` is `time.Since(startTime)` in nanoseconds as read by
the deferred function.  The deferred function runs after `fn` returned (then `success` is
`true` and `result` is set) or after `fn` panicked (then `recover()` yields the panic value,
and `result` is still nil). -/
def ExecuteStep {P : Type} (p : Pipeline P) (name : String) (elapsed : Nat)
    (fn : Pipeline P → Pipeline P × Outcome (Payload P)) : Pipeline P :=
  let p := p.Log "INFO" ("Executing step: " ++ name)
  let (p, outcome) := fn p
  let (success, errMsg, result) : Bool × String × Option (Payload P) :=
    match outcome with
    | Outcome.returned value => (true, "", some value)
    | Outcome.faulted r => (false, "Panic: " ++ r, none)
  let duration : ℚ := (elapsed : ℚ) / 1000000000
  let step : Step P :=
    { Name := name, Success := success, Duration := duration, Error := errMsg, Result := result }
  let p : Pipeline P :=
    { p with Results := { p.Results with Steps := setStep name step p.Results.Steps } }
  if success then
    p.Log "SUCCESS" ("Step " ++ name ++ " completed successfully in " ++ fmt.f2 duration ++
      " seconds")
  else
    p.Log "ERROR" ("Step " ++ name ++ " failed: " ++ errMsg)

/-- The loop of `Run` over the step map that clears the success flag at the first failed step
and stops there. -/
def allSucceeded {P : Type} : List (String × Step P) → Bool
  | [] => true
  | (_, step) :: rest => if !step.Success then false else allSucceeded rest

/-- The end of `Run`, from `p.Results.EndTime = time.Now()` on: `now` is that reading of the
clock and `layout` the text of an instant under the layout `2006-01-02 15:04:05` in the local
zone.  The second component is the argument of `os.Exit`. -/
def finalize {P : Type} (p : Pipeline P) (now : Nat) (layout : Nat → String) : Pipeline P × Nat :=
  let results := { p.Results with EndTime := now }
  let results := { results with
    TotalDuration := (((results.EndTime : Int) - (results.StartTime : Int) : Int) : ℚ) / 1000000000 }
  let results := { results with Success := true }
  let results := { results with Success := allSucceeded results.Steps }
  let p := { p with Results := results }
  let p := p.Log "SUCCESS" "=== PIPELINE COMPLETED ==="
  let p := p.Log "INFO" ("Start Time: " ++ layout p.Results.StartTime)
  let p := p.Log "INFO" ("End Time: " ++ layout p.Results.EndTime)
  let p := p.Log "INFO" ("Total Duration: " ++ fmt.f2 p.Results.TotalDuration ++ " seconds")
  let p := p.Log "SUCCESS" ("Success: " ++ toString p.Results.Success)
  if p.Results.Success then
    (p.Log "SUCCESS" "Pipeline completed successfully!", 0)
  else
    (p.Log "ERROR" "Pipeline completed with errors!", 1)

/-! ## Latency statistics (the same text in both files) -/

/-- One statement `if x >= 0 { validResults = append(validResults, x) }`. -/
def appendValid (validResults : List ℚ) (x : ℚ) : List ℚ :=
  if x ≥ 0 then validResults ++ [x] else validResults

/-- The loop `for _, v := range validResults` over its accumulators `sum`, `max`, `min`. -/
def statsLoop : List ℚ → ℚ × ℚ × ℚ → ℚ × ℚ × ℚ
  | [], acc => acc
  | v :: rest, (sum, max, min) =>
    let sum := sum + v
    let max := if v > max then v else max
    let min := if v < min then v else min
    statsLoop rest (sum, max, min)

/-- The log lines that close the statistics block; `planned` is the constant printed after the
slash. -/
def logStatistics {P : Type} (p : Pipeline P) (average max min : ℚ) (successful planned : Nat) :
    Pipeline P :=
  let p := p.Log "INFO" "=== PERFORMANCE TEST RESULTS ==="
  let p := p.Log "INFO" "Performance Statistics:"
  let p := p.Log "INFO" ("  - Average Response Time: " ++ fmt.f2 average ++ " ms")
  let p := p.Log "INFO" ("  - Maximum Response Time: " ++ fmt.f2 max ++ " ms")
  let p := p.Log "INFO" ("  - Minimum Response Time: " ++ fmt.f2 min ++ " ms")
  p.Log "INFO" ("  - Successful Tests: " ++ fmt.d successful ++ "/" ++ fmt.d planned)

/-- How the exchange of one `measureEndpoint` call ends: an error, or a response after `ms`
milliseconds. -/
inductive Sample where
  | failed
  | done (ms : Nat)
  deriving DecidableEq

/-- The closure `measureEndpoint` of `PerformanceTests`; `sample name` is what the outside does
during the call for `name`. -/
def measureEndpoint {P : Type} (sample : String → Sample) (p : Pipeline P)
    (method url name body : String) : Pipeline P × ℚ :=
  let p :=
    if method = "POST" then p.send ⟨"POST", p.BaseURL ++ url, RequestBody.json body⟩
    else p.send ⟨"GET", p.BaseURL ++ url, RequestBody.empty⟩
  match sample name with
  | Sample.failed => (p.Log "ERROR" ("  - " ++ name ++ " - FAILED"), -1)
  | Sample.done ms => (p.Log "SUCCESS" ("  - " ++ name ++ " - " ++ fmt.f2 ms ++ " ms"), ms)

/-- How the three steps that end `GenerateHTMLReport` go: the errors of `Parse`, `Execute` and
`os.WriteFile` (`none`: no error) and the text of `time.Now()` under `20060102_150405`. -/
structure ReportWorld where
  parse : Option String
  execute : Option String
  write : Option String
  timestamp : String

/-- The end of `GenerateHTMLReport`, from the parsing of the template on; `stem` is the file
name up to the timestamp. -/
def renderReport {P : Type} (p : Pipeline P) (w : ReportWorld) (data : ReportData P)
    (stem : String) : Pipeline P × Bool :=
  match w.parse with
  | some err => (p.Log "ERROR" ("Failed to parse HTML template: " ++ err), false)
  | none =>
    let p := { p with Trace := p.Trace ++ [Event.render data] }
    match w.execute with
    | some err => (p.Log "ERROR" ("Failed to execute HTML template: " ++ err), false)
    | none =>
      let filename := stem ++ w.timestamp ++ ".html"
      let p := { p with Trace := p.Trace ++ [Event.writeFile filename] }
      match w.write with
      | some err => (p.Log "ERROR" ("Failed to save HTML file: " ++ err), false)
      | none =>
        let p := p.Log "SUCCESS" ("HTML report generated successfully: " ++ filename)
        (p.Log "INFO" ("File path: " ++ filename), true)

/-- One probe of `HealthChecks`: the `GET` and the branch on its result.  The second component
tells whether the probe found the service healthy. -/
def healthProbe {P : Type} (p : Pipeline P) (url : String) (o : HttpOutcome)
    (failLevel failText okText : String) : Pipeline P × Bool :=
  let p := p.send ⟨"GET", url, RequestBody.empty⟩
  match o with
  | HttpOutcome.failed _ => (p.Log failLevel failText, false)
  | HttpOutcome.response code =>
    if code ≠ 200 then (p.Log failLevel failText, false) else (p.Log "SUCCESS" okText, true)

/-- Wraps a step whose operation returns a plain boolean as the closure handed to
`ExecuteStep`.  Nothing such an operation emits is recorded in the trace. -/
def plain {P : Type} (f : Pipeline P → Outcome Bool) (p : Pipeline P) :
    Pipeline P × Outcome (Payload P) :=
  match f p with
  | Outcome.returned b => (p, Outcome.returned (Payload.bool b))
  | Outcome.faulted description => (p, Outcome.faulted description)

/-- The closure `func() interface{} { return p.Op() }` around an operation that returns a
boolean: the boolean becomes the dynamic value of the interface. -/
def returning {P : Type} (r : Pipeline P × Bool) : Pipeline P × Outcome (Payload P) :=
  (r.1, Outcome.returned (Payload.bool r.2))

/-- The closure `func() interface{} { return p.Op() }` around an operation that returns a
pointer, or panics: `box` tells which dynamic value the pointer becomes. -/
def boxed {P α : Type} (box : α → Payload P) (r : Pipeline P × Outcome α) :
    Pipeline P × Outcome (Payload P) :=
  (r.1,
    match r.2 with
    | Outcome.returned value => Outcome.returned (box value)
    | Outcome.faulted description => Outcome.faulted description)

/-- One call `p.ExecuteStep(name, fn)` of `Run`. -/
structure StepCall (P : Type) where
  name : String
  fn : Pipeline P → Pipeline P × Outcome (Payload P)

/-- The calls of `ExecuteStep` made by `Run`, one after the other; `elapsed name` is the time
that the step `name` takes, in nanoseconds. -/
def runSteps {P : Type} (elapsed : String → Nat) : List (StepCall P) → Pipeline P → Pipeline P
  | [], p => p
  | call :: rest, p => runSteps elapsed rest (ExecuteStep p call.name (elapsed call.name) call.fn)

/-- Go `NewPipeline` / `NewWebPipeline`: `clientError` is the error of
`client.NewClientWithOpts` (`none`: the client is created) and `now` the reading of the clock
stored as start time. -/
def newPipeline {P : Type} (baseURL : String) (skipInit skipDataLoad skipTests : Bool)
    (clientError : Option String) (now : Nat) : Pipeline P :=
  { BaseURL := baseURL,
    Results := { StartTime := now, Steps := [] },
    DockerClient := clientError.isNone,
    SkipInit := skipInit,
    SkipDataLoad := skipDataLoad,
    SkipTests := skipTests,
    Trace :=
      match clientError with
      | some err => [Event.log "ERROR" ("Failed to create Docker client: " ++ err)]
      | none => [] }

/-- Runs the loop body over the rows still to do; `i` is the position of the next row in the
table.  A panic of the body ends the loop with its description. -/
def loopFrom {P ω : Type} (body : ω → Endpoint → ApiState P → ApiState P × Option String)
    (w : Nat → ω) : Nat → List Endpoint → ApiState P → ApiState P × Option String
  | _, [], st => (st, none)
  | i, endpoint :: rest, st =>
    match body (w i) endpoint st with
    | (st, none) => loopFrom body w (i + 1) rest st
    | (st, some description) => (st, some description)

/-! ## Itinerary service pipeline -/

namespace Itinerary

/-- Go `PerformanceResult` of the itinerary pipeline. -/
structure PerformanceResult where
  HealthCheck : ℚ := 0
  ListItineraries : ℚ := 0
  SearchByCity : ℚ := 0
  ActuatorInfo : ℚ := 0
  ActuatorMetrics : ℚ := 0
  SwaggerUI : ℚ := 0
  OpenAPIDocs : ℚ := 0
  CreateItinerary : ℚ := 0
  UpdateItinerary : ℚ := 0
  DeleteItinerary : ℚ := 0
  GetItinerary : ℚ := 0
  AddItem : ℚ := 0
  RemoveItem : ℚ := 0
  GetMedia : ℚ := 0
  CreateMedia : ℚ := 0
  DeleteMedia : ℚ := 0
  AverageTime : ℚ := 0
  MaxTime : ℚ := 0
  MinTime : ℚ := 0
  SuccessfulTests : Nat := 0
  deriving DecidableEq

/-- The pipeline state of this variant. -/
abbrev Pipeline := MusafirGo.Pipeline PerformanceResult

/-- The table `endpoints` of `APITests`, in declaration order. -/
def endpoints : List Endpoint :=
  [
    ⟨"GET", "/api/itineraries", "List all itineraries",
      "", 200, "Itineraries"⟩,
    ⟨"GET", "/api/itineraries?city=Casablanca", "Search itineraries by city",
      "", 200, "Itineraries"⟩,
    ⟨"GET", "/api/itineraries?from=2024-01-01&to=2024-12-31", "Search itineraries by date range",
      "", 200, "Itineraries"⟩,
    ⟨"GET", "/api/itineraries?page=0&size=10", "List itineraries with pagination",
      "", 200, "Itineraries"⟩,
    ⟨"POST", "/api/itineraries", "Create new itinerary",
      "\x7b\"city\":\"Test City\",\"startDate\":\"2025-04-01\",\"endDate\":\"2025-04-03\",\"days\":[\x7b\"day\":1,\"items\":[\"Test activity 1\",\"Test activity 2\"]\x7d]\x7d", 201, "Itineraries"⟩,
    ⟨"GET", "/api/itineraries/\x7bid\x7d", "Get specific itinerary",
      "", 200, "Itineraries"⟩,
    ⟨"PUT", "/api/itineraries/\x7bid\x7d", "Update specific itinerary",
      "\x7b\"city\":\"Updated City\",\"startDate\":\"2025-04-01\",\"endDate\":\"2025-04-03\",\"days\":[\x7b\"day\":1,\"items\":[\"Updated activity\"]\x7d]\x7d", 200, "Itineraries"⟩,
    ⟨"DELETE", "/api/itineraries/\x7bid\x7d", "Delete specific itinerary",
      "", 204, "Itineraries"⟩,
    ⟨"POST", "/api/itineraries/\x7bid\x7d/days/1/items", "Add item to day 1",
      "\x7b\"value\":\"New activity item\"\x7d", 200, "Itineraries"⟩,
    ⟨"DELETE", "/api/itineraries/\x7bid\x7d/days/1/items/0", "Remove item from day 1",
      "", 200, "Itineraries"⟩,
    ⟨"GET", "/api/itineraries/40a4a646-9ede-4660-9f0d-bd1d2190a845", "Get predefined test itinerary",
      "", 200, "Itineraries"⟩,
    ⟨"PUT", "/api/itineraries/40a4a646-9ede-4660-9f0d-bd1d2190a845", "Update predefined test itinerary",
      "\x7b\"city\":\"Updated Test City\"\x7d", 200, "Itineraries"⟩,
    ⟨"GET", "/api/v1/itineraries/40a4a646-9ede-4660-9f0d-bd1d2190a845/media", "Get media for predefined itinerary",
      "", 200, "Media"⟩,
    ⟨"GET", "/api/v1/itineraries/40a4a646-9ede-4660-9f0d-bd1d2190a845/media/40a4a646-9ede-4660-9f0d-bd1d2190a901", "Get specific predefined media",
      "", 200, "Media"⟩,
    ⟨"POST", "/api/v1/itineraries/40a4a646-9ede-4660-9f0d-bd1d2190a845/media", "Upload test image",
      "", 201, "Media"⟩,
    ⟨"GET", "/api/itineraries/00000000-0000-0000-0000-000000000000", "Get non-existent itinerary",
      "", 404, "Itineraries"⟩,
    ⟨"PUT", "/api/itineraries/00000000-0000-0000-0000-000000000000", "Update non-existent itinerary",
      "\x7b\"city\":\"Updated City\"\x7d", 404, "Itineraries"⟩,
    ⟨"DELETE", "/api/itineraries/00000000-0000-0000-0000-000000000000", "Delete non-existent itinerary",
      "", 404, "Itineraries"⟩,
    ⟨"POST", "/api/itineraries/00000000-0000-0000-0000-000000000000/days/1/items", "Add item to non-existent itinerary",
      "\x7b\"value\":\"Test item\"\x7d", 404, "Itineraries"⟩,
    ⟨"DELETE", "/api/itineraries/00000000-0000-0000-0000-000000000000/days/1/items/0", "Remove item from non-existent itinerary",
      "", 404, "Itineraries"⟩,
    ⟨"POST", "/api/itineraries", "Create invalid itinerary",
      "\x7b\"invalid\":\"data\"\x7d", 400, "Itineraries"⟩,
    ⟨"GET", "/api/itineraries?page=-1&size=0", "Invalid pagination",
      "", 400, "Itineraries"⟩,
    ⟨"POST", "/api/v1/itineraries/\x7bid\x7d/media", "Upload media file",
      "", 201, "Media"⟩,
    ⟨"GET", "/api/v1/itineraries/\x7bid\x7d/media", "Get all media",
      "", 200, "Media"⟩,
    ⟨"GET", "/api/v1/itineraries/\x7bid\x7d/media/active", "Get active media",
      "", 200, "Media"⟩,
    ⟨"GET", "/api/v1/itineraries/\x7bid\x7d/media/paged?page=0&size=10", "Get media with pagination",
      "", 200, "Media"⟩,
    ⟨"GET", "/api/v1/itineraries/\x7bid\x7d/media/\x7bmediaId\x7d", "Get specific media",
      "", 200, "Media"⟩,
    ⟨"POST", "/api/v1/itineraries/\x7bid\x7d/media/\x7bmediaId\x7d/sas?expirationMinutes=60", "Generate SAS URL",
      "", 200, "Media"⟩,
    ⟨"DELETE", "/api/v1/itineraries/\x7bid\x7d/media/\x7bmediaId\x7d", "Delete specific media",
      "", 204, "Media"⟩,
    ⟨"DELETE", "/api/v1/itineraries/\x7bid\x7d/media", "Delete all media",
      "", 204, "Media"⟩,
    ⟨"GET", "/api/v1/itineraries/00000000-0000-0000-0000-000000000000/media", "Get media for non-existent itinerary",
      "", 404, "Media"⟩,
    ⟨"GET", "/api/v1/itineraries/00000000-0000-0000-0000-000000000000/media/active", "Get active media for non-existent itinerary",
      "", 404, "Media"⟩,
    ⟨"GET", "/api/v1/itineraries/00000000-0000-0000-0000-000000000000/media/paged?page=0&size=10", "Get paginated media for non-existent itinerary",
      "", 404, "Media"⟩,
    ⟨"GET", "/api/v1/itineraries/00000000-0000-0000-0000-000000000000/media/123e4567-e89b-12d3-a456-426614174000", "Get non-existent media",
      "", 404, "Media"⟩,
    ⟨"POST", "/api/v1/itineraries/00000000-0000-0000-0000-000000000000/media/123e4567-e89b-12d3-a456-426614174000/sas?expirationMinutes=60", "Generate SAS for non-existent media",
      "", 404, "Media"⟩,
    ⟨"DELETE", "/api/v1/itineraries/00000000-0000-0000-0000-000000000000/media/123e4567-e89b-12d3-a456-426614174000", "Delete non-existent media",
      "", 404, "Media"⟩,
    ⟨"DELETE", "/api/v1/itineraries/00000000-0000-0000-0000-000000000000/media", "Delete all media for non-existent itinerary",
      "", 404, "Media"⟩,
    ⟨"POST", "/api/v1/itineraries/\x7bid\x7d/media", "Upload media without file",
      "", 400, "Media"⟩,
    ⟨"POST", "/api/v1/itineraries/\x7bid\x7d/media/\x7bmediaId\x7d/sas?expirationMinutes=0", "Generate SAS with invalid expiration",
      "", 400, "Media"⟩,
    ⟨"POST", "/api/v1/itineraries/\x7bid\x7d/media/\x7bmediaId\x7d/sas?expirationMinutes=2000", "Generate SAS with too long expiration",
      "", 400, "Media"⟩,
    ⟨"GET", "/actuator", "Actuator root",
      "", 200, "Actuator"⟩,
    ⟨"GET", "/actuator/health", "Application health status",
      "", 200, "Actuator"⟩,
    ⟨"GET", "/actuator/health/db", "Database health status",
      "", 200, "Actuator"⟩,
    ⟨"GET", "/actuator/health/redis", "Redis health status",
      "", 200, "Actuator"⟩,
    ⟨"GET", "/actuator/info", "Application information",
      "", 200, "Actuator"⟩,
    ⟨"GET", "/actuator/metrics", "List available metrics",
      "", 200, "Actuator"⟩,
    ⟨"GET", "/actuator/metrics/jvm.memory.used", "Get specific metric",
      "", 200, "Actuator"⟩,
    ⟨"GET", "/actuator/health/invalid-component", "Invalid health component",
      "", 404, "Actuator"⟩,
    ⟨"GET", "/actuator/metrics/non.existent.metric", "Non-existent metric",
      "", 404, "Actuator"⟩,
    ⟨"GET", "/actuator/invalid-endpoint", "Invalid actuator endpoint",
      "", 404, "Actuator"⟩,
    ⟨"GET", "/swagger-ui.html", "Swagger UI interface",
      "", 200, "Swagger"⟩,
    ⟨"GET", "/v3/api-docs", "OpenAPI documentation JSON",
      "", 200, "Swagger"⟩,
    ⟨"GET", "/swagger-ui/index.html", "Swagger UI index",
      "", 200, "Swagger"⟩,
    ⟨"GET", "/swagger-ui/invalid-path", "Invalid Swagger path",
      "", 404, "Swagger"⟩,
    ⟨"GET", "/v3/api-docs/invalid-path", "Invalid OpenAPI path",
      "", 404, "Swagger"⟩,
    ⟨"POST", "/swagger-ui.html", "Invalid method on Swagger UI",
      "", 405, "Swagger"⟩
  ]

/-- Go `predefinedItineraryID`. -/
def predefinedItineraryID : String := "50b5b757-afef-5771-af1e-ce2e3291b956"

/-- Go `predefinedMediaID`. -/
def predefinedMediaID : String := "40a4a646-9ede-4660-9f0d-bd1d2190a901"

/-- The path that `APITests` requests for a declared path: the statements of the loop body
between `url := endpoint.URL` and `start := time.Now()`. -/
def substitute (declared : String) : String :=
  let url := declared
  let url := if strings.Contains url "{id}" then strings.ReplaceAll url "{id}" predefinedItineraryID
    else url
  let url := if strings.Contains url "{mediaId}" then
      strings.ReplaceAll url "{mediaId}" predefinedMediaID
    else url
  let url := strings.ReplaceAll url "83a3b4ca-8d0c-4faf-ab02-caf3287f28cf" predefinedItineraryID
  let url := strings.ReplaceAll url "c0fc6c3d-38fe-4f37-8c6a-4cd4badf65d3" predefinedItineraryID
  let url := strings.ReplaceAll url "123e4567-e89b-12d3-a456-426614174000" predefinedMediaID
  url

/-- How the preparation of the multipart body ends: `os.Open`, `CreateFormFile` or `io.Copy`
returns an error, or the body is ready. -/
inductive ImageOutcome where
  | openFailed (err : String)
  | formFileFailed (err : String)
  | copyFailed (err : String)
  | ready
  deriving DecidableEq

/-- What the outside does during one row of the table.  `newRequest` is the error of a direct
call of `http.NewRequest` (`none`: the request is created); `elapsed` is the text of
`time.Since(start)` under `%v`. -/
structure CaseWorld where
  image : ImageOutcome
  newRequest : Option String
  http : HttpOutcome
  elapsed : String

/-- One of the four early exits of the upload branch: log, count a failure, append the line,
`continue`. -/
def uploadAbort (st : ApiState PerformanceResult) (method url logText lineText err : String) :
    ApiState PerformanceResult :=
  let detail := method ++ " " ++ url ++ " - FAILED (" ++ lineText ++ ": " ++ err ++ ")"
  { p := st.p.Log "ERROR" (logText ++ ": " ++ err),
    result := { st.result with Failed := st.result.Failed + 1,
                               Details := st.result.Details ++ [detail] } }

/-- Body of the loop `for _, endpoint := range endpoints` of `APITests`.  The second component
is the description of the panic when the body panics.

In the upload branch `err` is a new variable of that block (`file, err := os.Open(...)`), so
`resp, err = http.DefaultClient.Do(req)` leaves the `err` declared at the top of the body nil:
after a failed upload exchange the body takes the `else` branch of `if err != nil` and calls
`resp.Body.Close()` on a nil `resp`.  `req, _ := http.NewRequest(...)` of the `PUT` and
`DELETE` branches yields a nil request when the URL cannot be parsed, used right after. -/
def apiCase (cw : CaseWorld) (endpoint : Endpoint) (st : ApiState PerformanceResult) :
    ApiState PerformanceResult × Option String :=
  let st : ApiState PerformanceResult :=
    { st with result := { st.result with Total := st.result.Total + 1 } }
  let url := substitute endpoint.URL
  let finish (st : ApiState PerformanceResult) (o : HttpOutcome) :=
    (classify st endpoint.Method url endpoint.ExpectedStatus cw.elapsed o, (none : Option String))
  if endpoint.Method = "POST" then
    if strings.Contains url "/media" && strings.Contains endpoint.Desc "Upload test image" then
      match cw.image with
      | ImageOutcome.openFailed err =>
        (uploadAbort st endpoint.Method url "Failed to open test image"
          "Could not open test image" err, none)
      | ImageOutcome.formFileFailed err =>
        (uploadAbort st endpoint.Method url "Failed to create form file"
          "Could not create form file" err, none)
      | ImageOutcome.copyFailed err =>
        (uploadAbort st endpoint.Method url "Failed to copy file" "Could not copy file" err, none)
      | ImageOutcome.ready =>
        match cw.newRequest with
        | some err =>
          (uploadAbort st endpoint.Method url "Failed to create request"
            "Could not create request" err, none)
        | none =>
          let st := st.send
            ⟨"POST", st.p.BaseURL ++ url, RequestBody.multipartFile "file" "test-image.png"⟩
          match cw.http with
          | HttpOutcome.failed _ => (st, some nilDereference)
          | HttpOutcome.response code => finish st (HttpOutcome.response code)
    else
      let st := st.send ⟨"POST", st.p.BaseURL ++ url, RequestBody.json endpoint.Body⟩
      finish st cw.http
  else if endpoint.Method = "PUT" then
    match cw.newRequest with
    | some _ => (st, some nilDereference)
    | none =>
      let st := st.send ⟨"PUT", st.p.BaseURL ++ url, RequestBody.json endpoint.Body⟩
      finish st cw.http
  else if endpoint.Method = "DELETE" then
    match cw.newRequest with
    | some _ => (st, some nilDereference)
    | none =>
      let st := st.send ⟨"DELETE", st.p.BaseURL ++ url, RequestBody.empty⟩
      finish st cw.http
  else
    let st := st.send ⟨"GET", st.p.BaseURL ++ url, RequestBody.empty⟩
    finish st cw.http

/-- Go `(*MusafirGoPipeline).APITests`; `w i` is what the outside does during row `i`. -/
def APITests (p : Pipeline) (w : Nat → CaseWorld) : Pipeline × Outcome APITestResult :=
  if p.SkipTests then
    (p.Log "INFO" "Skipping API tests...",
      Outcome.returned
        { Total := 0, Passed := 0, Failed := 0, SuccessRate := 100, Details := [] })
  else
    let p := p.Log "INFO" "Running comprehensive API tests for all documented endpoints..."
    let result : APITestResult := { Details := [] }
    match loopFrom apiCase w 0 endpoints ⟨p, result⟩ with
    | (st, some description) => (st.p, Outcome.faulted description)
    | (st, none) =>
      let result : APITestResult :=
        { st.result with
          SuccessRate := (st.result.Passed : ℚ) / (st.result.Total : ℚ) * 100 }
      (logSummary st.p result, Outcome.returned result)

/-- Go `(*MusafirGoPipeline).HealthChecks`; `w i` is how the probe number `i` ends. -/
def HealthChecks (p : Pipeline) (w : Nat → HttpOutcome) : Pipeline × Bool :=
  let p := p.Log "INFO" "Running health checks..."
  let allHealthy := true
  let (p, ok) := healthProbe p (p.BaseURL ++ "/actuator/health") (w 0)
    "ERROR" "Service health: FAILED" "Service health: OK"
  let allHealthy := if ok then allHealthy else false
  let (p, ok) := healthProbe p (p.BaseURL ++ "/actuator/health/db") (w 1)
    "ERROR" "Database health: FAILED" "Database health: OK"
  let allHealthy := if ok then allHealthy else false
  let (p, ok) := healthProbe p (p.BaseURL ++ "/actuator/health/redis") (w 2)
    "ERROR" "Redis health: FAILED" "Redis health: OK"
  let allHealthy := if ok then allHealthy else false
  let p := if allHealthy then p.Log "SUCCESS" "All health checks passed"
    else p.Log "WARNING" "Some health checks failed"
  (p, true)

/-- The dynamic value found under the key `id` of the decoded creation response: a string, or
something else, given by the text of its dynamic type (`nil` when the key is absent or the body
is not an object). -/
inductive IdField where
  | text (s : String)
  | other (dynamicType : String)
  deriving DecidableEq

/-- How the creation of the throwaway itinerary ends. -/
inductive CreateOutcome where
  | failed
  | response (StatusCode : Int) (id : IdField)
  deriving DecidableEq

/-- What the outside does during `PerformanceTests`: `sample name` for the measurement called
`name`, `create` for the throwaway itinerary, `cleanup` the error of `http.NewRequest` for the
final `DELETE` (`none`: the request is created). -/
structure PerfWorld where
  sample : String → Sample
  create : CreateOutcome
  cleanup : Option String

/-- The sixteen statements that collect `validResults`. -/
def validResults (result : PerformanceResult) : List ℚ :=
  let validResults : List ℚ := []
  let validResults := appendValid validResults result.HealthCheck
  let validResults := appendValid validResults result.ListItineraries
  let validResults := appendValid validResults result.SearchByCity
  let validResults := appendValid validResults result.ActuatorInfo
  let validResults := appendValid validResults result.ActuatorMetrics
  let validResults := appendValid validResults result.SwaggerUI
  let validResults := appendValid validResults result.OpenAPIDocs
  let validResults := appendValid validResults result.CreateItinerary
  let validResults := appendValid validResults result.UpdateItinerary
  let validResults := appendValid validResults result.DeleteItinerary
  let validResults := appendValid validResults result.GetItinerary
  let validResults := appendValid validResults result.AddItem
  let validResults := appendValid validResults result.RemoveItem
  let validResults := appendValid validResults result.GetMedia
  let validResults := appendValid validResults result.CreateMedia
  let validResults := appendValid validResults result.DeleteMedia
  validResults

/-- The block `Calculer les statistiques` of `PerformanceTests`, without its log lines. -/
def aggregate (result : PerformanceResult) : PerformanceResult :=
  let validResults := validResults result
  match validResults with
  | [] => result
  | first :: _ =>
    let (sum, max, min) := statsLoop validResults (0, first, first)
    { result with
      AverageTime := sum / (validResults.length : ℚ),
      MaxTime := max,
      MinTime := min,
      SuccessfulTests := validResults.length }

/-- The measurements made with the identifier of the throwaway itinerary, and its deletion. -/
def measureCreated (p : Pipeline) (w : PerfWorld) (result : PerformanceResult)
    (testItineraryID : String) : Pipeline × Outcome PerformanceResult :=
  let (p, v) := measureEndpoint w.sample p "GET" ("/api/itineraries/" ++ testItineraryID)
    "Get Itinerary" ""
  let result := { result with GetItinerary := v }
  let (p, v) := measureEndpoint w.sample p "POST"
    ("/api/itineraries/" ++ testItineraryID ++ "/days/1/items") "Add Item"
    "\x7b\"value\":\"Performance test item\"\x7d"
  let result := { result with AddItem := v }
  let (p, v) := measureEndpoint w.sample p "DELETE"
    ("/api/itineraries/" ++ testItineraryID ++ "/days/1/items/0") "Remove Item" ""
  let result := { result with RemoveItem := v }
  let (p, v) := measureEndpoint w.sample p "GET"
    ("/api/v1/itineraries/" ++ testItineraryID ++ "/media") "Get Media" ""
  let result := { result with GetMedia := v }
  let (p, v) := measureEndpoint w.sample p "POST"
    ("/api/v1/itineraries/" ++ testItineraryID ++ "/media") "Create Media" ""
  let result := { result with CreateMedia := v }
  let (p, v) := measureEndpoint w.sample p "DELETE"
    ("/api/v1/itineraries/" ++ testItineraryID ++ "/media") "Delete Media" ""
  let result := { result with DeleteMedia := v }
  match w.cleanup with
  | some _ => (p, Outcome.faulted nilDereference)
  | none =>
    (p.send ⟨"DELETE", p.BaseURL ++ "/api/itineraries/" ++ testItineraryID, RequestBody.empty⟩,
      Outcome.returned result)

/-- The end of `PerformanceTests`: the statistics and their log lines. -/
def finishPerformance (p : Pipeline) (result : PerformanceResult) :
    Pipeline × Outcome PerformanceResult :=
  let result := aggregate result
  if (validResults result).length > 0 then
    (logStatistics p result.AverageTime result.MaxTime result.MinTime result.SuccessfulTests 10,
      Outcome.returned result)
  else (p, Outcome.returned result)

/-- Go `(*MusafirGoPipeline).PerformanceTests`.  The type assertion `createResult["id"].(string)`
panics when the value is not a string. -/
def PerformanceTests (p : Pipeline) (w : PerfWorld) : Pipeline × Outcome PerformanceResult :=
  let p := p.Log "INFO" "Running comprehensive performance tests..."
  let result : PerformanceResult := {}
  let (p, v) := measureEndpoint w.sample p "GET" "/actuator/health" "Health Check" ""
  let result := { result with HealthCheck := v }
  let (p, v) := measureEndpoint w.sample p "GET" "/api/itineraries" "List Itineraries" ""
  let result := { result with ListItineraries := v }
  let (p, v) := measureEndpoint w.sample p "GET" "/api/itineraries?city=Casablanca"
    "Search by City" ""
  let result := { result with SearchByCity := v }
  let (p, v) := measureEndpoint w.sample p "GET" "/actuator/info" "Actuator Info" ""
  let result := { result with ActuatorInfo := v }
  let (p, v) := measureEndpoint w.sample p "GET" "/actuator/metrics" "Actuator Metrics" ""
  let result := { result with ActuatorMetrics := v }
  let (p, v) := measureEndpoint w.sample p "GET" "/swagger-ui.html" "Swagger UI" ""
  let result := { result with SwaggerUI := v }
  let (p, v) := measureEndpoint w.sample p "GET" "/v3/api-docs" "OpenAPI Docs" ""
  let result := { result with OpenAPIDocs := v }
  let itineraryBody := "\x7b\"city\":\"Performance Test City\",\"startDate\":\"2025-04-01\",\"endDate\":\"2025-04-03\",\"days\":[\x7b\"day\":1,\"items\":[\"Performance test activity\"]\x7d]\x7d"
  let (p, v) := measureEndpoint w.sample p "POST" "/api/itineraries" "Create Itinerary"
    itineraryBody
  let result := { result with CreateItinerary := v }
  let updateBody := "\x7b\"city\":\"Updated Performance Test City\"\x7d"
  let (p, v) := measureEndpoint w.sample p "PUT"
    "/api/itineraries/00000000-0000-0000-0000-000000000000" "Update Itinerary" updateBody
  let result := { result with UpdateItinerary := v }
  let (p, v) := measureEndpoint w.sample p "DELETE"
    "/api/itineraries/00000000-0000-0000-0000-000000000000" "Delete Itinerary" ""
  let result := { result with DeleteItinerary := v }
  let p := p.send ⟨"POST", p.BaseURL ++ "/api/itineraries", RequestBody.json
    "\x7b\"city\":\"Performance Test City\",\"startDate\":\"2025-04-01\",\"endDate\":\"2025-04-03\",\"days\":[\x7b\"day\":1,\"items\":[\"Test activity\"]\x7d]\x7d"⟩
  let testItineraryID : Outcome String :=
    match w.create with
    | CreateOutcome.failed => Outcome.returned ""
    | CreateOutcome.response code id =>
      if code = 201 then
        match id with
        | IdField.text s => Outcome.returned s
        | IdField.other dynamicType =>
          Outcome.faulted
            ("interface conversion: interface \x7b\x7d is " ++ dynamicType ++ ", not string")
      else Outcome.returned ""
  match testItineraryID with
  | Outcome.faulted description => (p, Outcome.faulted description)
  | Outcome.returned testItineraryID =>
    if testItineraryID ≠ "" then
      match measureCreated p w result testItineraryID with
      | (p, Outcome.faulted description) => (p, Outcome.faulted description)
      | (p, Outcome.returned result) => finishPerformance p result
    else finishPerformance p result

/-- Go `(*MusafirGoPipeline).getAPIResults`. -/
def getAPIResults (p : Pipeline) : Pipeline × APITestResult :=
  match getStep "APITests" p.Results.Steps with
  | some { Result := some (Payload.api apiResult), .. } =>
    (p.Log "DEBUG" ("API Results found: Total=" ++ fmt.d apiResult.Total ++ ", Passed=" ++
      fmt.d apiResult.Passed ++ ", Failed=" ++ fmt.d apiResult.Failed), apiResult)
  | _ =>
    (p.Log "WARNING" "No API results found, using default values",
      { Total := 40, Passed := 24, Failed := 16, SuccessRate := 60,
        Details := ["Tests API exécutés avec succès"] })

/-- Go `(*MusafirGoPipeline).getPerformanceResults`. -/
def getPerformanceResults (p : Pipeline) : PerformanceResult :=
  match getStep "PerformanceTests" p.Results.Steps with
  | some { Result := some (Payload.perf perfResult), .. } => perfResult
  | _ =>
    { HealthCheck := 5, ListItineraries := 15, SearchByCity := 8, ActuatorInfo := 4,
      ActuatorMetrics := 5, SwaggerUI := 9, OpenAPIDocs := 7, CreateItinerary := 14,
      UpdateItinerary := 13, DeleteItinerary := 12 }

/-- Go `(*MusafirGoPipeline).GenerateHTMLReport`. -/
def GenerateHTMLReport (p : Pipeline) (w : ReportWorld) : Pipeline × Bool :=
  let p := p.Log "INFO" "Generating HTML report with visualizations..."
  let (p, apiResults) := getAPIResults p
  let data : ReportData PerformanceResult :=
    { Title := "MusafirGO Pipeline Report",
      StartTime := p.Results.StartTime,
      EndTime := p.Results.EndTime,
      TotalDuration := p.Results.TotalDuration,
      Success := p.Results.Success,
      Steps := p.Results.Steps,
      APIResults := apiResults,
      Performance := getPerformanceResults p }
  renderReport p w data "MusafirGO_Pipeline_Report_"

/-- The list `times` of `DisplayDetailedResults`. -/
def times (perfResult : PerformanceResult) : List ℚ :=
  [perfResult.HealthCheck, perfResult.ListItineraries, perfResult.SearchByCity,
   perfResult.ActuatorInfo, perfResult.ActuatorMetrics, perfResult.SwaggerUI,
   perfResult.OpenAPIDocs, perfResult.CreateItinerary, perfResult.UpdateItinerary,
   perfResult.DeleteItinerary, perfResult.GetItinerary, perfResult.AddItem,
   perfResult.RemoveItem, perfResult.GetMedia, perfResult.CreateMedia, perfResult.DeleteMedia]

/-- The statistics `(avg, max, min)` that `DisplayDetailedResults` computes from `times`:
`sum` and `max` start at zero, `min` at `times[0]`. -/
def displayStatistics (perfResult : PerformanceResult) : ℚ × ℚ × ℚ :=
  let (sum, max, min) := statsLoop (times perfResult) (0, 0, perfResult.HealthCheck)
  (sum / ((times perfResult).length : ℚ), max, min)

/-- The numbered lines of the loop over `apiResult.Details`; `i` is the index of the next
line. -/
def logDetails (p : Pipeline) : Nat → List String → Pipeline
  | _, [] => p
  | i, detail :: rest =>
    logDetails (p.Log "INFO" ("     " ++ fmt.d (i + 1) ++ ". " ++ detail)) (i + 1) rest

/-- The loop over the step map that ends `DisplayDetailedResults`. -/
def logSteps (p : Pipeline) : List (String × Step PerformanceResult) → Pipeline
  | [] => p
  | (stepName, step) :: rest =>
    let status := if step.Success then "✅ SUCCÈS" else "❌ ÉCHEC"
    logSteps (p.Log "INFO" ("   " ++ stepName ++ ": " ++ status ++ " (" ++ fmt.f2 step.Duration ++
      " secondes)")) rest

/-- Go `(*MusafirGoPipeline).DisplayDetailedResults`. -/
def DisplayDetailedResults (p : Pipeline) : Pipeline × Bool :=
  let p := p.Log "INFO" "=== AFFICHAGE DÉTAILLÉ DES RÉSULTATS ==="
  let p :=
    match getStep "APITests" p.Results.Steps with
    | some { Result := some (Payload.api apiResult), .. } =>
      let p := p.Log "INFO" "📊 RÉSULTATS DÉTAILLÉS DES TESTS API"
      let p := p.Log "INFO" ("   Total des tests: " ++ fmt.d apiResult.Total)
      let p := p.Log "INFO" ("   Tests réussis: " ++ fmt.d apiResult.Passed)
      let p := p.Log "INFO" ("   Tests échoués: " ++ fmt.d apiResult.Failed)
      let p := p.Log "INFO" ("   Taux de réussite: " ++ fmt.f2 apiResult.SuccessRate ++ "%")
      if apiResult.Details.length > 0 then
        logDetails (p.Log "INFO" "   Détails des tests:") 0 apiResult.Details
      else p
    | _ => p
  let p :=
    match getStep "PerformanceTests" p.Results.Steps with
    | some { Result := some (Payload.perf perfResult), .. } =>
      let p := p.Log "INFO" "⚡ RÉSULTATS DÉTAILLÉS DES TESTS DE PERFORMANCE"
      let p := p.Log "INFO" ("   Health Check: " ++ fmt.f2 perfResult.HealthCheck ++ " ms")
      let p := p.Log "INFO" ("   List Itineraries: " ++ fmt.f2 perfResult.ListItineraries ++ " ms")
      let p := p.Log "INFO" ("   Search by City: " ++ fmt.f2 perfResult.SearchByCity ++ " ms")
      let p := p.Log "INFO" ("   Actuator Info: " ++ fmt.f2 perfResult.ActuatorInfo ++ " ms")
      let p := p.Log "INFO" ("   Actuator Metrics: " ++ fmt.f2 perfResult.ActuatorMetrics ++ " ms")
      let p := p.Log "INFO" ("   Swagger UI: " ++ fmt.f2 perfResult.SwaggerUI ++ " ms")
      let p := p.Log "INFO" ("   OpenAPI Docs: " ++ fmt.f2 perfResult.OpenAPIDocs ++ " ms")
      let p := p.Log "INFO" ("   Create Itinerary: " ++ fmt.f2 perfResult.CreateItinerary ++ " ms")
      let p := p.Log "INFO" ("   Update Itinerary: " ++ fmt.f2 perfResult.UpdateItinerary ++ " ms")
      let p := p.Log "INFO" ("   Delete Itinerary: " ++ fmt.f2 perfResult.DeleteItinerary ++ " ms")
      let p := p.Log "INFO" ("   Get Itinerary: " ++ fmt.f2 perfResult.GetItinerary ++ " ms")
      let p := p.Log "INFO" ("   Add Item: " ++ fmt.f2 perfResult.AddItem ++ " ms")
      let p := p.Log "INFO" ("   Remove Item: " ++ fmt.f2 perfResult.RemoveItem ++ " ms")
      let p := p.Log "INFO" ("   Get Media: " ++ fmt.f2 perfResult.GetMedia ++ " ms")
      let p := p.Log "INFO" ("   Create Media: " ++ fmt.f2 perfResult.CreateMedia ++ " ms")
      let p := p.Log "INFO" ("   Delete Media: " ++ fmt.f2 perfResult.DeleteMedia ++ " ms")
      let (avg, max, min) := displayStatistics perfResult
      let p := p.Log "INFO" "   📈 Statistiques de performance:"
      let p := p.Log "INFO" ("     Temps moyen: " ++ fmt.f2 avg ++ " ms")
      let p := p.Log "INFO" ("     Temps maximum: " ++ fmt.f2 max ++ " ms")
      p.Log "INFO" ("     Temps minimum: " ++ fmt.f2 min ++ " ms")
    | _ => p
  let p := p.Log "INFO" "📋 RÉSUMÉ GLOBAL DE TOUTES LES ÉTAPES"
  let p := logSteps p p.Results.Steps
  (p.Log "INFO" "=== FIN DE L\x27AFFICHAGE DÉTAILLÉ ===", true)

/-- The operations of `Run` that are taken as given: what each returns, or the panic it ends
in, as a function of the pipeline it is called on. -/
structure Externals where
  CheckPrerequisites : Pipeline → Outcome Bool
  BuildApplicationImage : Pipeline → Outcome Bool
  InitializeDatabase : Pipeline → Outcome Bool
  LoadTestData : Pipeline → Outcome Bool
  CleanupOldReports : Pipeline → Outcome Bool
  OpenReportInChrome : Pipeline → Outcome Bool

/-- What the outside does during `Run`: the HTTP exchanges of the three testing steps, the
rendering of the report, `elapsed name` the nanoseconds that step `name` took, `now` the clock
at the end, `layout` the text of an instant. -/
structure World where
  health : Nat → HttpOutcome
  api : Nat → CaseWorld
  perf : PerfWorld
  report : ReportWorld
  elapsed : String → Nat
  now : Nat
  layout : Nat → String

/-- The twelve calls of `ExecuteStep` in `Run`, in the order of the source text. -/
def steps (x : Externals) (w : World) : List (StepCall PerformanceResult) :=
  [ ⟨"CheckPrerequisites", plain x.CheckPrerequisites⟩,
    ⟨"BuildApplicationImage", plain x.BuildApplicationImage⟩,
    ⟨"InitializeDatabase", plain x.InitializeDatabase⟩,
    ⟨"LoadTestData", plain x.LoadTestData⟩,
    ⟨"HealthChecks", fun p => returning (HealthChecks p w.health)⟩,
    ⟨"APITests", fun p => boxed Payload.api (APITests p w.api)⟩,
    ⟨"PerformanceTests", fun p => boxed Payload.perf (PerformanceTests p w.perf)⟩,
    ⟨"ReloadTestData", fun p =>
      plain x.LoadTestData (p.Log "INFO" "Reloading test data after destructive tests...")⟩,
    ⟨"DisplayDetailedResults", fun p => returning (DisplayDetailedResults p)⟩,
    ⟨"CleanupOldReports", plain x.CleanupOldReports⟩,
    ⟨"GenerateHTMLReport", fun p => returning (GenerateHTMLReport p w.report)⟩,
    ⟨"OpenReportInChrome", plain x.OpenReportInChrome⟩ ]

/-- Go `(*MusafirGoPipeline).Run`; the second component is the argument of `os.Exit`. -/
def Run (p : Pipeline) (x : Externals) (w : World) : Pipeline × Nat :=
  let p := p.Log "INFO" "Starting MusafirGO Itinerary Service Pipeline..."
  let p := p.Log "INFO" ("Base URL: " ++ p.BaseURL)
  let p := runSteps w.elapsed (steps x w) p
  finalize p w.now w.layout

/-- Go `NewPipeline`. -/
def NewPipeline (baseURL : String) (skipInit skipDataLoad skipTests : Bool)
    (clientError : Option String) (now : Nat) : Pipeline :=
  newPipeline baseURL skipInit skipDataLoad skipTests clientError now

end Itinerary

/-! ## Web service pipeline -/

namespace Web

/-- Go `PerformanceResult` of the web pipeline. -/
structure PerformanceResult where
  HealthCheck : ℚ := 0
  Destinations : ℚ := 0
  Accommodations : ℚ := 0
  AuthLogin : ℚ := 0
  AuthRegister : ℚ := 0
  AuthMe : ℚ := 0
  AverageTime : ℚ := 0
  MaxTime : ℚ := 0
  MinTime : ℚ := 0
  SuccessfulTests : Nat := 0
  deriving DecidableEq

/-- The pipeline state of this variant; the field `ProjectPath` always holds the constant
`ProjectPath` below and is not stored. -/
abbrev Pipeline := MusafirGo.Pipeline PerformanceResult

/-- The table `endpoints` of `APITests`, in declaration order. -/
def endpoints : List Endpoint :=
  [
    ⟨"POST", "/api/auth/login", "Login user",
      "\x7b\"email\":\"test@musafirgo.com\",\"password\":\"password\"\x7d", 200, "Auth"⟩,
    ⟨"POST", "/api/auth/register", "Register user",
      "\x7b\"email\":\"newuser@test.com\",\"password\":\"password\",\"name\":\"New User\"\x7d", 201, "Auth"⟩,
    ⟨"GET", "/api/auth/me", "Get current user",
      "", 200, "Auth"⟩,
    ⟨"GET", "/api/destinations", "List all destinations",
      "", 200, "Destinations"⟩,
    ⟨"GET", "/api/destinations?search=Istanbul", "Search destinations",
      "", 200, "Destinations"⟩,
    ⟨"GET", "/api/destinations?country=Turquie", "Filter by country",
      "", 200, "Destinations"⟩,
    ⟨"GET", "/api/destinations?halalFriendly=true", "Filter halal friendly",
      "", 200, "Destinations"⟩,
    ⟨"GET", "/api/destinations/1", "Get specific destination",
      "", 200, "Destinations"⟩,
    ⟨"GET", "/api/accommodations", "List all accommodations",
      "", 200, "Accommodations"⟩,
    ⟨"GET", "/api/accommodations?search=Hotel", "Search accommodations",
      "", 200, "Accommodations"⟩,
    ⟨"GET", "/api/accommodations?location=Istanbul", "Filter by location",
      "", 200, "Accommodations"⟩,
    ⟨"GET", "/api/accommodations?minPrice=50&maxPrice=200", "Filter by price range",
      "", 200, "Accommodations"⟩,
    ⟨"GET", "/api/accommodations?halalCertified=true", "Filter halal certified",
      "", 200, "Accommodations"⟩,
    ⟨"GET", "/api/accommodations/1", "Get specific accommodation",
      "", 200, "Accommodations"⟩,
    ⟨"GET", "/api/destinations/999", "Get non-existent destination",
      "", 404, "Destinations"⟩,
    ⟨"GET", "/api/accommodations/999", "Get non-existent accommodation",
      "", 404, "Accommodations"⟩,
    ⟨"POST", "/api/auth/login", "Invalid login",
      "\x7b\"email\":\"invalid@test.com\",\"password\":\"wrong\"\x7d", 401, "Auth"⟩,
    ⟨"POST", "/api/auth/register", "Invalid registration",
      "\x7b\"email\":\"test@musafirgo.com\",\"password\":\"123\"\x7d", 400, "Auth"⟩
  ]

/-- What the outside does during one row of the table; `elapsed` is the text of
`time.Since(start)` under `%v`. -/
structure CaseWorld where
  http : HttpOutcome
  elapsed : String

/-- Body of the loop `for _, endpoint := range endpoints` of `APITests`. -/
def apiCase (cw : CaseWorld) (endpoint : Endpoint) (st : ApiState PerformanceResult) :
    ApiState PerformanceResult × Option String :=
  let st : ApiState PerformanceResult :=
    { st with result := { st.result with Total := st.result.Total + 1 } }
  let st : ApiState PerformanceResult :=
    if endpoint.Method = "POST" then
      st.send ⟨"POST", st.p.BaseURL ++ endpoint.URL, RequestBody.json endpoint.Body⟩
    else
      st.send ⟨"GET", st.p.BaseURL ++ endpoint.URL, RequestBody.empty⟩
  (classify st endpoint.Method endpoint.URL endpoint.ExpectedStatus cw.elapsed cw.http, none)

/-- Go `(*MusafirGoWebPipeline).APITests`; `w i` is what the outside does during row `i`. -/
def APITests (p : Pipeline) (w : Nat → CaseWorld) : Pipeline × Outcome APITestResult :=
  if p.SkipTests then
    (p.Log "INFO" "Skipping API tests...",
      Outcome.returned
        { Total := 0, Passed := 0, Failed := 0, SuccessRate := 100, Details := [] })
  else
    let p := p.Log "INFO" "Running comprehensive API tests for mock endpoints..."
    let result : APITestResult := { Details := [] }
    match loopFrom apiCase w 0 endpoints ⟨p, result⟩ with
    | (st, some description) => (st.p, Outcome.faulted description)
    | (st, none) =>
      let result : APITestResult :=
        { st.result with
          SuccessRate := (st.result.Passed : ℚ) / (st.result.Total : ℚ) * 100 }
      (logSummary st.p result, Outcome.returned result)

/-- Go `(*MusafirGoWebPipeline).HealthChecks`; `w i` is how the probe number `i` ends. -/
def HealthChecks (p : Pipeline) (w : Nat → HttpOutcome) : Pipeline × Bool :=
  let p := p.Log "INFO" "Running health checks..."
  let allHealthy := true
  let (p, ok) := healthProbe p (p.BaseURL ++ "/api/health") (w 0)
    "ERROR" "Mock API health: FAILED" "Mock API health: OK"
  let allHealthy := if ok then allHealthy else false
  let (p, _) := healthProbe p "http://localhost:4200" (w 1)
    "WARNING" "Angular application health: NOT RUNNING (expected for now)"
    "Angular application health: OK"
  let p := if allHealthy then p.Log "SUCCESS" "All health checks passed"
    else p.Log "WARNING" "Some health checks failed (Angular app not running)"
  (p, true)

/-- The six statements that collect `validResults`. -/
def validResults (result : PerformanceResult) : List ℚ :=
  let validResults : List ℚ := []
  let validResults := appendValid validResults result.HealthCheck
  let validResults := appendValid validResults result.Destinations
  let validResults := appendValid validResults result.Accommodations
  let validResults := appendValid validResults result.AuthLogin
  let validResults := appendValid validResults result.AuthRegister
  let validResults := appendValid validResults result.AuthMe
  validResults

/-- The block `Calculer les statistiques` of `PerformanceTests`, without its log lines. -/
def aggregate (result : PerformanceResult) : PerformanceResult :=
  let validResults := validResults result
  match validResults with
  | [] => result
  | first :: _ =>
    let (sum, max, min) := statsLoop validResults (0, first, first)
    { result with
      AverageTime := sum / (validResults.length : ℚ),
      MaxTime := max,
      MinTime := min,
      SuccessfulTests := validResults.length }

/-- Go `(*MusafirGoWebPipeline).PerformanceTests`; `sample name` is what the outside does
during the measurement called `name`. -/
def PerformanceTests (p : Pipeline) (sample : String → Sample) :
    Pipeline × Outcome PerformanceResult :=
  let p := p.Log "INFO" "Running comprehensive performance tests..."
  let result : PerformanceResult := {}
  let (p, v) := measureEndpoint sample p "GET" "/api/health" "Health Check" ""
  let result := { result with HealthCheck := v }
  let (p, v) := measureEndpoint sample p "GET" "/api/destinations" "List Destinations" ""
  let result := { result with Destinations := v }
  let (p, v) := measureEndpoint sample p "GET" "/api/accommodations" "List Accommodations" ""
  let result := { result with Accommodations := v }
  let (p, v) := measureEndpoint sample p "POST" "/api/auth/login" "Auth Login"
    "\x7b\"email\":\"test@musafirgo.com\",\"password\":\"password\"\x7d"
  let result := { result with AuthLogin := v }
  let (p, v) := measureEndpoint sample p "POST" "/api/auth/register" "Auth Register"
    "\x7b\"email\":\"perf@test.com\",\"password\":\"password\",\"name\":\"Perf User\"\x7d"
  let result := { result with AuthRegister := v }
  let (p, v) := measureEndpoint sample p "GET" "/api/auth/me" "Auth Me" ""
  let result := { result with AuthMe := v }
  let result := aggregate result
  if (validResults result).length > 0 then
    (logStatistics p result.AverageTime result.MaxTime result.MinTime result.SuccessfulTests 6,
      Outcome.returned result)
  else (p, Outcome.returned result)

/-- Go `(*MusafirGoWebPipeline).getAPIResults`. -/
def getAPIResults (p : Pipeline) : APITestResult :=
  match getStep "APITests" p.Results.Steps with
  | some { Result := some (Payload.api apiResult), .. } => apiResult
  | _ => { Total := 0, Passed := 0, Failed := 0, SuccessRate := 100, Details := [] }

/-- Go `(*MusafirGoWebPipeline).getPerformanceResults`. -/
def getPerformanceResults (p : Pipeline) : PerformanceResult :=
  match getStep "PerformanceTests" p.Results.Steps with
  | some { Result := some (Payload.perf perfResult), .. } => perfResult
  | _ =>
    { HealthCheck := 0, Destinations := 0, Accommodations := 0, AuthLogin := 0,
      AuthRegister := 0, AuthMe := 0 }

/-- Go `(*MusafirGoWebPipeline).GenerateHTMLReport`. -/
def GenerateHTMLReport (p : Pipeline) (w : ReportWorld) : Pipeline × Bool :=
  let p := p.Log "INFO" "Generating HTML report with visualizations..."
  let data : ReportData PerformanceResult :=
    { Title := "MusafirGO Web Service Pipeline Report",
      StartTime := p.Results.StartTime,
      EndTime := p.Results.EndTime,
      TotalDuration := p.Results.TotalDuration,
      Success := p.Results.Success,
      Steps := p.Results.Steps,
      APIResults := getAPIResults p,
      Performance := getPerformanceResults p }
  renderReport p w data "MusafirGO_Web_Pipeline_Report_"

/-- The operations of `Run` that are taken as given: what each returns, or the panic it ends
in, as a function of the pipeline it is called on. -/
structure Externals where
  CheckPrerequisites : Pipeline → Outcome Bool
  BuildAngularApplication : Pipeline → Outcome Bool
  StartMockServices : Pipeline → Outcome Bool

/-- What the outside does during `Run`: the HTTP exchanges of the three testing steps, the
rendering of the report, `elapsed name` the nanoseconds that step `name` took, `now` the clock
at the end, `layout` the text of an instant. -/
structure World where
  health : Nat → HttpOutcome
  api : Nat → CaseWorld
  perf : String → Sample
  report : ReportWorld
  elapsed : String → Nat
  now : Nat
  layout : Nat → String

/-- The constant `projectPath` of `NewWebPipeline`. -/
def ProjectPath : String := "C:\\Users\\omars\\workspace\\musafirgo\\musafirgo-web-service"

/-- The seven calls of `ExecuteStep` in `Run`, in the order of the source text. -/
def steps (x : Externals) (w : World) : List (StepCall PerformanceResult) :=
  [ ⟨"CheckPrerequisites", plain x.CheckPrerequisites⟩,
    ⟨"BuildAngularApplication", plain x.BuildAngularApplication⟩,
    ⟨"StartMockServices", plain x.StartMockServices⟩,
    ⟨"HealthChecks", fun p => returning (HealthChecks p w.health)⟩,
    ⟨"APITests", fun p => boxed Payload.api (APITests p w.api)⟩,
    ⟨"PerformanceTests", fun p => boxed Payload.perf (PerformanceTests p w.perf)⟩,
    ⟨"GenerateHTMLReport", fun p => returning (GenerateHTMLReport p w.report)⟩ ]

/-- Go `(*MusafirGoWebPipeline).Run`; the second component is the argument of `os.Exit`. -/
def Run (p : Pipeline) (x : Externals) (w : World) : Pipeline × Nat :=
  let p := p.Log "INFO" "Starting MusafirGO Web Service Pipeline..."
  let p := p.Log "INFO" ("Base URL: " ++ p.BaseURL)
  let p := p.Log "INFO" ("Project Path: " ++ ProjectPath)
  let p := runSteps w.elapsed (steps x w) p
  finalize p w.now w.layout

/-- Go `NewWebPipeline`. -/
def NewWebPipeline (baseURL : String) (skipInit skipDataLoad skipTests : Bool)
    (clientError : Option String) (now : Nat) : Pipeline :=
  newPipeline baseURL skipInit skipDataLoad skipTests clientError now

end Web

/-! ## Operations on the host: commands, files, arguments

The operations of this section start commands, poll the service, read the argument vector or
clean the working directory.  `Run` above takes most of them as given (`Externals`); here each
is embedded on its own, with what the host does as a parameter.  A command that the process
starts is an `exec` event of the trace; `time.Sleep` is not recorded; the working directory is
a value handed in and out. -/

namespace strings

/-- Go `unicode.IsSpace`. -/
def isSpace (c : Char) : Bool :=
  c.val = 0x09 || c.val = 0x0A || c.val = 0x0B || c.val = 0x0C || c.val = 0x0D ||
  c.val = 0x20 || c.val = 0x85 || c.val = 0xA0 || c.val = 0x1680 ||
  (0x2000 ≤ c.val && c.val ≤ 0x200A) || c.val = 0x2028 || c.val = 0x2029 ||
  c.val = 0x202F || c.val = 0x205F || c.val = 0x3000

/-- Go `strings.TrimSpace(s)`. -/
def TrimSpace (s : String) : String :=
  ⟨(s.data.dropWhile isSpace).rdropWhile isSpace⟩

/-- Go `strings.Split(s, sep)` for a separator `sep` of one character. -/
def Split (s : String) (sep : Char) : List String :=
  (s.data.splitOn sep).map String.mk

end strings

namespace filepath

/-- The loop of `filepath.Match` for a `*`: the star takes no character, or one more character
that is not the separator; `rest` matches what follows the star. -/
def starChars (rest : List Char → Bool) : List Char → Bool
  | [] => rest []
  | c :: name => rest (c :: name) || (c != '/' && starChars rest name)

/-- Go `filepath.Match(pattern, name)` on character lists, for a pattern made of literal
characters and `*` (no `?`, `[` or `\`), which is what the patterns of the pipelines are. -/
def matchChars : List Char → List Char → Bool
  | [], name => name.isEmpty
  | c :: pattern, name =>
    if c = '*' then starChars (matchChars pattern) name
    else
      match name with
      | [] => false
      | d :: name => c == d && matchChars pattern name

/-- Go `filepath.Match(pattern, name)` without its error, which is nil for such a pattern. -/
def Match (pattern name : String) : Bool := matchChars pattern.data name.data

end filepath

/-- How `cmd.Run()` or `cmd.Output()` ends: without error, with what the command wrote to its
standard output, or with an error. -/
inductive CmdOutcome where
  | ok (output : String)
  | failed (err : String)
  deriving DecidableEq

/-- The body of the loops `for i := 0; i < rounds; i++` of `StartDockerService`, which sleep and
ping: `true` when a round returns from inside the loop.  `next` is the number of the next ping
of the call, `ping n` the error of ping number `n` (`none`: the engine answers). -/
def pingLoop (client : Bool) (ping : Nat → Option String) : Nat → Nat → Bool
  | 0, _ => false
  | rounds + 1, next =>
    if client then
      if (ping next).isNone then true else pingLoop client ping rounds (next + 1)
    else pingLoop client ping rounds next

/-- What the host does during `CheckPrerequisites`: `goos` is `runtime.GOOS`, `run` how a
command ends, `ping n` the error of ping number `n` of the call, `order` the order in which
`range` enumerates the entries of the map `prerequisites`. -/
structure HostWorld where
  goos : String
  run : Command → CmdOutcome
  ping : Nat → Option String
  order : List (String × Bool) → List (String × Bool)

/-- Go `StartDockerService` (the same text in both files); `next` is the number of the next
ping of the call of `CheckPrerequisites`. -/
def StartDockerService {P : Type} (p : Pipeline P) (w : HostWorld) (next : Nat) :
    Pipeline P × Bool :=
  let p := p.Log "INFO" "Attempting to start Docker service..."
  if w.goos = "windows" then
    let cmd : Command := ⟨["cmd", "/c", "start", "Docker Desktop"], ""⟩
    let p := p.exec cmd
    match w.run cmd with
    | CmdOutcome.failed _ =>
      (p.Log "WARN" "Could not start Docker Desktop automatically. Please start it manually.",
        false)
    | CmdOutcome.ok _ =>
      let p := p.Log "INFO" "Waiting for Docker to start..."
      if pingLoop p.DockerClient w.ping 30 next then
        (p.Log "SUCCESS" "Docker started successfully", true)
      else (p.Log "ERROR" "Docker did not start within 60 seconds", false)
  else
    let cmd : Command := ⟨["sudo", "systemctl", "start", "docker"], ""⟩
    let p := p.exec cmd
    match w.run cmd with
    | CmdOutcome.failed _ =>
      (p.Log "WARN" "Could not start Docker service automatically. Please start it manually.",
        false)
    | CmdOutcome.ok _ =>
      let p := p.Log "INFO" "Waiting for Docker to start..."
      if pingLoop p.DockerClient w.ping 15 next then
        (p.Log "SUCCESS" "Docker started successfully", true)
      else (p.Log "ERROR" "Docker did not start within 30 seconds", false)

/-- The assignment `m[key] = value` on a Go map held as a list of entries. -/
def setKey {α : Type} (key : String) (value : α) : List (String × α) → List (String × α)
  | [] => [(key, value)]
  | (k, v) :: rest => if k = key then (k, value) :: rest else (k, v) :: setKey key value rest

/-- The loop `for _, ok := range prerequisites` of `CheckPrerequisites` over the entries in the
order of the enumeration: the value of `allOk` after it. -/
def allOk : List (String × Bool) → Bool
  | [] => true
  | (_, ok) :: rest => if !ok then false else allOk rest

/-- The block `Vérifier Docker` of `CheckPrerequisites` (the same text in both files). -/
def checkDocker {P : Type} (p : Pipeline P) (w : HostWorld)
    (prerequisites : List (String × Bool)) : Pipeline P × List (String × Bool) :=
  if p.DockerClient then
    match w.ping 0 with
    | none => (p.Log "SUCCESS" "Docker: OK", setKey "Docker" true prerequisites)
    | some _ =>
      let p := p.Log "WARN" "Docker: NOT RUNNING - Attempting to start..."
      let (p, started) := StartDockerService p w 1
      if started then
        (p.Log "SUCCESS" "Docker: STARTED AND READY", setKey "Docker" true prerequisites)
      else (p.Log "ERROR" "Docker: FAILED TO START", prerequisites)
  else (p.Log "ERROR" "Docker: NOT FOUND", prerequisites)

/-- One block of `CheckPrerequisites` that runs a version command and records the result under
`key`; `label` is the name of the tool in the log. -/
def checkTool {P : Type} (p : Pipeline P) (w : HostWorld) (cmd : Command) (key label : String)
    (prerequisites : List (String × Bool)) : Pipeline P × List (String × Bool) :=
  let p := p.exec cmd
  match w.run cmd with
  | CmdOutcome.failed _ => (p.Log "ERROR" (label ++ ": NOT FOUND"), prerequisites)
  | CmdOutcome.ok _ => (p.Log "SUCCESS" (label ++ ": OK"), setKey key true prerequisites)

/-- The end of `CheckPrerequisites`, from `allOk := true` on (the same text in both files). -/
def verdict {P : Type} (p : Pipeline P) (w : HostWorld) (prerequisites : List (String × Bool)) :
    Pipeline P × Bool :=
  if !allOk (w.order prerequisites) then
    (p.Log "ERROR" "Prerequisites check failed. Please install missing components.", false)
  else (p.Log "SUCCESS" "All prerequisites satisfied", true)

/-- The skip flags that the loop `for _, arg := range os.Args` of `main` sets. -/
def skipFlags : List String → Bool × Bool × Bool → Bool × Bool × Bool
  | [], flags => flags
  | arg :: rest, (skipInit, skipDataLoad, skipTests) =>
    if arg = "--skip-init" then skipFlags rest (true, skipDataLoad, skipTests)
    else if arg = "--skip-data-load" then skipFlags rest (skipInit, true, skipTests)
    else if arg = "--skip-tests" then skipFlags rest (skipInit, skipDataLoad, true)
    else skipFlags rest (skipInit, skipDataLoad, skipTests)

/-- The statements of `main` before the creation of the pipeline (the same text in both files
but for the default URL): the four arguments of `NewPipeline` / `NewWebPipeline`, as a function
of `os.Args`. -/
def arguments (defaultURL : String) (Args : List String) : String × Bool × Bool × Bool :=
  let baseURL := defaultURL
  let baseURL := if Args.length > 1 then Args.getD 1 "" else baseURL
  (baseURL, skipFlags Args (false, false, false))

/-- One entry of the working directory: `removeError` is the error that `os.Remove` gives for
it (`none`: the entry is removed). -/
structure DirEntry where
  name : String
  isDir : Bool := false
  removeError : Option String := none
  deriving DecidableEq

/-- The working directory of the process, in the order in which the names are listed. -/
abbrev Directory := List DirEntry

/-- Go `filepath.Glob(pattern)` for a pattern without directory part: the names of the working
directory that match. -/
def Glob (dir : Directory) (pattern : String) : List String :=
  (dir.filter (fun e => filepath.Match pattern e.name)).map (fun e => e.name)

/-- Go `os.Stat(file)`: the entry of that name, if there is one. -/
def Stat (dir : Directory) (file : String) : Option DirEntry :=
  dir.find? (fun e => e.name = file)

/-- The directory after a successful `os.Remove(file)`. -/
def Remove (dir : Directory) (file : String) : Directory :=
  dir.filter (fun e => e.name ≠ file)

namespace Itinerary

/-- Go `(*MusafirGoPipeline).CheckPrerequisites`. -/
def CheckPrerequisites (p : Pipeline) (w : HostWorld) : Pipeline × Bool :=
  let p := p.Log "INFO" "Checking prerequisites..."
  let prerequisites : List (String × Bool) :=
    [("Docker", false), ("DockerCompose", false), ("Go", false)]
  let (p, prerequisites) := checkDocker p w prerequisites
  let (p, prerequisites) :=
    checkTool p w ⟨["docker-compose", "--version"], ""⟩ "DockerCompose" "Docker Compose"
      prerequisites
  let (p, prerequisites) := checkTool p w ⟨["go", "version"], ""⟩ "Go" "Go" prerequisites
  verdict p w prerequisites

/-- Go `(*MusafirGoPipeline).InitializeDatabase`; `run` tells how a command ends. -/
def InitializeDatabase (p : Pipeline) (run : Command → CmdOutcome) : Pipeline × Bool :=
  if p.SkipInit then (p.Log "INFO" "Skipping database initialization...", true)
  else
    let p := p.Log "INFO" "Initializing database..."
    let p := p.Log "INFO" "Starting services..."
    let up : Command := ⟨["docker-compose", "up", "-d"], ""⟩
    let p := p.exec up
    match run up with
    | CmdOutcome.failed err => (p.Log "ERROR" ("Failed to start services: " ++ err), false)
    | CmdOutcome.ok _ =>
      let p := p.Log "INFO" "Waiting for services to be ready..."
      let ps : Command :=
        ⟨["docker-compose", "ps", "--services", "--filter", "status=running"], ""⟩
      let p := p.exec ps
      match run ps with
      | CmdOutcome.failed _ => (p.Log "ERROR" "Failed to check running services", false)
      | CmdOutcome.ok output =>
        let services := strings.Split (strings.TrimSpace output) '\n'
        if services.length ≥ 3 then
          (p.Log "SUCCESS" "Database initialization completed successfully", true)
        else (p.Log "ERROR" "Database initialization failed - services not running", false)

/-- The loop `for i := 0; i < maxRetries; i++` of `LoadTestData`, from round `i` on, with `fuel`
rounds left; `poll i` is how the request of round `i` ends.  The second component is `false`
when the loop returns `false` from the function. -/
def pollLoop (poll : Nat → HttpOutcome) (maxRetries : Nat) : Nat → Nat → Pipeline →
    Pipeline × Bool
  | 0, _, p => (p, true)
  | fuel + 1, i, p =>
    let p := p.send ⟨"GET", p.BaseURL ++ "/actuator/health", RequestBody.empty⟩
    if poll i = HttpOutcome.response 200 then (p.Log "SUCCESS" "Service is ready", true)
    else if i = maxRetries - 1 then
      (p.Log "ERROR" "Service did not become ready in time", false)
    else
      pollLoop poll maxRetries fuel (i + 1)
        (p.Log "INFO" ("Waiting for service... (" ++ fmt.d (i + 1) ++ "/" ++ fmt.d maxRetries
          ++ ")"))

/-- What the outside does during `LoadTestData`: the polls of the health endpoint and the
commands. -/
structure LoadWorld where
  poll : Nat → HttpOutcome
  run : Command → CmdOutcome

/-- The command of `LoadTestData` that loads the dump. -/
def loadCommand : Command :=
  ⟨["docker-compose", "exec", "-T", "postgres", "psql", "-U", "itinerary", "-d", "itinerary",
    "-f", "/docker-entrypoint-initdb.d/01-dump-data.sql"], ""⟩

/-- Go `(*MusafirGoPipeline).LoadTestData`. -/
def LoadTestData (p : Pipeline) (w : LoadWorld) : Pipeline × Bool :=
  if p.SkipDataLoad then (p.Log "INFO" "Skipping test data loading...", true)
  else
    let p := p.Log "INFO" "Loading test data..."
    let maxRetries := 30
    match pollLoop w.poll maxRetries maxRetries 0 p with
    | (p, false) => (p, false)
    | (p, true) =>
      let p := p.Log "INFO" "Loading test data into database..."
      let p := p.exec loadCommand
      let p :=
        match w.run loadCommand with
        | CmdOutcome.failed _ => p.Log "WARNING" "Test data file not found, but continuing..."
        | CmdOutcome.ok _ => p
      (p.Log "SUCCESS" "Test data loaded successfully", true)

/-- The closure of the step `ReloadTestData` of `Run`. -/
def ReloadTestData (p : Pipeline) (w : LoadWorld) : Pipeline × Bool :=
  LoadTestData (p.Log "INFO" "Reloading test data after destructive tests...") w

/-- The slice `patterns` of `CleanupOldReports`. -/
def patterns : List String :=
  ["MusafirGO_Pipeline_Report_*.html", "MusafirGO_Pipeline_Report_*.xlsx",
   "MusafirGO_Pipeline_Report_*.csv"]

/-- The state of `CleanupOldReports` inside its loops. -/
structure CleanupState where
  p : Pipeline
  dir : Directory
  deletedCount : Nat

/-- The body of the loop `for _, file := range matches` of `CleanupOldReports`. -/
def removeMatch (st : CleanupState) (file : String) : CleanupState :=
  match Stat st.dir file with
  | none => st
  | some info =>
    if info.isDir then st
    else
      match info.removeError with
      | some err =>
        let p := st.p.Log "WARNING" ("Impossible de supprimer le fichier " ++ file ++ ": " ++ err)
        { st with p := p }
      | none =>
        { p := st.p.Log "INFO" ("Fichier supprimé: " ++ file),
          dir := Remove st.dir file,
          deletedCount := st.deletedCount + 1 }

/-- The body of the loop `for _, pattern := range patterns` of `CleanupOldReports`; the error
of `filepath.Glob` is nil for the patterns of the slice. -/
def cleanPattern (st : CleanupState) (pattern : String) : CleanupState :=
  (Glob st.dir pattern).foldl removeMatch st

/-- Go `(*MusafirGoPipeline).CleanupOldReports` on the working directory `dir`; the second
component is the directory afterwards. -/
def CleanupOldReports (p : Pipeline) (dir : Directory) : Pipeline × Directory × Bool :=
  let p := p.Log "INFO" "Nettoyage des anciens rapports..."
  let st := patterns.foldl cleanPattern ⟨p, dir, 0⟩
  let p :=
    if st.deletedCount > 0 then
      st.p.Log "SUCCESS" ("Nettoyage terminé: " ++ fmt.d st.deletedCount ++
        " anciens rapports supprimés")
    else st.p.Log "INFO" "Aucun ancien rapport trouvé à supprimer"
  (p, st.dir, true)

/-- The slice `sheets` of `GenerateExcelReport`. -/
def sheets : List String :=
  ["Résumé Pipeline", "Détails Étapes", "Tests API", "Performance", "Endpoints"]

/-- How the saving of the workbook goes: the errors of `SaveAs` and of the deferred `Close`
(`none`: no error) and the text of `time.Now()` under `20060102_150405`. -/
structure ExcelWorld where
  save : Option String
  close : Option String
  timestamp : String

/-- Go `(*MusafirGoPipeline).GenerateExcelReport` as far as the process shows it: the log lines
and the file that `SaveAs` is asked to write.  The cells written to the sheets `sheets` of the
workbook are left out. -/
def GenerateExcelReport (p : Pipeline) (w : ExcelWorld) : Pipeline × Bool :=
  let p := p.Log "INFO" "Generating Excel report..."
  let filename := "MusafirGO_Pipeline_Report_" ++ w.timestamp ++ ".xlsx"
  let p := { p with Trace := p.Trace ++ [Event.writeFile filename] }
  let (p, saved) : Pipeline × Bool :=
    match w.save with
    | some err => (p.Log "ERROR" ("Failed to save Excel file: " ++ err), false)
    | none =>
      let p := p.Log "SUCCESS" ("Excel report generated successfully: " ++ filename)
      (p.Log "INFO" ("File path: " ++ filename), true)
  match w.close with
  | some err => (p.Log "ERROR" ("Error closing Excel file: " ++ err), saved)
  | none => (p, saved)

/-- Go `main` of the itinerary pipeline: `Args` is `os.Args`. -/
def main (Args : List String) (clientError : Option String) (now : Nat) (x : Externals)
    (w : World) : Pipeline × Nat :=
  let (baseURL, skipInit, skipDataLoad, skipTests) := arguments "http://localhost:8080" Args
  Run (NewPipeline baseURL skipInit skipDataLoad skipTests clientError now) x w

end Itinerary

namespace Web

/-- Go `(*MusafirGoWebPipeline).CheckPrerequisites`. -/
def CheckPrerequisites (p : Pipeline) (w : HostWorld) : Pipeline × Bool :=
  let p := p.Log "INFO" "Checking prerequisites for Angular project..."
  let prerequisites : List (String × Bool) :=
    [("Docker", false), ("DockerCompose", false), ("Node.js", false), ("Angular CLI", false)]
  let (p, prerequisites) := checkDocker p w prerequisites
  let (p, prerequisites) :=
    checkTool p w ⟨["docker-compose", "--version"], ""⟩ "DockerCompose" "Docker Compose"
      prerequisites
  let (p, prerequisites) :=
    checkTool p w ⟨["node", "--version"], ""⟩ "Node.js" "Node.js" prerequisites
  let (p, prerequisites) :=
    checkTool p w ⟨["ng", "version"], ""⟩ "Angular CLI" "Angular CLI" prerequisites
  verdict p w prerequisites

/-- What the host does during `StartMockServices`: the error of `os.Chdir(p.ProjectPath)`
(`none`: no error) and how a command ends. -/
structure MockWorld where
  chdir : Option String
  run : Command → CmdOutcome

/-- Go `(*MusafirGoWebPipeline).StartMockServices`.  The deferred `os.Chdir(originalDir)` is
not recorded. -/
def StartMockServices (p : Pipeline) (w : MockWorld) : Pipeline × Bool :=
  let p := p.Log "INFO" "Starting mock services..."
  match w.chdir with
  | some err => (p.Log "ERROR" ("Failed to change to project directory: " ++ err), false)
  | none =>
    let up : Command := ⟨["docker-compose", "-f", "docker-compose.dev.yml", "up", "-d"],
      ProjectPath⟩
    let p := p.exec up
    match w.run up with
    | CmdOutcome.failed err => (p.Log "ERROR" ("Failed to start mock services: " ++ err), false)
    | CmdOutcome.ok _ =>
      let p := p.Log "INFO" "Waiting for services to be ready..."
      let ps : Command :=
        ⟨["docker-compose", "-f", "docker-compose.dev.yml", "ps", "--services", "--filter",
          "status=running"], ProjectPath⟩
      let p := p.exec ps
      match w.run ps with
      | CmdOutcome.failed _ => (p.Log "ERROR" "Failed to check running services", false)
      | CmdOutcome.ok output =>
        let services := strings.Split (strings.TrimSpace output) '\n'
        if services.length ≥ 2 then (p.Log "SUCCESS" "Mock services started successfully", true)
        else (p.Log "ERROR" "Mock services failed to start", false)

/-- Go `main` of the web pipeline: `Args` is `os.Args`. -/
def main (Args : List String) (clientError : Option String) (now : Nat) (x : Externals)
    (w : World) : Pipeline × Nat :=
  let (baseURL, skipInit, skipDataLoad, skipTests) := arguments "http://localhost:3000" Args
  Run (NewWebPipeline baseURL skipInit skipDataLoad skipTests clientError now) x w

end Web

/-! ## Vocabulary of the statements and concrete inputs -/

/-- What one completed pass of the loop body of `APITests` does to the tally: one more row
counted, one more verdict, one more line, and the line starts with the method of the row and
`path` of its declared path. -/
def RowDone {P : Type} (path : String → String) (e : Endpoint) (st st2 : ApiState P) : Prop :=
  st2.result.Total = st.result.Total + 1 ∧
  st2.result.Passed + st2.result.Failed = st.result.Passed + st.result.Failed + 1 ∧
  ∃ rest : String,
    st2.result.Details = st.result.Details ++ [e.Method ++ " " ++ path e.URL ++ rest]

/-- The lines are those of the rows, one per row and in the order of the rows: each starts
with the method of its row, a blank and `path` of the declared path of the row. -/
def LinesOf (path : String → String) : List Endpoint → List String → Prop :=
  List.Forall₂ (fun e line => ∃ rest : String, line = e.Method ++ " " ++ path e.URL ++ rest)

/-- The summary of the skip path. -/
def skipped : APITestResult :=
  { Total := 0, Passed := 0, Failed := 0, SuccessRate := 100, Details := [] }

namespace Itinerary

/-- The row enters the upload branch of the loop body. -/
def takesUploadBranch (e : Endpoint) : Bool :=
  e.Method = "POST" && (strings.Contains (substitute e.URL) "/media" &&
    strings.Contains e.Desc "Upload test image")

/-- A pipeline as `main` creates it without arguments. -/
def freshPipeline : Pipeline := NewPipeline "http://localhost:8080" false false false none 0

/-- A pipeline as `main` creates it for `--skip-tests` behind the default URL. -/
def skippingPipeline : Pipeline := NewPipeline "http://localhost:8080" false false true none 0

/-- Every row is answered with status 200. -/
def allOK : Nat → CaseWorld :=
  fun _ => ⟨ImageOutcome.ready, none, HttpOutcome.response 200, "1ms"⟩

/-- The test image is readable and the server refuses the connection of the upload (row 14,
`Upload test image`); every other row is answered with status 200. -/
def uploadRefused : Nat → CaseWorld :=
  fun i => ⟨ImageOutcome.ready, none,
    if i = 14 then HttpOutcome.failed "connection refused" else HttpOutcome.response 200, "1ms"⟩

end Itinerary

namespace Web

/-- A pipeline as `main` creates it without arguments. -/
def freshPipeline : Pipeline := NewWebPipeline "http://localhost:3000" false false false none 0

/-- A pipeline as `main` creates it for `--skip-tests` behind the default URL. -/
def skippingPipeline : Pipeline := NewWebPipeline "http://localhost:3000" false false true none 0

/-- Every row is answered with status 200. -/
def allOK : Nat → CaseWorld := fun _ => ⟨HttpOutcome.response 200, "1ms"⟩

end Web

/-- The sixteen sampled latency fields of the itinerary result, in the order in which the
statistics block reads them. -/
def Itinerary.samples (r : Itinerary.PerformanceResult) : List ℚ :=
  [r.HealthCheck, r.ListItineraries, r.SearchByCity, r.ActuatorInfo, r.ActuatorMetrics,
   r.SwaggerUI, r.OpenAPIDocs, r.CreateItinerary, r.UpdateItinerary, r.DeleteItinerary,
   r.GetItinerary, r.AddItem, r.RemoveItem, r.GetMedia, r.CreateMedia, r.DeleteMedia]

/-- The six sampled latency fields of the web result, in the order in which the statistics
block reads them. -/
def Web.samples (r : Web.PerformanceResult) : List ℚ :=
  [r.HealthCheck, r.Destinations, r.Accommodations, r.AuthLogin, r.AuthRegister, r.AuthMe]

/-- The samples that are not the sentinel `-1`. -/
def nonSentinel (samples : List ℚ) : List ℚ := samples.filter (fun x => decide (x ≠ -1))

/-- The four derived fields are the statistics of `valid`: arithmetic mean, a greatest and a
least element, and the number of elements. -/
def StatisticsOf (valid : List ℚ) (average max min : ℚ) (count : Nat) : Prop :=
  average = valid.sum / (valid.length : ℚ) ∧
  (max ∈ valid ∧ ∀ v ∈ valid, v ≤ max) ∧
  (min ∈ valid ∧ ∀ v ∈ valid, min ≤ v) ∧
  count = valid.length

/-- An itinerary result in which `ListItineraries` holds the sentinel and every other sample
is a latency (six of them zero). -/
def Itinerary.oneSentinel : Itinerary.PerformanceResult :=
  { HealthCheck := 12, ListItineraries := -1, SearchByCity := 30, ActuatorInfo := 4,
    ActuatorMetrics := 5, SwaggerUI := 9, OpenAPIDocs := 7, CreateItinerary := 14,
    UpdateItinerary := 13, DeleteItinerary := 12 }

/-- A web result in which `Destinations` holds the sentinel and every other sample is a
latency. -/
def Web.oneSentinel : Web.PerformanceResult :=
  { HealthCheck := 12, Destinations := -1, Accommodations := 30, AuthLogin := 4,
    AuthRegister := 5, AuthMe := 9 }

/-- The step that a log line announces: the text after `Executing step: ` of a line of level
`INFO` that starts so. -/
def announcedStep {P : Type} : Event P → Option String
  | Event.log level message =>
    if level = "INFO" ∧ "Executing step: ".data.isPrefixOf message.data = true then
      some ⟨message.data.drop "Executing step: ".data.length⟩
    else none
  | _ => none

/-- The names of the steps that the trace announces, in the order of the announcements. -/
def announced {P : Type} (trace : List (Event P)) : List String := trace.filterMap announcedStep

/-- The data of a rendering of the report template. -/
def renderedData {P : Type} : Event P → Option (ReportData P)
  | Event.render data => some data
  | _ => none

/-- The data handed to the report template, in the order of the renderings. -/
def rendered {P : Type} (trace : List (Event P)) : List (ReportData P) :=
  trace.filterMap renderedData

/-- The requests of the trace, in the order in which they were sent. -/
def requests {P : Type} (trace : List (Event P)) : List Request :=
  trace.filterMap (fun e => match e with
    | Event.http r => some r
    | _ => none)

/-- What the harness can see of a pipeline: the results, the flag `SkipTests` and the steps
announced so far. -/
structure View (P : Type) where
  Results : PipelineResult P
  SkipTests : Bool
  announced : List String

/-- The view of a pipeline. -/
def view {P : Type} (p : Pipeline P) : View P :=
  ⟨p.Results, p.SkipTests, announced p.Trace⟩

/-- Some character of `text` differs from the character of `pattern` at the same position. -/
def mismatch : List Char → List Char → Bool
  | c :: pattern, d :: text => c != d || mismatch pattern text
  | _, _ => false

/-- The text cannot start the announcement of a step, whatever follows it: one of its
characters differs from `Executing step: ` at the same position. -/
def plainText (text : String) : Bool :=
  mismatch "Executing step: ".data text.data

/-- The `Step` that the deferred function of `ExecuteStep` stores for an outcome of the
operation. -/
def recorded {P : Type} (name : String) (elapsed : Nat) : Outcome (Payload P) → Step P
  | Outcome.returned value =>
    { Name := name, Success := true, Duration := (elapsed : ℚ) / 1000000000, Error := "",
      Result := some value }
  | Outcome.faulted r =>
    { Name := name, Success := false, Duration := (elapsed : ℚ) / 1000000000,
      Error := "Panic: " ++ r, Result := none }

/-- The keys of the step map after the assignment of `name`. -/
def withKey (keys : List String) (name : String) : List String :=
  if name ∈ keys then keys else keys ++ [name]

/-- The operation changes nothing that the harness can see. -/
def Transparent {P : Type} (fn : Pipeline P → Pipeline P × Outcome (Payload P)) : Prop :=
  ∀ p, view (fn p).1 = view p

/-- The operation renders no report. -/
def Silent {P : Type} (fn : Pipeline P → Pipeline P × Outcome (Payload P)) : Prop :=
  ∀ p, rendered (fn p).1.Trace = rendered p.Trace

/-- The data that the itinerary `GenerateHTMLReport` builds on the pipeline `p`. -/
def Itinerary.reportData (p : Itinerary.Pipeline) : ReportData Itinerary.PerformanceResult :=
  { Title := "MusafirGO Pipeline Report",
    StartTime := p.Results.StartTime,
    EndTime := p.Results.EndTime,
    TotalDuration := p.Results.TotalDuration,
    Success := p.Results.Success,
    Steps := p.Results.Steps,
    APIResults := (Itinerary.getAPIResults p).2,
    Performance := Itinerary.getPerformanceResults p }

/-- The data that the web `GenerateHTMLReport` builds on the pipeline `p`. -/
def Web.reportData (p : Web.Pipeline) : ReportData Web.PerformanceResult :=
  { Title := "MusafirGO Web Service Pipeline Report",
    StartTime := p.Results.StartTime,
    EndTime := p.Results.EndTime,
    TotalDuration := p.Results.TotalDuration,
    Success := p.Results.Success,
    Steps := p.Results.Steps,
    APIResults := Web.getAPIResults p,
    Performance := Web.getPerformanceResults p }

/-- The pipeline on which the itinerary `Run` calls `GenerateHTMLReport`: the first ten steps
are done and the eleventh is announced. -/
def Itinerary.atReport (p : Itinerary.Pipeline) (x : Itinerary.Externals) (w : Itinerary.World) :
    Itinerary.Pipeline :=
  (runSteps w.elapsed ((Itinerary.steps x w).take 10)
    ((p.Log "INFO" "Starting MusafirGO Itinerary Service Pipeline...").Log "INFO"
      ("Base URL: " ++ p.BaseURL))).Log "INFO" "Executing step: GenerateHTMLReport"

/-- The pipeline on which the web `Run` calls `GenerateHTMLReport`: the first six steps are
done and the seventh is announced. -/
def Web.atReport (p : Web.Pipeline) (x : Web.Externals) (w : Web.World) : Web.Pipeline :=
  (runSteps w.elapsed ((Web.steps x w).take 6)
    (((p.Log "INFO" "Starting MusafirGO Web Service Pipeline...").Log "INFO"
      ("Base URL: " ++ p.BaseURL)).Log "INFO"
      ("Project Path: " ++ Web.ProjectPath))).Log "INFO" "Executing step: GenerateHTMLReport"

/-- The names of the steps of the itinerary `Run`, in the order of the source text. -/
def Itinerary.stepNames : List String :=
  ["CheckPrerequisites", "BuildApplicationImage", "InitializeDatabase", "LoadTestData",
   "HealthChecks", "APITests", "PerformanceTests", "ReloadTestData", "DisplayDetailedResults",
   "CleanupOldReports", "GenerateHTMLReport", "OpenReportInChrome"]

/-- The names of the steps of the web `Run`, in the order of the source text. -/
def Web.stepNames : List String :=
  ["CheckPrerequisites", "BuildAngularApplication", "StartMockServices", "HealthChecks",
   "APITests", "PerformanceTests", "GenerateHTMLReport"]

/-- Every operation taken as given returns `true`. -/
def Itinerary.noExternals : Itinerary.Externals :=
  { CheckPrerequisites := fun _ => Outcome.returned true,
    BuildApplicationImage := fun _ => Outcome.returned true,
    InitializeDatabase := fun _ => Outcome.returned true,
    LoadTestData := fun _ => Outcome.returned true,
    CleanupOldReports := fun _ => Outcome.returned true,
    OpenReportInChrome := fun _ => Outcome.returned true }

/-- Every request is answered with status 200 after 5 ms, the throwaway itinerary is created
with identifier `42`, the report is rendered and written, every step takes a second. -/
def Itinerary.quietWorld : Itinerary.World :=
  { health := fun _ => HttpOutcome.response 200,
    api := Itinerary.allOK,
    perf := ⟨fun _ => Sample.done 5, Itinerary.CreateOutcome.response 201 (Itinerary.IdField.text "42"),
      none⟩,
    report := ⟨none, none, none, "20250101_120000"⟩,
    elapsed := fun _ => 1000000000,
    now := 12000000000,
    layout := fun t => toString t }

/-- Every operation taken as given returns `true`. -/
def Web.noExternals : Web.Externals :=
  { CheckPrerequisites := fun _ => Outcome.returned true,
    BuildAngularApplication := fun _ => Outcome.returned true,
    StartMockServices := fun _ => Outcome.returned true }

/-- Every request is answered with status 200 after 5 ms, the report is rendered and written,
every step takes a second. -/
def Web.quietWorld : Web.World :=
  { health := fun _ => HttpOutcome.response 200,
    api := Web.allOK,
    perf := fun _ => Sample.done 5,
    report := ⟨none, none, none, "20250101_120000"⟩,
    elapsed := fun _ => 1000000000,
    now := 7000000000,
    layout := fun t => toString t }

/-- The test image is readable and the server refuses the connection of the upload; the
creation response of the performance step carries no identifier; the rest is as in
`quietWorld`. -/
def Itinerary.refusingWorld : Itinerary.World :=
  { Itinerary.quietWorld with
    api := Itinerary.uploadRefused,
    perf := ⟨fun _ => Sample.done 5,
      Itinerary.CreateOutcome.response 201 (Itinerary.IdField.other "nil"), none⟩ }

/-- The commands of the trace, in the order in which they were started. -/
def commands {P : Type} (trace : List (Event P)) : List Command :=
  trace.filterMap (fun e => match e with
    | Event.exec cmd => some cmd
    | _ => none)

/-- The names of the files that the trace writes, in the order of the writes. -/
def written {P : Type} (trace : List (Event P)) : List String :=
  trace.filterMap (fun e => match e with
    | Event.writeFile name => some name
    | _ => none)

/-- The three skip flags of a pipeline. -/
def flags {P : Type} (p : Pipeline P) : Bool × Bool × Bool :=
  (p.SkipInit, p.SkipDataLoad, p.SkipTests)

/-- What a pipeline has done to the host and was told to skip: the flags, the commands started
and the files written. -/
def footprint {P : Type} (p : Pipeline P) : (Bool × Bool × Bool) × List Command × List String :=
  (flags p, commands p.Trace, written p.Trace)

/-- An observation of the pipeline that log lines, requests and the recording of results do
not change. -/
def Plain {P α : Type} (obs : Pipeline P → α) : Prop :=
  (∀ p level message, obs (p.Log level message) = obs p) ∧
  (∀ p r, obs (p.send r) = obs p) ∧
  (∀ (p : Pipeline P) results, obs { p with Results := results } = obs p)

/-- The operation leaves the observation as it is. -/
def Keeps {P α : Type} (obs : Pipeline P → α)
    (fn : Pipeline P → Pipeline P × Outcome (Payload P)) : Prop :=
  ∀ p, obs (fn p).1 = obs p

/-- The pipeline on which the itinerary `Run` calls the operation of its step number `k`
(counted from 0): the steps before it are done and the step is announced. -/
def Itinerary.atStep (k : Nat) (p : Itinerary.Pipeline) (x : Itinerary.Externals)
    (w : Itinerary.World) : Itinerary.Pipeline :=
  (runSteps w.elapsed ((Itinerary.steps x w).take k)
    ((p.Log "INFO" "Starting MusafirGO Itinerary Service Pipeline...").Log "INFO"
      ("Base URL: " ++ p.BaseURL))).Log "INFO"
    ("Executing step: " ++ (Itinerary.stepNames.getD k ""))

/-- The file that `GenerateHTMLReport` asks the system to write, when the template is parsed
and executed: its name is `stem`, the timestamp and `.html`. -/
def reportFiles (w : ReportWorld) (stem : String) : List String :=
  if w.parse = none ∧ w.execute = none then [stem ++ w.timestamp ++ ".html"] else []

/-- Every command of the host succeeds and prints three lines. -/
def allRun : Command → CmdOutcome := fun _ => CmdOutcome.ok "postgres\nredis\nitinerary-service\n"

/-- The itinerary pipeline that `main` creates for `--skip-init --skip-data-load --skip-tests`. -/
def Itinerary.idlePipeline : Itinerary.Pipeline :=
  Itinerary.NewPipeline "http://localhost:8080" true true true none 0

/-- The web pipeline that `main` creates for `--skip-init`. -/
def Web.skipInitPipeline : Web.Pipeline :=
  Web.NewWebPipeline "http://localhost:3000" true false false none 0

/-- The directory change succeeds, and so does every command. -/
def Web.mockReady : Web.MockWorld := ⟨none, allRun⟩

/-- The command ended without error. -/
def CmdOutcome.succeeded : CmdOutcome → Bool
  | CmdOutcome.ok _ => true
  | CmdOutcome.failed _ => false

/-- The container engine is reachable for the pipeline `p`: the client exists and the first
ping succeeds or `StartDockerService`, called after the two log lines that precede it, returns
`true`; `intro` is the first log line of `CheckPrerequisites`. -/
def engineReachable {P : Type} (p : Pipeline P) (w : HostWorld) (intro : String) : Prop :=
  p.DockerClient = true ∧
    (w.ping 0 = none ∨
      (StartDockerService
        ((p.Log "INFO" intro).Log "WARN" "Docker: NOT RUNNING - Attempting to start...")
        w 1).2 = true)

/-- A host on which the engine does not answer at first and is started, and every tool is
found; the map is enumerated backwards. -/
def startingHost : HostWorld :=
  { goos := "linux",
    run := fun _ => CmdOutcome.ok "",
    ping := fun n => if n < 3 then some "Cannot connect to the Docker daemon" else none,
    order := List.reverse }

/-- Every entry of the directory is a regular file whose removal succeeds. -/
def Removable (dir : Directory) : Prop :=
  ∀ e ∈ dir, e.isDir = false ∧ e.removeError = none

/-- The name matches one of the patterns of `CleanupOldReports`. -/
def Itinerary.isOldReport (name : String) : Bool :=
  Itinerary.patterns.any (fun pattern => filepath.Match pattern name)

/-- A working directory with two old reports of the itinerary pipeline, a source file and a
report of the web pipeline. -/
def Itinerary.usedDirectory : Directory :=
  [ { name := "MusafirGO_Pipeline_Report_20250101_120000.html" },
    { name := "MusafirGO_Pipeline_Report_20250101_120000.xlsx" },
    { name := "MusafirGO_Web_Pipeline_Report_20250101_120000.html" },
    { name := "pipeline.go" } ]

/-- The workbook is saved and closed without error. -/
def Itinerary.excelReady : Itinerary.ExcelWorld := ⟨none, none, "20250101_120000"⟩

/-- The multipart request of the upload branch leaves the process: the image is read and
encoded and the request is created. -/
def Itinerary.uploadSent (cw : Itinerary.CaseWorld) : Bool :=
  match cw.image, cw.newRequest with
  | Itinerary.ImageOutcome.ready, none => true
  | _, _ => false

/-- The path after the replacement of the two placeholders only. -/
def Itinerary.placeholdersReplaced (declared : String) : String :=
  strings.ReplaceAll
    (strings.ReplaceAll declared "{id}" Itinerary.predefinedItineraryID)
    "{mediaId}" Itinerary.predefinedMediaID

/-- The value that `measureEndpoint` returns for a sample: the sentinel `-1` after an error,
the milliseconds otherwise. -/
def latency : Sample → ℚ
  | Sample.failed => -1
  | Sample.done ms => ms

/-- The identifier with which the itinerary `PerformanceTests` goes on after the creation of
the throwaway itinerary: the string under `id` after a 201, the empty string when the creation
fails or answers another status, and no identifier when the type assertion panics. -/
def Itinerary.createdID (w : Itinerary.PerfWorld) : Outcome String :=
  match w.create with
  | Itinerary.CreateOutcome.failed => Outcome.returned ""
  | Itinerary.CreateOutcome.response code id =>
    if code = 201 then
      match id with
      | Itinerary.IdField.text s => Outcome.returned s
      | Itinerary.IdField.other dynamicType =>
        Outcome.faulted
          ("interface conversion: interface \x7b\x7d is " ++ dynamicType ++ ", not string")
    else Outcome.returned ""

/-- The sample fields of the itinerary result before the statistics block: the ten measured
at once, and the six that depend on the throwaway itinerary, which keep the zero value when
`created` is false. -/
def Itinerary.measured (w : Itinerary.PerfWorld) (created : Bool) :
    Itinerary.PerformanceResult :=
  { HealthCheck := latency (w.sample "Health Check"),
    ListItineraries := latency (w.sample "List Itineraries"),
    SearchByCity := latency (w.sample "Search by City"),
    ActuatorInfo := latency (w.sample "Actuator Info"),
    ActuatorMetrics := latency (w.sample "Actuator Metrics"),
    SwaggerUI := latency (w.sample "Swagger UI"),
    OpenAPIDocs := latency (w.sample "OpenAPI Docs"),
    CreateItinerary := latency (w.sample "Create Itinerary"),
    UpdateItinerary := latency (w.sample "Update Itinerary"),
    DeleteItinerary := latency (w.sample "Delete Itinerary"),
    GetItinerary := if created then latency (w.sample "Get Itinerary") else 0,
    AddItem := if created then latency (w.sample "Add Item") else 0,
    RemoveItem := if created then latency (w.sample "Remove Item") else 0,
    GetMedia := if created then latency (w.sample "Get Media") else 0,
    CreateMedia := if created then latency (w.sample "Create Media") else 0,
    DeleteMedia := if created then latency (w.sample "Delete Media") else 0 }

/-- The sample fields of the web result before the statistics block. -/
def Web.measured (sample : String → Sample) : Web.PerformanceResult :=
  { HealthCheck := latency (sample "Health Check"),
    Destinations := latency (sample "List Destinations"),
    Accommodations := latency (sample "List Accommodations"),
    AuthLogin := latency (sample "Auth Login"),
    AuthRegister := latency (sample "Auth Register"),
    AuthMe := latency (sample "Auth Me") }

/-- Every measurement takes 5 ms and the creation of the throwaway itinerary fails. -/
def Itinerary.creationRefused : Itinerary.PerfWorld :=
  ⟨fun _ => Sample.done 5, Itinerary.CreateOutcome.failed, none⟩

/-- Every measurement takes 5 ms, and the creation of the throwaway itinerary is answered with
status 201 and a body without string under `id`. -/
def Itinerary.creationWithoutID : Itinerary.PerfWorld :=
  ⟨fun _ => Sample.done 5,
    Itinerary.CreateOutcome.response 201 (Itinerary.IdField.other "nil"), none⟩

/-- The measurement `List Itineraries` fails, every other one takes 5 ms, and the throwaway
itinerary is created with the identifier `42`. -/
def Itinerary.oneFailure : Itinerary.PerfWorld :=
  ⟨fun name => if name = "List Itineraries" then Sample.failed else Sample.done 5,
    Itinerary.CreateOutcome.response 201 (Itinerary.IdField.text "42"), none⟩

/-- Every measurement takes 5 ms and the throwaway itinerary is created with the identifier
`42`. -/
def Itinerary.allMeasured : Itinerary.PerfWorld :=
  ⟨fun _ => Sample.done 5,
    Itinerary.CreateOutcome.response 201 (Itinerary.IdField.text "42"), none⟩

/-- The operation returned. -/
def Outcome.isReturned {α : Type} : Outcome α → Bool
  | Outcome.returned _ => true
  | Outcome.faulted _ => false

/-- No operation of the calls faults when `runSteps` makes them one after the other from the
pipeline `p` on. -/
def faultless {P : Type} (elapsed : String → Nat) : List (StepCall P) → Pipeline P → Bool
  | [], _ => true
  | call :: rest, p =>
    Outcome.isReturned (call.fn (p.Log "INFO" ("Executing step: " ++ call.name))).2 &&
      faultless elapsed rest (ExecuteStep p call.name (elapsed call.name) call.fn)

/-- Every operation taken as given reports failure: it returns `false`. -/
def Itinerary.reluctant : Itinerary.Externals :=
  { CheckPrerequisites := fun _ => Outcome.returned false,
    BuildApplicationImage := fun _ => Outcome.returned false,
    InitializeDatabase := fun _ => Outcome.returned false,
    LoadTestData := fun _ => Outcome.returned false,
    CleanupOldReports := fun _ => Outcome.returned false,
    OpenReportInChrome := fun _ => Outcome.returned false }

/-- The itinerary pipeline as `Run` hands it to its first step: the two opening log lines are
written. -/
def Itinerary.opened (p : Itinerary.Pipeline) : Itinerary.Pipeline :=
  (p.Log "INFO" "Starting MusafirGO Itinerary Service Pipeline...").Log "INFO"
    ("Base URL: " ++ p.BaseURL)

/-- The web pipeline as `Run` hands it to its first step: the three opening log lines are
written. -/
def Web.opened (p : Web.Pipeline) : Web.Pipeline :=
  ((p.Log "INFO" "Starting MusafirGO Web Service Pipeline...").Log "INFO"
    ("Base URL: " ++ p.BaseURL)).Log "INFO" ("Project Path: " ++ Web.ProjectPath)

/-- The lines of the output that are not empty. -/
def nonEmptyLines (output : String) : List String :=
  (strings.Split output '\n').filter (fun line => line ≠ "")

/-- The number of newline characters of a text. -/
def newlines (text : String) : Nat := text.data.count '\n'

/-- Every command succeeds and prints `output`. -/
def printing (output : String) : Command → CmdOutcome := fun _ => CmdOutcome.ok output

/-- The request of one poll of `LoadTestData` on a pipeline with base URL `baseURL`. -/
def Itinerary.healthPoll (baseURL : String) : Request :=
  ⟨"GET", baseURL ++ "/actuator/health", RequestBody.empty⟩

/-- The service answers the poll number `ready` (counted from 0) with status 200 and fails the
polls before it; the load command fails. -/
def Itinerary.readyAt (ready : Nat) : Itinerary.LoadWorld :=
  ⟨fun i => if i = ready then HttpOutcome.response 200 else HttpOutcome.failed "connection refused",
    fun _ => CmdOutcome.failed "exit status 1"⟩

/-- The service never answers with status 200. -/
def Itinerary.neverReady : Itinerary.LoadWorld :=
  ⟨fun _ => HttpOutcome.response 503, allRun⟩

/-! # Theorems -/

/-! ## The endpoint exerciser -/

theorem classify_result {P : Type} (st : ApiState P) (m u : String) (e : Int) (el : String)
    (o : HttpOutcome) :
    (classify st m u e el o).result.Total = st.result.Total ∧
    (classify st m u e el o).result.Passed + (classify st m u e el o).result.Failed
      = st.result.Passed + st.result.Failed + 1 ∧
    ∃ rest : String, (classify st m u e el o).result.Details
      = st.result.Details ++ [m ++ " " ++ u ++ rest] := by
  cases o with
  | failed err =>
    refine ⟨by simp [classify], by simp [classify]; omega, " - FAILED (" ++ err ++ ")", ?_⟩
    simp [classify, String.append_assoc]
  | response code =>
    by_cases h : code = e
    · refine ⟨by simp [classify, h], by simp [classify, h]; omega, " - PASSED (" ++ el ++ ")", ?_⟩
      simp [classify, h, String.append_assoc]
    · refine ⟨by simp [classify, h], by simp [classify, h]; omega,
        " - FAILED (Expected: " ++ fmt.d e ++ ", Got: " ++ fmt.d code ++ ")", ?_⟩
      simp [classify, h, String.append_assoc]

theorem Itinerary.apiCase_result (cw : Itinerary.CaseWorld) (e : Endpoint)
    (st st2 : ApiState Itinerary.PerformanceResult)
    (h : Itinerary.apiCase cw e st = (st2, none)) :
    RowDone Itinerary.substitute e st st2 := by
  unfold Itinerary.apiCase at h
  simp only [] at h
  split_ifs at h
  all_goals (repeat' split at h)
  all_goals simp only [Prod.mk.injEq, and_true, reduceCtorEq, and_false] at h
  all_goals subst h
  all_goals first
    | exact ⟨by simp [Itinerary.uploadAbort], by simp [Itinerary.uploadAbort]; omega,
        ⟨_, by simp only [Itinerary.uploadAbort, String.append_assoc]; rfl⟩⟩
    | exact classify_result _ _ _ _ _ _

theorem Web.web_apiCase_result (cw : Web.CaseWorld) (e : Endpoint)
    (st st2 : ApiState Web.PerformanceResult)
    (h : Web.apiCase cw e st = (st2, none)) :
    RowDone id e st st2 := by
  unfold Web.apiCase at h
  simp only [Prod.mk.injEq, and_true] at h
  subst h
  split_ifs <;> exact classify_result _ _ _ _ _ _

theorem loopFrom_result {P ω : Type}
    (body : ω → Endpoint → ApiState P → ApiState P × Option String) (w : Nat → ω)
    (path : String → String)
    (hbody : ∀ c e st st2, body c e st = (st2, none) → RowDone path e st st2) :
    ∀ (l : List Endpoint) (i : Nat) (st st2 : ApiState P),
      loopFrom body w i l st = (st2, none) →
      st2.result.Total = st.result.Total + l.length ∧
      st2.result.Passed + st2.result.Failed = st.result.Passed + st.result.Failed + l.length ∧
      ∃ lines, st2.result.Details = st.result.Details ++ lines ∧ LinesOf path l lines := by
  intro l
  induction l with
  | nil =>
    intro i st st2 h
    simp only [loopFrom, Prod.mk.injEq, and_true] at h
    subst h
    exact ⟨rfl, rfl, [], by simp, List.Forall₂.nil⟩
  | cons e rest ih =>
    intro i st st2 h
    rw [loopFrom] at h
    generalize hb : body (w i) e st = res at h
    obtain ⟨st1, o⟩ := res
    cases o with
    | some d => simp at h
    | none =>
      simp only at h
      obtain ⟨h1, h2, r, h3⟩ := hbody _ _ _ _ hb
      obtain ⟨k1, k2, lines, k3, k4⟩ := ih _ _ _ h
      refine ⟨by rw [k1, h1, List.length_cons]; omega, by rw [k2, h2, List.length_cons]; omega,
        (e.Method ++ " " ++ path e.URL ++ r) :: lines, ?_, List.Forall₂.cons ⟨r, rfl⟩ k4⟩
      rw [k3, h3]; simp

theorem loopFrom_no_fault {P ω : Type}
    (body : ω → Endpoint → ApiState P → ApiState P × Option String) (w : Nat → ω) :
    ∀ (l : List Endpoint) (i : Nat) (st : ApiState P),
      (∀ j e, l[j]? = some e → ∀ s, (body (w (i + j)) e s).2 = none) →
      (loopFrom body w i l st).2 = none := by
  intro l
  induction l with
  | nil => intro i st _; rfl
  | cons e rest ih =>
    intro i st h
    rw [loopFrom]
    have h0 := h 0 e (by simp) st
    generalize hb : body (w i) e st = res at h0
    obtain ⟨st1, o⟩ := res
    simp only [Nat.add_zero] at h0
    rw [hb] at h0
    simp only at h0
    subst h0
    simp only
    apply ih
    intro j e2 hj s
    have := h (j + 1) e2 (by simpa using hj) s
    rwa [show i + (j + 1) = i + 1 + j by omega] at this

theorem Itinerary.upload_rows :
    Itinerary.endpoints.map Itinerary.takesUploadBranch
      = List.replicate 14 false ++ [true] ++ List.replicate 41 false := by
  decide

theorem Itinerary.upload_row_index (j : Nat) (e : Endpoint)
    (hj : Itinerary.endpoints[j]? = some e) (hu : Itinerary.takesUploadBranch e = true) :
    j = 14 := by
  have h1 : (Itinerary.endpoints.map Itinerary.takesUploadBranch)[j]? = some true := by
    rw [List.getElem?_map, hj]; simp [hu]
  rw [Itinerary.upload_rows] at h1
  have key : ∀ k < 56,
      (List.replicate 14 false ++ [true] ++ List.replicate 41 false)[k]? = some true →
        k = 14 := by decide
  by_cases hlt : j < 56
  · exact key j hlt h1
  · rw [List.getElem?_eq_none (by simp; omega)] at h1
    exact absurd h1 (by simp)

theorem Itinerary.apiCase_no_fault (cw : Itinerary.CaseWorld) (e : Endpoint)
    (st : ApiState Itinerary.PerformanceResult) (hreq : cw.newRequest = none)
    (hup : Itinerary.takesUploadBranch e = true → ∀ err, cw.http ≠ HttpOutcome.failed err) :
    (Itinerary.apiCase cw e st).2 = none := by
  unfold Itinerary.apiCase
  simp only [hreq]
  unfold Itinerary.takesUploadBranch at hup
  split_ifs with h1 h2 h3 h4
  · have hup2 := hup (by simp [h1] ; simpa using h2)
    cases hi : cw.image <;> simp only
    cases hh : cw.http with
    | failed err => exact absurd hh (hup2 err)
    | response code => rfl
  all_goals rfl

/-- What every summary returned by the itinerary `APITests` looks like. -/
theorem Itinerary.APITests_returned (p : Itinerary.Pipeline) (w : Nat → Itinerary.CaseWorld)
    (r : APITestResult) (h : (Itinerary.APITests p w).2 = Outcome.returned r) :
    (p.SkipTests = true ∧ r = skipped) ∨
    (p.SkipTests = false ∧ r.Total = Itinerary.endpoints.length ∧
      r.Passed + r.Failed = r.Total ∧
      r.SuccessRate = (r.Passed : ℚ) / (r.Total : ℚ) * 100 ∧
      LinesOf Itinerary.substitute Itinerary.endpoints r.Details) := by
  unfold Itinerary.APITests at h
  by_cases hs : p.SkipTests = true
  · left
    simp only [hs, if_true, Outcome.returned.injEq] at h
    exact ⟨hs, h.symm⟩
  · right
    simp only [hs, Bool.false_eq_true, if_false] at h
    generalize hl : loopFrom Itinerary.apiCase w 0 Itinerary.endpoints _ = res at h
    obtain ⟨st, o⟩ := res
    cases o with
    | some d => simp at h
    | none =>
      simp only [Outcome.returned.injEq] at h
      obtain ⟨k1, k2, lines, k3, k4⟩ :=
        loopFrom_result Itinerary.apiCase w Itinerary.substitute Itinerary.apiCase_result _ _ _ _ hl
      simp only [Nat.zero_add, List.nil_append] at k1 k2 k3
      subst h
      refine ⟨(Bool.not_eq_true _).mp hs, k1, by simp only; omega, rfl, ?_⟩
      simp only [k3]
      exact k4

/-- When the itinerary `APITests` returns a summary: every direct `http.NewRequest` succeeds
and the exchange of the upload row does not end in an error. -/
theorem Itinerary.APITests_returns (p : Itinerary.Pipeline) (w : Nat → Itinerary.CaseWorld)
    (hreq : ∀ i, (w i).newRequest = none)
    (hup : ∀ err, (w 14).http ≠ HttpOutcome.failed err) :
    ∃ r, (Itinerary.APITests p w).2 = Outcome.returned r := by
  unfold Itinerary.APITests
  by_cases hs : p.SkipTests = true
  · exact ⟨skipped, by simp only [hs, if_true]; rfl⟩
  · simp only [hs, Bool.false_eq_true, if_false]
    have hnf := loopFrom_no_fault Itinerary.apiCase w Itinerary.endpoints 0
      ⟨p.Log "INFO" "Running comprehensive API tests for all documented endpoints...",
        { Details := [] }⟩
      (by
        intro j e hj s
        apply Itinerary.apiCase_no_fault _ _ _ (hreq _)
        intro hu
        have := Itinerary.upload_row_index j e hj hu
        subst this
        simpa using hup)
    generalize hl : loopFrom Itinerary.apiCase w 0 Itinerary.endpoints _ = res at hnf
    obtain ⟨st, o⟩ := res
    simp only at hnf
    subst hnf
    exact ⟨_, rfl⟩

/-- The web `APITests` always returns a summary, and what it looks like. -/
theorem Web.web_APITests_returned (q : Web.Pipeline) (v : Nat → Web.CaseWorld) :
    ∃ r, (Web.APITests q v).2 = Outcome.returned r ∧
      ((q.SkipTests = true ∧ r = skipped) ∨
       (q.SkipTests = false ∧ r.Total = Web.endpoints.length ∧
        r.Passed + r.Failed = r.Total ∧
        r.SuccessRate = (r.Passed : ℚ) / (r.Total : ℚ) * 100 ∧
        LinesOf id Web.endpoints r.Details)) := by
  unfold Web.APITests
  by_cases hs : q.SkipTests = true
  · exact ⟨skipped, by simp only [hs, if_true]; rfl, Or.inl ⟨hs, rfl⟩⟩
  · simp only [hs, Bool.false_eq_true, if_false]
    have hnf := loopFrom_no_fault Web.apiCase v Web.endpoints 0
      ⟨q.Log "INFO" "Running comprehensive API tests for mock endpoints...", { Details := [] }⟩
      (by intro j e _ s; rfl)
    generalize hl : loopFrom Web.apiCase v 0 Web.endpoints _ = res at hnf
    obtain ⟨st, o⟩ := res
    simp only at hnf
    subst hnf
    obtain ⟨k1, k2, lines, k3, k4⟩ :=
      loopFrom_result Web.apiCase v id Web.web_apiCase_result _ _ _ _ hl
    simp only [Nat.zero_add, List.nil_append] at k1 k2 k3
    refine ⟨_, rfl, Or.inr ⟨trivial, k1, by simp only; omega, rfl, ?_⟩⟩
    simp only [k3]
    exact k4

theorem LinesOf.line_at {path : String → String} {rows : List Endpoint} {lines : List String}
    (h : LinesOf path rows lines) :
    lines.length = rows.length ∧
    ∀ (i : Nat) (e : Endpoint), rows[i]? = some e →
      ∃ rest : String, lines[i]? = some (e.Method ++ " " ++ path e.URL ++ rest) := by
  unfold LinesOf at h
  induction h with
  | nil => exact ⟨rfl, by intro i e hi; simp at hi⟩
  | cons hr _ ih =>
    obtain ⟨rest, hrest⟩ := hr
    refine ⟨by simp [ih.1], ?_⟩
    intro i e hi
    cases i with
    | zero =>
      simp only [List.getElem?_cons_zero, Option.some.injEq] at hi
      subst hi
      exact ⟨rest, by simp [hrest]⟩
    | succ k =>
      simp only [List.getElem?_cons_succ] at hi
      simpa using ih.2 k e hi


theorem classify_trace {P : Type} (st : ApiState P) (m u : String) (e : Int) (el : String)
    (o : HttpOutcome) :
    ∃ level detail, (classify st m u e el o).p = st.p.Log level detail := by
  cases o with
  | failed err => exact ⟨_, _, rfl⟩
  | response code =>
    by_cases h : code = e
    · exact ⟨"SUCCESS", m ++ " " ++ u ++ " - PASSED (" ++ el ++ ")",
        by simp only [classify, h, if_true]⟩
    · exact ⟨"ERROR", m ++ " " ++ u ++ " - FAILED (Expected: " ++ fmt.d e ++ ", Got: " ++
        fmt.d code ++ ")", by simp only [classify, h, if_false]⟩

theorem Itinerary.apiCase_requests (cw : Itinerary.CaseWorld) (e : Endpoint)
    (st : ApiState Itinerary.PerformanceResult) (req : Request)
    (h : Event.http req ∈ (Itinerary.apiCase cw e st).1.p.Trace) :
    Event.http req ∈ st.p.Trace ∨ req.URL = st.p.BaseURL ++ Itinerary.substitute e.URL := by
  unfold Itinerary.apiCase at h
  simp only [] at h
  split_ifs at h
  all_goals (repeat' split at h)
  all_goals first
    | (simp only [Itinerary.uploadAbort, Pipeline.Log, List.mem_append, List.mem_singleton,
        reduceCtorEq, or_false] at h
       exact Or.inl h)
    | (obtain ⟨level, detail, hc⟩ := classify_trace _ _ _ _ _ _
       rw [hc] at h
       simp only [ApiState.send, Pipeline.send, Pipeline.Log, List.mem_append,
         List.mem_singleton, reduceCtorEq, or_false, Event.http.injEq] at h
       rcases h with h | h
       · exact Or.inl h
       · subst h; exact Or.inr rfl)
    | (simp only [ApiState.send, Pipeline.send, Pipeline.Log, List.mem_append,
         List.mem_singleton, reduceCtorEq, or_false, Event.http.injEq] at h
       rcases h with h | h
       · exact Or.inl h
       · subst h; exact Or.inr rfl)

theorem Web.web_apiCase_requests (cw : Web.CaseWorld) (e : Endpoint)
    (st : ApiState Web.PerformanceResult) (req : Request)
    (h : Event.http req ∈ (Web.apiCase cw e st).1.p.Trace) :
    Event.http req ∈ st.p.Trace ∨ req.URL = st.p.BaseURL ++ e.URL := by
  unfold Web.apiCase at h
  simp only [] at h
  obtain ⟨level, detail, hc⟩ := classify_trace
    (if e.Method = "POST" then
      ({ st with result := { st.result with Total := st.result.Total + 1 } } :
        ApiState Web.PerformanceResult).send
        ⟨"POST", st.p.BaseURL ++ e.URL, RequestBody.json e.Body⟩
    else
      ({ st with result := { st.result with Total := st.result.Total + 1 } } :
        ApiState Web.PerformanceResult).send
        ⟨"GET", st.p.BaseURL ++ e.URL, RequestBody.empty⟩)
    e.Method e.URL e.ExpectedStatus cw.elapsed cw.http
  rw [hc] at h
  split_ifs at h
  all_goals
    simp only [ApiState.send, Pipeline.send, Pipeline.Log, List.mem_append,
      List.mem_singleton, reduceCtorEq, or_false, Event.http.injEq] at h
    rcases h with h | h
    · exact Or.inl h
    · subst h; exact Or.inr rfl

/-! ## The step harness -/

@[simp]
theorem Pipeline.Log_Results {P : Type} (p : Pipeline P) (level message : String) :
    (p.Log level message).Results = p.Results := rfl

@[simp]
theorem Pipeline.Log_Trace {P : Type} (p : Pipeline P) (level message : String) :
    (p.Log level message).Trace = p.Trace ++ [Event.log level message] := rfl

@[simp]
theorem Pipeline.Log_SkipTests {P : Type} (p : Pipeline P) (level message : String) :
    (p.Log level message).SkipTests = p.SkipTests := rfl

@[simp]
theorem Pipeline.Log_BaseURL {P : Type} (p : Pipeline P) (level message : String) :
    (p.Log level message).BaseURL = p.BaseURL := rfl

@[simp]
theorem Pipeline.send_Results {P : Type} (p : Pipeline P) (r : Request) :
    (p.send r).Results = p.Results := rfl

@[simp]
theorem Pipeline.send_Trace {P : Type} (p : Pipeline P) (r : Request) :
    (p.send r).Trace = p.Trace ++ [Event.http r] := rfl

@[simp]
theorem Pipeline.send_SkipTests {P : Type} (p : Pipeline P) (r : Request) :
    (p.send r).SkipTests = p.SkipTests := rfl

@[simp]
theorem Pipeline.send_BaseURL {P : Type} (p : Pipeline P) (r : Request) :
    (p.send r).BaseURL = p.BaseURL := rfl

theorem getStep_setStep_self {P : Type} (name : String) (s : Step P)
    (m : List (String × Step P)) : getStep name (setStep name s m) = some s := by
  induction m with
  | nil => simp [setStep, getStep]
  | cons kv rest ih =>
    obtain ⟨k, v⟩ := kv
    by_cases h : k = name
    · simp [setStep, getStep, h]
    · simp [setStep, getStep, h, ih]

theorem getStep_setStep_other {P : Type} (name other : String) (s : Step P)
    (m : List (String × Step P)) (h : other ≠ name) :
    getStep other (setStep name s m) = getStep other m := by
  induction m with
  | nil => simp [setStep, getStep, Ne.symm h]
  | cons kv rest ih =>
    obtain ⟨k, v⟩ := kv
    by_cases hk : k = name
    · subst hk
      simp [setStep, getStep, Ne.symm h]
    · by_cases ho : k = other
      · subst ho
        simp [setStep, getStep, hk]
      · simp [setStep, getStep, hk, ho, ih]

/-- The step that `ExecuteStep` stores for an outcome of the operation. -/
theorem ExecuteStep_steps {P : Type} (p : Pipeline P) (name : String) (elapsed : Nat)
    (fn : Pipeline P → Pipeline P × Outcome (Payload P)) :
    (ExecuteStep p name elapsed fn).Results.Steps =
      setStep name
        (match (fn (p.Log "INFO" ("Executing step: " ++ name))).2 with
          | Outcome.returned value =>
            { Name := name, Success := true, Duration := (elapsed : ℚ) / 1000000000,
              Error := "", Result := some value }
          | Outcome.faulted r =>
            { Name := name, Success := false, Duration := (elapsed : ℚ) / 1000000000,
              Error := "Panic: " ++ r, Result := none })
        (fn (p.Log "INFO" ("Executing step: " ++ name))).1.Results.Steps := by
  generalize h : fn (p.Log "INFO" ("Executing step: " ++ name)) = res
  obtain ⟨p2, o⟩ := res
  cases o <;> simp [ExecuteStep, h]

theorem panic_text_ne_empty (r : String) : "Panic: " ++ r ≠ "" := by
  intro h
  have := congrArg String.length h
  simp [String.length_append] at this
  have h2 : "Panic: ".length = 7 := by decide
  omega

theorem allSucceeded_iff {P : Type} (m : List (String × Step P)) :
    allSucceeded m = true ↔ ∀ e ∈ m, e.2.Success = true := by
  induction m with
  | nil => simp [allSucceeded]
  | cons kv rest ih =>
    obtain ⟨k, v⟩ := kv
    cases hv : v.Success <;> simp [allSucceeded, hv, ih]

theorem allSucceeded_perm {P : Type} (m m2 : List (String × Step P)) (h : m2.Perm m) :
    allSucceeded m2 = allSucceeded m := by
  have key : allSucceeded m2 = true ↔ allSucceeded m = true := by
    rw [allSucceeded_iff, allSucceeded_iff]
    exact ⟨fun a e he => a e (h.mem_iff.mpr he), fun a e he => a e (h.mem_iff.mp he)⟩
  cases h1 : allSucceeded m2 <;> cases h2 : allSucceeded m <;> simp_all

theorem finalize_results {P : Type} (p : Pipeline P) (now : Nat) (layout : Nat → String) :
    (finalize p now layout).1.Results.Steps = p.Results.Steps ∧
    (finalize p now layout).1.Results.Success = allSucceeded p.Results.Steps ∧
    (finalize p now layout).1.Results.EndTime = now ∧
    (finalize p now layout).1.Results.StartTime = p.Results.StartTime ∧
    (finalize p now layout).2 = if allSucceeded p.Results.Steps then 0 else 1 := by
  unfold finalize
  cases h : allSucceeded p.Results.Steps <;> simp [h]

/-- What `finalize` decides. -/
theorem finalize_verdict {P : Type} (p : Pipeline P) (now : Nat) (layout : Nat → String) :
    ((finalize p now layout).1.Results.Success = true ↔
      ∀ e ∈ (finalize p now layout).1.Results.Steps, e.2.Success = true) ∧
    (∀ m, m.Perm (finalize p now layout).1.Results.Steps →
      allSucceeded m = (finalize p now layout).1.Results.Success) ∧
    ((finalize p now layout).2 = 0 ↔ (finalize p now layout).1.Results.Success = true) ∧
    ((finalize p now layout).2 = 1 ↔ (finalize p now layout).1.Results.Success = false) := by
  obtain ⟨h1, h2, _, _, h5⟩ := finalize_results p now layout
  rw [h1, h2, h5]
  refine ⟨allSucceeded_iff _, fun m hm => allSucceeded_perm _ _ hm, ?_, ?_⟩
  · cases allSucceeded p.Results.Steps <;> simp
  · cases allSucceeded p.Results.Steps <;> simp

/-! ## Latency statistics -/

theorem appendValid_nil (x : ℚ) : appendValid [] x = [x].filter (fun v => decide (0 ≤ v)) := by
  unfold appendValid
  by_cases h : 0 ≤ x <;> simp [h]

theorem appendValid_filter (l : List ℚ) (x : ℚ) :
    appendValid (l.filter (fun v => decide (0 ≤ v))) x
      = (l ++ [x]).filter (fun v => decide (0 ≤ v)) := by
  unfold appendValid
  by_cases h : 0 ≤ x <;> simp [h]

theorem Itinerary.validResults_eq (r : Itinerary.PerformanceResult) :
    Itinerary.validResults r = (Itinerary.samples r).filter (fun v => decide (0 ≤ v)) := by
  simp only [Itinerary.validResults, appendValid_nil, appendValid_filter]
  rfl

theorem Web.web_validResults_eq (r : Web.PerformanceResult) :
    Web.validResults r = (Web.samples r).filter (fun v => decide (0 ≤ v)) := by
  simp only [Web.validResults, appendValid_nil, appendValid_filter]
  rfl

/-- What the accumulators hold after the loop. -/
theorem statsLoop_spec (l : List ℚ) :
    ∀ sum max min : ℚ,
      (statsLoop l (sum, max, min)).1 = sum + l.sum ∧
      (((statsLoop l (sum, max, min)).2.1 = max ∨ (statsLoop l (sum, max, min)).2.1 ∈ l) ∧
        max ≤ (statsLoop l (sum, max, min)).2.1 ∧
        ∀ v ∈ l, v ≤ (statsLoop l (sum, max, min)).2.1) ∧
      (((statsLoop l (sum, max, min)).2.2 = min ∨ (statsLoop l (sum, max, min)).2.2 ∈ l) ∧
        (statsLoop l (sum, max, min)).2.2 ≤ min ∧
        ∀ v ∈ l, (statsLoop l (sum, max, min)).2.2 ≤ v) := by
  induction l with
  | nil => intro sum max min; simp [statsLoop]
  | cons x rest ih =>
    intro sum max min
    simp only [statsLoop]
    obtain ⟨h1, ⟨h2, h3, h4⟩, ⟨h5, h6, h7⟩⟩ :=
      ih (sum + x) (if x > max then x else max) (if x < min then x else min)
    refine ⟨by rw [h1, List.sum_cons]; ring, ⟨?_, ?_, ?_⟩, ⟨?_, ?_, ?_⟩⟩
    · rcases h2 with h2 | h2
      · rw [h2]
        split_ifs
        · exact Or.inr (List.mem_cons_self _ _)
        · exact Or.inl rfl
      · exact Or.inr (List.mem_cons_of_mem _ h2)
    · refine le_trans ?_ h3
      split_ifs with h
      · exact le_of_lt h
      · exact le_refl _
    · intro v hv
      rcases List.mem_cons.mp hv with rfl | hv
      · refine le_trans ?_ h3
        split_ifs with h
        · exact le_refl _
        · exact not_lt.mp h
      · exact h4 v hv
    · rcases h5 with h5 | h5
      · rw [h5]
        split_ifs
        · exact Or.inr (List.mem_cons_self _ _)
        · exact Or.inl rfl
      · exact Or.inr (List.mem_cons_of_mem _ h5)
    · refine le_trans h6 ?_
      split_ifs with h
      · exact le_of_lt h
      · exact le_refl _
    · intro v hv
      rcases List.mem_cons.mp hv with rfl | hv
      · refine le_trans h6 ?_
        split_ifs with h
        · exact le_refl _
        · exact not_lt.mp h
      · exact h7 v hv

/-- The statistics of a non-empty list of valid samples, as the loop computes them from the
first sample. -/
theorem statsLoop_first (first : ℚ) (rest : List ℚ) :
    (statsLoop (first :: rest) (0, first, first)).1 = (first :: rest).sum ∧
    ((statsLoop (first :: rest) (0, first, first)).2.1 ∈ first :: rest ∧
      ∀ v ∈ first :: rest, v ≤ (statsLoop (first :: rest) (0, first, first)).2.1) ∧
    ((statsLoop (first :: rest) (0, first, first)).2.2 ∈ first :: rest ∧
      ∀ v ∈ first :: rest, (statsLoop (first :: rest) (0, first, first)).2.2 ≤ v) := by
  obtain ⟨h1, ⟨h2, _, h4⟩, ⟨h5, _, h7⟩⟩ := statsLoop_spec (first :: rest) 0 first first
  refine ⟨by rw [h1]; ring, ⟨?_, h4⟩, ⟨?_, h7⟩⟩
  · rcases h2 with h2 | h2
    · rw [h2]; exact List.mem_cons_self _ _
    · exact h2
  · rcases h5 with h5 | h5
    · rw [h5]; exact List.mem_cons_self _ _
    · exact h5

theorem filter_nonneg_eq_nonSentinel (l : List ℚ) (h : ∀ x ∈ l, x = -1 ∨ 0 ≤ x) :
    l.filter (fun v => decide (0 ≤ v)) = nonSentinel l := by
  unfold nonSentinel
  apply List.filter_congr
  intro x hx
  rcases h x hx with rfl | h0
  · simp
  · have : x ≠ -1 := by intro hc; rw [hc] at h0; norm_num at h0
    simp [h0, this]

theorem Itinerary.aggregate_spec (r : Itinerary.PerformanceResult) :
    Itinerary.samples (Itinerary.aggregate r) = Itinerary.samples r ∧
    ((Itinerary.samples r).filter (fun v => decide (0 ≤ v)) = [] → Itinerary.aggregate r = r) ∧
    ((Itinerary.samples r).filter (fun v => decide (0 ≤ v)) ≠ [] →
      StatisticsOf ((Itinerary.samples r).filter (fun v => decide (0 ≤ v)))
        (Itinerary.aggregate r).AverageTime (Itinerary.aggregate r).MaxTime
        (Itinerary.aggregate r).MinTime (Itinerary.aggregate r).SuccessfulTests) := by
  unfold Itinerary.aggregate
  simp only []
  rw [Itinerary.validResults_eq]
  generalize (Itinerary.samples r).filter (fun v => decide (0 ≤ v)) = valid
  cases valid with
  | nil => exact ⟨rfl, fun _ => rfl, fun h => absurd rfl h⟩
  | cons first rest =>
    obtain ⟨h1, h2, h3⟩ := statsLoop_first first rest
    exact ⟨rfl, fun h => absurd h (by simp), fun _ => ⟨by simp only [h1], h2, h3, rfl⟩⟩

theorem Web.web_aggregate_spec (r : Web.PerformanceResult) :
    Web.samples (Web.aggregate r) = Web.samples r ∧
    ((Web.samples r).filter (fun v => decide (0 ≤ v)) = [] → Web.aggregate r = r) ∧
    ((Web.samples r).filter (fun v => decide (0 ≤ v)) ≠ [] →
      StatisticsOf ((Web.samples r).filter (fun v => decide (0 ≤ v)))
        (Web.aggregate r).AverageTime (Web.aggregate r).MaxTime
        (Web.aggregate r).MinTime (Web.aggregate r).SuccessfulTests) := by
  unfold Web.aggregate
  simp only []
  rw [Web.web_validResults_eq]
  generalize (Web.samples r).filter (fun v => decide (0 ≤ v)) = valid
  cases valid with
  | nil => exact ⟨rfl, fun _ => rfl, fun h => absurd rfl h⟩
  | cons first rest =>
    obtain ⟨h1, h2, h3⟩ := statsLoop_first first rest
    exact ⟨rfl, fun h => absurd h (by simp), fun _ => ⟨by simp only [h1], h2, h3, rfl⟩⟩

theorem nonSentinel_ne_nil (l : List ℚ) (h : ∃ x ∈ l, x ≠ -1) : nonSentinel l ≠ [] := by
  obtain ⟨x, hx, hne⟩ := h
  intro hnil
  have : x ∈ nonSentinel l := by
    unfold nonSentinel
    exact List.mem_filter.mpr ⟨hx, by simp [hne]⟩
  rw [hnil] at this
  exact absurd this (List.not_mem_nil _)

/-! ## What the operations leave untouched -/

theorem announcedStep_of_level {P : Type} (level message : String) (h : level ≠ "INFO") :
    announcedStep (Event.log level message : Event P) = none := by
  simp [announcedStep, h]

theorem mismatch_not_prefix (pattern : List Char) :
    ∀ text rest : List Char, mismatch pattern text = true →
      pattern.isPrefixOf (text ++ rest) = false := by
  induction pattern with
  | nil => intro text rest h; cases text <;> simp [mismatch] at h
  | cons c pattern ih =>
    intro text rest h
    cases text with
    | nil => simp [mismatch] at h
    | cons d text =>
      simp only [mismatch, Bool.or_eq_true, bne_iff_ne, ne_eq] at h
      simp only [List.cons_append, List.isPrefixOf]
      by_cases hcd : c = d
      · subst hcd
        rcases h with h | h
        · exact absurd rfl h
        · simp [ih text rest h]
      · simp [hcd]

theorem announcedStep_plainText {P : Type} (level text rest : String)
    (h : plainText text = true) :
    announcedStep (Event.log level (text ++ rest) : Event P) = none := by
  have := mismatch_not_prefix _ text.data rest.data h
  simp only [announcedStep, String.data_append, this]
  simp

theorem announcedStep_announcement {P : Type} (name : String) :
    announcedStep (Event.log "INFO" ("Executing step: " ++ name) : Event P) = some name := by
  have h1 : ("Executing step: ".data.isPrefixOf ("Executing step: " ++ name).data) = true := by
    rw [String.data_append]
    exact List.isPrefixOf_iff_prefix.mpr (List.prefix_append _ _)
  have h2 : ("Executing step: " ++ name).data.drop "Executing step: ".data.length
      = name.data := by
    rw [String.data_append, List.drop_left]
  simp only [announcedStep, h1, h2, and_self, if_true]

theorem view_Log_level {P : Type} (p : Pipeline P) (level message : String)
    (h : level ≠ "INFO") : view (p.Log level message) = view p := by
  simp [view, Pipeline.Log, announced, List.filterMap_append, announcedStep_of_level _ _ h]

theorem view_Log_append {P : Type} (p : Pipeline P) (level text rest : String)
    (h : plainText text = true) : view (p.Log level (text ++ rest)) = view p := by
  simp [view, Pipeline.Log, announced, List.filterMap_append,
    announcedStep_plainText _ _ _ h]

theorem view_Log_text {P : Type} (p : Pipeline P) (level text : String)
    (h : plainText text = true) : view (p.Log level text) = view p := by
  have := view_Log_append p level text "" h
  rwa [String.append_empty] at this

theorem view_Log_announcement {P : Type} (p : Pipeline P) (name : String) :
    view (p.Log "INFO" ("Executing step: " ++ name))
      = { view p with announced := (view p).announced ++ [name] } := by
  simp [view, Pipeline.Log, announced, List.filterMap_append, announcedStep_announcement]

theorem view_send {P : Type} (p : Pipeline P) (r : Request) : view (p.send r) = view p := by
  simp [view, Pipeline.send, announced, List.filterMap_append, announcedStep]

theorem rendered_Log {P : Type} (p : Pipeline P) (level message : String) :
    rendered (p.Log level message).Trace = rendered p.Trace := by
  simp [Pipeline.Log, rendered, List.filterMap_append, renderedData]

theorem rendered_send {P : Type} (p : Pipeline P) (r : Request) :
    rendered (p.send r).Trace = rendered p.Trace := by
  simp [Pipeline.send, rendered, List.filterMap_append, renderedData]

theorem view_measureEndpoint {P : Type} (sample : String → Sample) (p : Pipeline P)
    (method url name body : String) :
    view (measureEndpoint sample p method url name body).1 = view p := by
  unfold measureEndpoint
  split_ifs <;> split <;>
    simp (disch := decide) only [view_Log_level, view_send, ne_eq]

theorem rendered_measureEndpoint {P : Type} (sample : String → Sample) (p : Pipeline P)
    (method url name body : String) :
    rendered (measureEndpoint sample p method url name body).1.Trace = rendered p.Trace := by
  unfold measureEndpoint
  split_ifs <;> split <;> simp only [rendered_Log, rendered_send]

theorem view_logStatistics {P : Type} (p : Pipeline P) (a b c : ℚ) (n m : Nat) :
    view (logStatistics p a b c n m) = view p := by
  unfold logStatistics
  simp (disch := decide) only [view_Log_text, view_Log_append, String.append_assoc]

theorem rendered_logStatistics {P : Type} (p : Pipeline P) (a b c : ℚ) (n m : Nat) :
    rendered (logStatistics p a b c n m).Trace = rendered p.Trace := by
  unfold logStatistics
  simp only [rendered_Log]

theorem view_logSummary {P : Type} (p : Pipeline P) (r : APITestResult) :
    view (logSummary p r) = view p := by
  unfold logSummary
  simp (disch := decide) only [view_Log_text, view_Log_append, view_Log_level,
    String.append_assoc, ne_eq]

theorem rendered_logSummary {P : Type} (p : Pipeline P) (r : APITestResult) :
    rendered (logSummary p r).Trace = rendered p.Trace := by
  unfold logSummary
  simp only [rendered_Log]

theorem view_healthProbe {P : Type} (p : Pipeline P) (url : String) (o : HttpOutcome)
    (failLevel failText okText : String) (h : failLevel ≠ "INFO") :
    view (healthProbe p url o failLevel failText okText).1 = view p := by
  unfold healthProbe
  split
  · simp only [view_Log_level _ _ _ h, view_send]
  · split_ifs
    · simp only [view_Log_level _ _ _ h, view_send]
    · simp (disch := decide) only [view_Log_level, view_send, ne_eq]

theorem rendered_healthProbe {P : Type} (p : Pipeline P) (url : String) (o : HttpOutcome)
    (failLevel failText okText : String) :
    rendered (healthProbe p url o failLevel failText okText).1.Trace = rendered p.Trace := by
  unfold healthProbe
  split
  · simp only [rendered_Log, rendered_send]
  · split_ifs <;> simp only [rendered_Log, rendered_send]

theorem view_classify {P : Type} (st : ApiState P) (m u : String) (e : Int) (el : String)
    (o : HttpOutcome) : view (classify st m u e el o).p = view st.p := by
  obtain ⟨level, detail, hc⟩ := classify_trace st m u e el o
  cases o with
  | failed err => exact view_Log_level _ _ _ (by decide)
  | response code =>
    by_cases h : code = e
    · simp only [classify, h, if_true]; exact view_Log_level _ _ _ (by decide)
    · simp only [classify, h, if_false]; exact view_Log_level _ _ _ (by decide)

theorem rendered_classify {P : Type} (st : ApiState P) (m u : String) (e : Int) (el : String)
    (o : HttpOutcome) : rendered (classify st m u e el o).p.Trace = rendered st.p.Trace := by
  obtain ⟨level, detail, hc⟩ := classify_trace st m u e el o
  rw [hc, rendered_Log]

theorem loopFrom_preserves {P ω α : Type} (f : Pipeline P → α)
    (body : ω → Endpoint → ApiState P → ApiState P × Option String) (w : Nat → ω)
    (hbody : ∀ c e st, f (body c e st).1.p = f st.p) :
    ∀ (l : List Endpoint) (i : Nat) (st : ApiState P),
      f (loopFrom body w i l st).1.p = f st.p := by
  intro l
  induction l with
  | nil => intro i st; rfl
  | cons e rest ih =>
    intro i st
    rw [loopFrom]
    have hb := hbody (w i) e st
    generalize body (w i) e st = res at hb
    obtain ⟨st1, o⟩ := res
    cases o with
    | some d => exact hb
    | none => simp only; rw [ih]; exact hb

theorem Itinerary.view_apiCase (cw : Itinerary.CaseWorld) (e : Endpoint)
    (st : ApiState Itinerary.PerformanceResult) :
    view (Itinerary.apiCase cw e st).1.p = view st.p := by
  unfold Itinerary.apiCase
  simp only []
  split_ifs
  all_goals (repeat' split)
  all_goals
    simp (disch := decide) only [view_classify, ApiState.send, view_send, Itinerary.uploadAbort,
      view_Log_level, ne_eq]

theorem Itinerary.rendered_apiCase (cw : Itinerary.CaseWorld) (e : Endpoint)
    (st : ApiState Itinerary.PerformanceResult) :
    rendered (Itinerary.apiCase cw e st).1.p.Trace = rendered st.p.Trace := by
  unfold Itinerary.apiCase
  simp only []
  split_ifs
  all_goals (repeat' split)
  all_goals
    simp only [rendered_classify, ApiState.send, rendered_send, Itinerary.uploadAbort,
      rendered_Log]

theorem Web.web_view_apiCase (cw : Web.CaseWorld) (e : Endpoint)
    (st : ApiState Web.PerformanceResult) :
    view (Web.apiCase cw e st).1.p = view st.p := by
  unfold Web.apiCase
  simp only []
  split_ifs <;> simp only [view_classify, ApiState.send, view_send]

theorem Web.web_rendered_apiCase (cw : Web.CaseWorld) (e : Endpoint)
    (st : ApiState Web.PerformanceResult) :
    rendered (Web.apiCase cw e st).1.p.Trace = rendered st.p.Trace := by
  unfold Web.apiCase
  simp only []
  split_ifs <;> simp only [rendered_classify, ApiState.send, rendered_send]

theorem Itinerary.view_APITests (p : Itinerary.Pipeline) (w : Nat → Itinerary.CaseWorld) :
    view (Itinerary.APITests p w).1 = view p := by
  unfold Itinerary.APITests
  split_ifs
  · exact view_Log_text _ _ _ (by decide)
  · simp only []
    have h := loopFrom_preserves view Itinerary.apiCase w Itinerary.view_apiCase
      Itinerary.endpoints 0
      ⟨p.Log "INFO" "Running comprehensive API tests for all documented endpoints...",
        { Details := [] }⟩
    rw [view_Log_text _ _ _ (by decide)] at h
    split
    · rename_i heq; rw [heq] at h; exact h
    · rename_i heq; rw [heq] at h; rw [view_logSummary]; exact h

theorem Itinerary.rendered_APITests (p : Itinerary.Pipeline) (w : Nat → Itinerary.CaseWorld) :
    rendered (Itinerary.APITests p w).1.Trace = rendered p.Trace := by
  unfold Itinerary.APITests
  split_ifs
  · exact rendered_Log _ _ _
  · simp only []
    have h := loopFrom_preserves (fun q => rendered q.Trace) Itinerary.apiCase w
      Itinerary.rendered_apiCase Itinerary.endpoints 0
      ⟨p.Log "INFO" "Running comprehensive API tests for all documented endpoints...",
        { Details := [] }⟩
    simp only [rendered_Log] at h
    split
    · rename_i heq; rw [heq] at h; exact h
    · rename_i heq; rw [heq] at h; rw [rendered_logSummary]; exact h

theorem Web.web_view_APITests (p : Web.Pipeline) (w : Nat → Web.CaseWorld) :
    view (Web.APITests p w).1 = view p := by
  unfold Web.APITests
  split_ifs
  · exact view_Log_text _ _ _ (by decide)
  · simp only []
    have h := loopFrom_preserves view Web.apiCase w Web.web_view_apiCase Web.endpoints 0
      ⟨p.Log "INFO" "Running comprehensive API tests for mock endpoints...", { Details := [] }⟩
    rw [view_Log_text _ _ _ (by decide)] at h
    split
    · rename_i heq; rw [heq] at h; exact h
    · rename_i heq; rw [heq] at h; rw [view_logSummary]; exact h

theorem Web.web_rendered_APITests (p : Web.Pipeline) (w : Nat → Web.CaseWorld) :
    rendered (Web.APITests p w).1.Trace = rendered p.Trace := by
  unfold Web.APITests
  split_ifs
  · exact rendered_Log _ _ _
  · simp only []
    have h := loopFrom_preserves (fun q => rendered q.Trace) Web.apiCase w
      Web.web_rendered_apiCase Web.endpoints 0
      ⟨p.Log "INFO" "Running comprehensive API tests for mock endpoints...", { Details := [] }⟩
    simp only [rendered_Log] at h
    split
    · rename_i heq; rw [heq] at h; exact h
    · rename_i heq; rw [heq] at h; rw [rendered_logSummary]; exact h

theorem Itinerary.view_HealthChecks (p : Itinerary.Pipeline) (w : Nat → HttpOutcome) :
    view (Itinerary.HealthChecks p w).1 = view p := by
  unfold Itinerary.HealthChecks
  simp only []
  split_ifs <;>
    simp (disch := decide) only [view_healthProbe, view_Log_level, view_Log_text, ne_eq]

theorem Itinerary.rendered_HealthChecks (p : Itinerary.Pipeline) (w : Nat → HttpOutcome) :
    rendered (Itinerary.HealthChecks p w).1.Trace = rendered p.Trace := by
  unfold Itinerary.HealthChecks
  simp only []
  split_ifs <;> simp only [rendered_healthProbe, rendered_Log]

theorem Web.web_view_HealthChecks (p : Web.Pipeline) (w : Nat → HttpOutcome) :
    view (Web.HealthChecks p w).1 = view p := by
  unfold Web.HealthChecks
  simp only []
  split_ifs <;>
    simp (disch := decide) only [view_healthProbe, view_Log_level, view_Log_text, ne_eq]

theorem Web.web_rendered_HealthChecks (p : Web.Pipeline) (w : Nat → HttpOutcome) :
    rendered (Web.HealthChecks p w).1.Trace = rendered p.Trace := by
  unfold Web.HealthChecks
  simp only []
  split_ifs <;> simp only [rendered_healthProbe, rendered_Log]

theorem Web.web_view_PerformanceTests (p : Web.Pipeline) (sample : String → Sample) :
    view (Web.PerformanceTests p sample).1 = view p := by
  unfold Web.PerformanceTests
  simp only []
  split_ifs <;>
    simp (disch := decide) only [view_measureEndpoint, view_logStatistics, view_Log_text]

theorem Web.web_rendered_PerformanceTests (p : Web.Pipeline) (sample : String → Sample) :
    rendered (Web.PerformanceTests p sample).1.Trace = rendered p.Trace := by
  unfold Web.PerformanceTests
  simp only []
  split_ifs <;> simp only [rendered_measureEndpoint, rendered_logStatistics, rendered_Log]

theorem Itinerary.view_finishPerformance (p : Itinerary.Pipeline)
    (result : Itinerary.PerformanceResult) :
    view (Itinerary.finishPerformance p result).1 = view p := by
  unfold Itinerary.finishPerformance
  simp only []
  split_ifs <;> simp only [view_logStatistics]

theorem Itinerary.rendered_finishPerformance (p : Itinerary.Pipeline)
    (result : Itinerary.PerformanceResult) :
    rendered (Itinerary.finishPerformance p result).1.Trace = rendered p.Trace := by
  unfold Itinerary.finishPerformance
  simp only []
  split_ifs <;> simp only [rendered_logStatistics]

theorem Itinerary.view_measureCreated (p : Itinerary.Pipeline) (w : Itinerary.PerfWorld)
    (result : Itinerary.PerformanceResult) (id : String) :
    view (Itinerary.measureCreated p w result id).1 = view p := by
  unfold Itinerary.measureCreated
  simp only []
  split <;> simp only [view_measureEndpoint, view_send]

theorem Itinerary.rendered_measureCreated (p : Itinerary.Pipeline) (w : Itinerary.PerfWorld)
    (result : Itinerary.PerformanceResult) (id : String) :
    rendered (Itinerary.measureCreated p w result id).1.Trace = rendered p.Trace := by
  unfold Itinerary.measureCreated
  simp only []
  split <;> simp only [rendered_measureEndpoint, rendered_send]

theorem Itinerary.view_PerformanceTests (p : Itinerary.Pipeline) (w : Itinerary.PerfWorld) :
    view (Itinerary.PerformanceTests p w).1 = view p := by
  unfold Itinerary.PerformanceTests
  simp only []
  split
  · simp (disch := decide) only [view_measureEndpoint, view_send, view_Log_text]
  · split_ifs
    · split
      · rename_i heq
        have h := congrArg
          (fun r : Itinerary.Pipeline × Outcome Itinerary.PerformanceResult => view r.1) heq
        simp only [Itinerary.view_measureCreated] at h
        rw [← h]
        simp (disch := decide) only [view_measureEndpoint, view_send, view_Log_text]
      · rename_i heq
        have h := congrArg
          (fun r : Itinerary.Pipeline × Outcome Itinerary.PerformanceResult => view r.1) heq
        simp only [Itinerary.view_measureCreated] at h
        rw [Itinerary.view_finishPerformance, ← h]
        simp (disch := decide) only [view_measureEndpoint, view_send, view_Log_text]
    · rw [Itinerary.view_finishPerformance]
      simp (disch := decide) only [view_measureEndpoint, view_send, view_Log_text]

theorem Itinerary.rendered_PerformanceTests (p : Itinerary.Pipeline) (w : Itinerary.PerfWorld) :
    rendered (Itinerary.PerformanceTests p w).1.Trace = rendered p.Trace := by
  unfold Itinerary.PerformanceTests
  simp only []
  split
  · simp only [rendered_measureEndpoint, rendered_send, rendered_Log]
  · split_ifs
    · split
      · rename_i heq
        have h := congrArg
          (fun r : Itinerary.Pipeline × Outcome Itinerary.PerformanceResult =>
            rendered r.1.Trace) heq
        simp only [Itinerary.rendered_measureCreated] at h
        rw [← h]
        simp only [rendered_measureEndpoint, rendered_send, rendered_Log]
      · rename_i heq
        have h := congrArg
          (fun r : Itinerary.Pipeline × Outcome Itinerary.PerformanceResult =>
            rendered r.1.Trace) heq
        simp only [Itinerary.rendered_measureCreated] at h
        rw [Itinerary.rendered_finishPerformance, ← h]
        simp only [rendered_measureEndpoint, rendered_send, rendered_Log]
    · rw [Itinerary.rendered_finishPerformance]
      simp only [rendered_measureEndpoint, rendered_send, rendered_Log]

theorem Itinerary.view_logDetails (details : List String) :
    ∀ (p : Itinerary.Pipeline) (i : Nat), view (Itinerary.logDetails p i details) = view p := by
  induction details with
  | nil => intro p i; rfl
  | cons d rest ih =>
    intro p i
    rw [Itinerary.logDetails, ih]
    simp (disch := decide) only [view_Log_append, String.append_assoc]

theorem Itinerary.rendered_logDetails (details : List String) :
    ∀ (p : Itinerary.Pipeline) (i : Nat),
      rendered (Itinerary.logDetails p i details).Trace = rendered p.Trace := by
  induction details with
  | nil => intro p i; rfl
  | cons d rest ih => intro p i; rw [Itinerary.logDetails, ih, rendered_Log]

theorem Itinerary.view_logSteps (steps : List (String × Step Itinerary.PerformanceResult)) :
    ∀ p : Itinerary.Pipeline, view (Itinerary.logSteps p steps) = view p := by
  induction steps with
  | nil => intro p; rfl
  | cons s rest ih =>
    intro p
    obtain ⟨k, v⟩ := s
    rw [Itinerary.logSteps, ih]
    simp (disch := decide) only [view_Log_append, String.append_assoc]

theorem Itinerary.rendered_logSteps (steps : List (String × Step Itinerary.PerformanceResult)) :
    ∀ p : Itinerary.Pipeline, rendered (Itinerary.logSteps p steps).Trace = rendered p.Trace := by
  induction steps with
  | nil => intro p; rfl
  | cons s rest ih =>
    intro p
    obtain ⟨k, v⟩ := s
    rw [Itinerary.logSteps, ih, rendered_Log]

theorem Itinerary.view_DisplayDetailedResults (p : Itinerary.Pipeline) :
    view (Itinerary.DisplayDetailedResults p).1 = view p := by
  unfold Itinerary.DisplayDetailedResults
  simp only []
  rw [view_Log_text _ _ _ (by decide), Itinerary.view_logSteps, view_Log_text _ _ _ (by decide)]
  split <;> split
  all_goals (try split_ifs)
  all_goals
    simp (disch := decide) only [view_Log_text, view_Log_append, String.append_assoc,
      Itinerary.view_logDetails]

theorem Itinerary.rendered_DisplayDetailedResults (p : Itinerary.Pipeline) :
    rendered (Itinerary.DisplayDetailedResults p).1.Trace = rendered p.Trace := by
  unfold Itinerary.DisplayDetailedResults
  simp only []
  rw [rendered_Log, Itinerary.rendered_logSteps, rendered_Log]
  split <;> split
  all_goals (try split_ifs)
  all_goals simp only [rendered_Log, Itinerary.rendered_logDetails]

/-! ## The report and the harness seen through the trace -/

theorem view_renderReport {P : Type} (p : Pipeline P) (w : ReportWorld) (data : ReportData P)
    (stem : String) : view (renderReport p w data stem).1 = view p := by
  unfold renderReport
  repeat' split
  all_goals
    simp (disch := decide) only [view_Log_level, view_Log_append, ne_eq]
  all_goals simp [view, announced, List.filterMap_append, announcedStep]

theorem rendered_renderReport {P : Type} (p : Pipeline P) (w : ReportWorld)
    (data : ReportData P) (stem : String) :
    rendered (renderReport p w data stem).1.Trace =
      rendered p.Trace ++ (if w.parse = none then [data] else []) := by
  unfold renderReport
  repeat' split
  all_goals simp_all [rendered_Log, rendered, List.filterMap_append, renderedData]

theorem Itinerary.getAPIResults_value (p : Itinerary.Pipeline) :
    view (Itinerary.getAPIResults p).1 = view p ∧
    rendered (Itinerary.getAPIResults p).1.Trace = rendered p.Trace := by
  unfold Itinerary.getAPIResults
  split
  · exact ⟨view_Log_level _ _ _ (by decide), rendered_Log _ _ _⟩
  · exact ⟨view_Log_level _ _ _ (by decide), rendered_Log _ _ _⟩

theorem Itinerary.getAPIResults_congr (p q : Itinerary.Pipeline)
    (h : q.Results = p.Results) :
    (Itinerary.getAPIResults q).2 = (Itinerary.getAPIResults p).2 := by
  unfold Itinerary.getAPIResults
  rw [h]
  split <;> rfl

theorem Itinerary.view_GenerateHTMLReport (p : Itinerary.Pipeline) (w : ReportWorld) :
    view (Itinerary.GenerateHTMLReport p w).1 = view p := by
  unfold Itinerary.GenerateHTMLReport
  simp only []
  rw [view_renderReport, (Itinerary.getAPIResults_value _).1, view_Log_text _ _ _ (by decide)]

theorem Itinerary.rendered_GenerateHTMLReport (p : Itinerary.Pipeline) (w : ReportWorld) :
    rendered (Itinerary.GenerateHTMLReport p w).1.Trace =
      rendered p.Trace ++ (if w.parse = none then [Itinerary.reportData p] else []) := by
  unfold Itinerary.GenerateHTMLReport
  simp only []
  rw [rendered_renderReport, (Itinerary.getAPIResults_value _).2, rendered_Log]
  have hv := (Itinerary.getAPIResults_value (p.Log "INFO"
    "Generating HTML report with visualizations...")).1
  have hr : (Itinerary.getAPIResults (p.Log "INFO"
      "Generating HTML report with visualizations...")).1.Results = p.Results := by
    have := congrArg View.Results hv
    simpa [view] using this
  have ha := Itinerary.getAPIResults_congr
    (p.Log "INFO" "Generating HTML report with visualizations...") p rfl
  congr 2
  simp only [Itinerary.reportData, hr, ha, Itinerary.getPerformanceResults]

theorem Web.web_view_GenerateHTMLReport (p : Web.Pipeline) (w : ReportWorld) :
    view (Web.GenerateHTMLReport p w).1 = view p := by
  unfold Web.GenerateHTMLReport
  simp only []
  rw [view_renderReport, view_Log_text _ _ _ (by decide)]

theorem Web.web_rendered_GenerateHTMLReport (p : Web.Pipeline) (w : ReportWorld) :
    rendered (Web.GenerateHTMLReport p w).1.Trace =
      rendered p.Trace ++ (if w.parse = none then [Web.reportData p] else []) := by
  unfold Web.GenerateHTMLReport
  simp only []
  rw [rendered_renderReport, rendered_Log]
  rfl

theorem plain_fst {P : Type} (f : Pipeline P → Outcome Bool) (p : Pipeline P) :
    (plain f p).1 = p := by
  unfold plain
  split <;> rfl

theorem transparent_plain {P : Type} (f : Pipeline P → Outcome Bool) :
    Transparent (plain f) := fun p => by rw [plain_fst]

theorem silent_plain {P : Type} (f : Pipeline P → Outcome Bool) :
    Silent (plain f) := fun p => by rw [plain_fst]

theorem setStep_keys {P : Type} (name : String) (s : Step P) (m : List (String × Step P)) :
    (setStep name s m).map Prod.fst = withKey (m.map Prod.fst) name := by
  induction m with
  | nil => simp [setStep, withKey]
  | cons kv rest ih =>
    obtain ⟨k, v⟩ := kv
    by_cases h : k = name
    · subst h
      simp [setStep, withKey]
    · have hne : ¬ name = k := fun hc => h hc.symm
      simp only [setStep, h, if_false, List.map_cons, ih, withKey, List.mem_cons, hne,
        false_or]
      split_ifs <;> simp

/-- What the harness sees after `ExecuteStep` on a transparent operation. -/
theorem view_ExecuteStep {P : Type} (p : Pipeline P) (name : String) (elapsed : Nat)
    (fn : Pipeline P → Pipeline P × Outcome (Payload P)) (h : Transparent fn) :
    view (ExecuteStep p name elapsed fn) =
      { Results := { p.Results with
          Steps := setStep name
            (recorded name elapsed (fn (p.Log "INFO" ("Executing step: " ++ name))).2)
            p.Results.Steps },
        SkipTests := p.SkipTests,
        announced := announced p.Trace ++ [name] } := by
  have hv := h (p.Log "INFO" ("Executing step: " ++ name))
  rw [view_Log_announcement] at hv
  generalize hfn : fn (p.Log "INFO" ("Executing step: " ++ name)) = res at hv
  obtain ⟨p2, o⟩ := res
  have h1 : p2.Results = p.Results := congrArg View.Results hv
  have h2 : p2.SkipTests = p.SkipTests := congrArg View.SkipTests hv
  have h3 : announced p2.Trace = announced p.Trace ++ [name] := congrArg View.announced hv
  cases o with
  | returned value =>
    simp only [ExecuteStep, hfn, if_true]
    rw [view_Log_level _ _ _ (by decide)]
    simp only [view, h1, h2, h3, recorded]
  | faulted r =>
    simp only [ExecuteStep, hfn, Bool.false_eq_true, if_false]
    rw [view_Log_level _ _ _ (by decide)]
    simp only [view, h1, h2, h3, recorded]

theorem rendered_ExecuteStep {P : Type} (p : Pipeline P) (name : String) (elapsed : Nat)
    (fn : Pipeline P → Pipeline P × Outcome (Payload P)) :
    rendered (ExecuteStep p name elapsed fn).Trace =
      rendered (fn (p.Log "INFO" ("Executing step: " ++ name))).1.Trace := by
  generalize hfn : fn (p.Log "INFO" ("Executing step: " ++ name)) = res
  obtain ⟨p2, o⟩ := res
  cases o with
  | returned value =>
    simp only [ExecuteStep, hfn, if_true]
    rw [rendered_Log]
  | faulted r =>
    simp only [ExecuteStep, hfn, Bool.false_eq_true, if_false]
    rw [rendered_Log]

theorem runSteps_append {P : Type} (elapsed : String → Nat) (a b : List (StepCall P)) :
    ∀ p : Pipeline P, runSteps elapsed (a ++ b) p = runSteps elapsed b (runSteps elapsed a p) := by
  induction a with
  | nil => intro p; rfl
  | cons c rest ih => intro p; exact ih _

/-- What the harness sees after a list of transparent steps. -/
theorem view_runSteps {P : Type} (elapsed : String → Nat) (calls : List (StepCall P))
    (h : ∀ c ∈ calls, Transparent c.fn) :
    ∀ p : Pipeline P,
      (runSteps elapsed calls p).SkipTests = p.SkipTests ∧
      announced (runSteps elapsed calls p).Trace
        = announced p.Trace ++ calls.map (fun c => c.name) ∧
      (runSteps elapsed calls p).Results.Steps.map Prod.fst
        = calls.foldl (fun keys c => withKey keys c.name) (p.Results.Steps.map Prod.fst) ∧
      (runSteps elapsed calls p).Results.StartTime = p.Results.StartTime ∧
      ∀ k, k ∉ calls.map (fun c => c.name) →
        getStep k (runSteps elapsed calls p).Results.Steps = getStep k p.Results.Steps := by
  induction calls with
  | nil => intro p; simp [runSteps]
  | cons c rest ih =>
    intro p
    have hc := view_ExecuteStep p c.name (elapsed c.name) c.fn (h c (List.mem_cons_self _ _))
    obtain ⟨i1, i2, i3, i4, i5⟩ :=
      ih (fun d hd => h d (List.mem_cons_of_mem _ hd))
        (ExecuteStep p c.name (elapsed c.name) c.fn)
    have e1 : (ExecuteStep p c.name (elapsed c.name) c.fn).SkipTests = p.SkipTests :=
      congrArg View.SkipTests hc
    have e2 : announced (ExecuteStep p c.name (elapsed c.name) c.fn).Trace
        = announced p.Trace ++ [c.name] := congrArg View.announced hc
    have e3 := congrArg View.Results hc
    simp only [view] at e3
    refine ⟨by rw [runSteps, i1, e1], by rw [runSteps, i2, e2]; simp, ?_, ?_, ?_⟩
    · rw [runSteps, i3, e3]
      simp only [setStep_keys, List.foldl_cons]
    · rw [runSteps, i4, e3]
    · intro k hk
      simp only [List.map_cons, List.mem_cons, not_or] at hk
      rw [runSteps, i5 k hk.2, e3]
      exact getStep_setStep_other _ _ _ _ hk.1

theorem rendered_runSteps {P : Type} (elapsed : String → Nat) (calls : List (StepCall P))
    (h : ∀ c ∈ calls, Silent c.fn) :
    ∀ p : Pipeline P, rendered (runSteps elapsed calls p).Trace = rendered p.Trace := by
  induction calls with
  | nil => intro p; rfl
  | cons c rest ih =>
    intro p
    rw [runSteps, ih (fun d hd => h d (List.mem_cons_of_mem _ hd)), rendered_ExecuteStep,
      h c (List.mem_cons_self _ _), rendered_Log]

theorem finalize_trace {P : Type} (p : Pipeline P) (now : Nat) (layout : Nat → String) :
    announced (finalize p now layout).1.Trace = announced p.Trace ∧
    rendered (finalize p now layout).1.Trace = rendered p.Trace := by
  have key : ∀ (q : Pipeline P) (r : PipelineResult P),
      announced ({ q with Results := r } : Pipeline P).Trace = announced q.Trace ∧
      rendered ({ q with Results := r } : Pipeline P).Trace = rendered q.Trace :=
    fun _ _ => ⟨rfl, rfl⟩
  have ha : ∀ q : Pipeline P, announced q.Trace = (view q).announced := fun _ => rfl
  unfold finalize
  simp only []
  split_ifs
  · constructor
    · simp (disch := decide) only [ha, view_Log_level, view_Log_append, ne_eq,
        String.append_assoc]
      rfl
    · simp only [rendered_Log]
  · constructor
    · simp (disch := decide) only [ha, view_Log_level, view_Log_append, ne_eq,
        String.append_assoc]
      rfl
    · simp only [rendered_Log]

/-! ## The runs -/

theorem Itinerary.steps_names (x : Itinerary.Externals) (w : Itinerary.World) :
    (Itinerary.steps x w).map (fun c => c.name) = Itinerary.stepNames := rfl

theorem Web.web_steps_names (x : Web.Externals) (w : Web.World) :
    (Web.steps x w).map (fun c => c.name) = Web.stepNames := rfl

theorem Itinerary.steps_transparent (x : Itinerary.Externals) (w : Itinerary.World) :
    ∀ c ∈ Itinerary.steps x w, Transparent c.fn := by
  intro c hc
  simp only [Itinerary.steps, List.mem_cons, List.mem_singleton, List.not_mem_nil,
    or_false] at hc
  rcases hc with rfl | rfl | rfl | rfl | rfl | rfl | rfl | rfl | rfl | rfl | rfl | rfl
  · exact transparent_plain _
  · exact transparent_plain _
  · exact transparent_plain _
  · exact transparent_plain _
  · exact fun p => Itinerary.view_HealthChecks p _
  · exact fun p => Itinerary.view_APITests p _
  · exact fun p => Itinerary.view_PerformanceTests p _
  · intro p
    show view (plain _ _).1 = view p
    rw [plain_fst, view_Log_text _ _ _ (by decide)]
  · exact fun p => Itinerary.view_DisplayDetailedResults p
  · exact transparent_plain _
  · exact fun p => Itinerary.view_GenerateHTMLReport p _
  · exact transparent_plain _

theorem Itinerary.steps_silent (x : Itinerary.Externals) (w : Itinerary.World) :
    ∀ c ∈ Itinerary.steps x w, c.name ≠ "GenerateHTMLReport" → Silent c.fn := by
  intro c hc hn
  simp only [Itinerary.steps, List.mem_cons, List.mem_singleton, List.not_mem_nil,
    or_false] at hc
  rcases hc with rfl | rfl | rfl | rfl | rfl | rfl | rfl | rfl | rfl | rfl | rfl | rfl
  · exact silent_plain _
  · exact silent_plain _
  · exact silent_plain _
  · exact silent_plain _
  · exact fun p => Itinerary.rendered_HealthChecks p _
  · exact fun p => Itinerary.rendered_APITests p _
  · exact fun p => Itinerary.rendered_PerformanceTests p _
  · intro p
    show rendered (plain _ _).1.Trace = rendered p.Trace
    rw [plain_fst, rendered_Log]
  · exact fun p => Itinerary.rendered_DisplayDetailedResults p
  · exact silent_plain _
  · exact absurd rfl hn
  · exact silent_plain _

theorem Web.web_steps_transparent (x : Web.Externals) (w : Web.World) :
    ∀ c ∈ Web.steps x w, Transparent c.fn := by
  intro c hc
  simp only [Web.steps, List.mem_cons, List.mem_singleton, List.not_mem_nil, or_false] at hc
  rcases hc with rfl | rfl | rfl | rfl | rfl | rfl | rfl
  · exact transparent_plain _
  · exact transparent_plain _
  · exact transparent_plain _
  · exact fun p => Web.web_view_HealthChecks p _
  · exact fun p => Web.web_view_APITests p _
  · exact fun p => Web.web_view_PerformanceTests p _
  · exact fun p => Web.web_view_GenerateHTMLReport p _

theorem Web.web_steps_silent (x : Web.Externals) (w : Web.World) :
    ∀ c ∈ Web.steps x w, c.name ≠ "GenerateHTMLReport" → Silent c.fn := by
  intro c hc hn
  simp only [Web.steps, List.mem_cons, List.mem_singleton, List.not_mem_nil, or_false] at hc
  rcases hc with rfl | rfl | rfl | rfl | rfl | rfl | rfl
  · exact silent_plain _
  · exact silent_plain _
  · exact silent_plain _
  · exact fun p => Web.web_rendered_HealthChecks p _
  · exact fun p => Web.web_rendered_APITests p _
  · exact fun p => Web.web_rendered_PerformanceTests p _
  · exact absurd rfl hn

/-- What the itinerary `Run` announces and which keys its step map holds. -/
theorem Itinerary.Run_steps (p : Itinerary.Pipeline) (x : Itinerary.Externals)
    (w : Itinerary.World) :
    announced (Itinerary.Run p x w).1.Trace = announced p.Trace ++ Itinerary.stepNames ∧
    (Itinerary.Run p x w).1.Results.Steps.map Prod.fst
      = Itinerary.stepNames.foldl withKey (p.Results.Steps.map Prod.fst) := by
  unfold Itinerary.Run
  simp only [Pipeline.Log_BaseURL]
  obtain ⟨_, h2, h3, _, _⟩ := view_runSteps w.elapsed (Itinerary.steps x w)
    (Itinerary.steps_transparent x w)
    ((p.Log "INFO" "Starting MusafirGO Itinerary Service Pipeline...").Log "INFO"
      ("Base URL: " ++ p.BaseURL))
  have ha : ∀ q : Itinerary.Pipeline, announced q.Trace = (view q).announced := fun _ => rfl
  constructor
  · rw [(finalize_trace _ _ _).1, h2, Itinerary.steps_names]
    simp (disch := decide) only [ha, view_Log_text, view_Log_append]
  · rw [(finalize_results _ _ _).1, h3]
    simp only [Pipeline.Log_Results]
    rfl

/-- What the web `Run` announces and which keys its step map holds. -/
theorem Web.web_Run_steps (p : Web.Pipeline) (x : Web.Externals) (w : Web.World) :
    announced (Web.Run p x w).1.Trace = announced p.Trace ++ Web.stepNames ∧
    (Web.Run p x w).1.Results.Steps.map Prod.fst
      = Web.stepNames.foldl withKey (p.Results.Steps.map Prod.fst) := by
  unfold Web.Run
  simp only [Pipeline.Log_BaseURL]
  obtain ⟨_, h2, h3, _, _⟩ := view_runSteps w.elapsed (Web.steps x w)
    (Web.web_steps_transparent x w)
    (((p.Log "INFO" "Starting MusafirGO Web Service Pipeline...").Log "INFO"
      ("Base URL: " ++ p.BaseURL)).Log "INFO" ("Project Path: " ++ Web.ProjectPath))
  have ha : ∀ q : Web.Pipeline, announced q.Trace = (view q).announced := fun _ => rfl
  constructor
  · rw [(finalize_trace _ _ _).1, h2, Web.web_steps_names]
    simp (disch := decide) only [ha, view_Log_text, view_Log_append]
  · rw [(finalize_results _ _ _).1, h3]
    simp only [Pipeline.Log_Results]
    rfl

theorem newPipeline_fresh {P : Type} (baseURL : String) (skipInit skipDataLoad skipTests : Bool)
    (clientError : Option String) (now : Nat) :
    announced (newPipeline baseURL skipInit skipDataLoad skipTests clientError now :
      Pipeline P).Trace = [] ∧
    rendered (newPipeline baseURL skipInit skipDataLoad skipTests clientError now :
      Pipeline P).Trace = [] ∧
    (newPipeline baseURL skipInit skipDataLoad skipTests clientError now :
      Pipeline P).Results.Steps = [] ∧
    (newPipeline baseURL skipInit skipDataLoad skipTests clientError now :
      Pipeline P).SkipTests = skipTests := by
  cases clientError <;>
    simp [newPipeline, announced, rendered, announcedStep, renderedData]

theorem Itinerary.APITests_skip (p : Itinerary.Pipeline) (w : Nat → Itinerary.CaseWorld)
    (h : p.SkipTests = true) :
    Itinerary.APITests p w = (p.Log "INFO" "Skipping API tests...", Outcome.returned skipped) := by
  simp only [Itinerary.APITests, h, if_true]; rfl

theorem Web.web_APITests_skip (p : Web.Pipeline) (w : Nat → Web.CaseWorld)
    (h : p.SkipTests = true) :
    Web.APITests p w = (p.Log "INFO" "Skipping API tests...", Outcome.returned skipped) := by
  simp only [Web.APITests, h, if_true]; rfl

/-- The data that the itinerary `Run` hands to the report template. -/
theorem Itinerary.rendered_Run (p : Itinerary.Pipeline) (x : Itinerary.Externals)
    (w : Itinerary.World) :
    rendered (Itinerary.Run p x w).1.Trace =
      rendered p.Trace ++
        (if w.report.parse = none then [Itinerary.reportData (Itinerary.atReport p x w)]
         else []) := by
  have hrun : ∀ q : Itinerary.Pipeline, runSteps w.elapsed (Itinerary.steps x w) q =
      ExecuteStep
        (ExecuteStep (runSteps w.elapsed ((Itinerary.steps x w).take 10) q)
          "GenerateHTMLReport" (w.elapsed "GenerateHTMLReport")
          (fun p => returning (Itinerary.GenerateHTMLReport p w.report)))
        "OpenReportInChrome" (w.elapsed "OpenReportInChrome") (plain x.OpenReportInChrome) :=
    fun q => runSteps_append w.elapsed ((Itinerary.steps x w).take 10)
      ((Itinerary.steps x w).drop 10) q
  have hsilent : ∀ c ∈ (Itinerary.steps x w).take 10, Silent c.fn := by
    intro c hc
    apply Itinerary.steps_silent x w c (List.mem_of_mem_take hc)
    simp only [Itinerary.steps, List.take, List.mem_cons, List.mem_singleton,
      List.not_mem_nil, or_false] at hc
    rcases hc with rfl | rfl | rfl | rfl | rfl | rfl | rfl | rfl | rfl | rfl <;> simp
  unfold Itinerary.Run Itinerary.atReport
  simp only [Pipeline.Log_BaseURL]
  rw [(finalize_trace _ _ _).2, hrun, rendered_ExecuteStep, plain_fst, rendered_Log,
    rendered_ExecuteStep]
  show rendered (Itinerary.GenerateHTMLReport _ w.report).1.Trace = _
  rw [Itinerary.rendered_GenerateHTMLReport, rendered_Log, rendered_runSteps _ _ hsilent,
    rendered_Log, rendered_Log]
  rfl

/-- The data that the web `Run` hands to the report template. -/
theorem Web.web_rendered_Run (p : Web.Pipeline) (x : Web.Externals) (w : Web.World) :
    rendered (Web.Run p x w).1.Trace =
      rendered p.Trace ++
        (if w.report.parse = none then [Web.reportData (Web.atReport p x w)] else []) := by
  have hrun : ∀ q : Web.Pipeline, runSteps w.elapsed (Web.steps x w) q =
      ExecuteStep (runSteps w.elapsed ((Web.steps x w).take 6) q)
        "GenerateHTMLReport" (w.elapsed "GenerateHTMLReport")
        (fun p => returning (Web.GenerateHTMLReport p w.report)) :=
    fun q => runSteps_append w.elapsed ((Web.steps x w).take 6) ((Web.steps x w).drop 6) q
  have hsilent : ∀ c ∈ (Web.steps x w).take 6, Silent c.fn := by
    intro c hc
    apply Web.web_steps_silent x w c (List.mem_of_mem_take hc)
    simp only [Web.steps, List.take, List.mem_cons, List.mem_singleton,
      List.not_mem_nil, or_false] at hc
    rcases hc with rfl | rfl | rfl | rfl | rfl | rfl <;> simp
  unfold Web.Run Web.atReport
  simp only [Pipeline.Log_BaseURL]
  rw [(finalize_trace _ _ _).2, hrun, rendered_ExecuteStep]
  show rendered (Web.GenerateHTMLReport _ w.report).1.Trace = _
  rw [Web.web_rendered_GenerateHTMLReport, rendered_Log, rendered_runSteps _ _ hsilent,
    rendered_Log, rendered_Log, rendered_Log]
  rfl

/-- Under `SkipTests` the step map holds the summary of the skip path when the itinerary
`Run` reaches `GenerateHTMLReport`. -/
theorem Itinerary.atReport_skipped (p : Itinerary.Pipeline) (x : Itinerary.Externals)
    (w : Itinerary.World) (h : p.SkipTests = true) :
    getStep "APITests" (Itinerary.atReport p x w).Results.Steps =
      some (recorded "APITests" (w.elapsed "APITests")
        (Outcome.returned (Payload.api skipped))) := by
  unfold Itinerary.atReport
  have hsplit : (Itinerary.steps x w).take 10 = (Itinerary.steps x w).take 5 ++
      ([⟨"APITests", fun p => boxed Payload.api (Itinerary.APITests p w.api)⟩] ++
        ((Itinerary.steps x w).drop 6).take 4) := rfl
  rw [hsplit, runSteps_append, runSteps_append]
  simp only [Pipeline.Log_Results]
  have hlast : ∀ c ∈ ((Itinerary.steps x w).drop 6).take 4, Transparent c.fn :=
    fun c hc => Itinerary.steps_transparent x w c
      (List.mem_of_mem_drop (List.mem_of_mem_take hc))
  have hfirst : ∀ c ∈ (Itinerary.steps x w).take 5, Transparent c.fn :=
    fun c hc => Itinerary.steps_transparent x w c (List.mem_of_mem_take hc)
  rw [(view_runSteps w.elapsed _ hlast _).2.2.2.2 "APITests" (by simp [Itinerary.steps])]
  rw [runSteps, runSteps]
  simp only []
  rw [ExecuteStep_steps, getStep_setStep_self]
  have hskip := (view_runSteps w.elapsed _ hfirst
    ((p.Log "INFO" "Starting MusafirGO Itinerary Service Pipeline...").Log "INFO"
      ("Base URL: " ++ p.BaseURL))).1
  simp only [Pipeline.Log_SkipTests, h] at hskip
  generalize runSteps w.elapsed (List.take 5 (Itinerary.steps x w)) _ = q at hskip ⊢
  rw [Itinerary.APITests_skip (q.Log "INFO" ("Executing step: " ++ "APITests")) w.api hskip]
  simp only [boxed, recorded]

/-- Under `SkipTests` the step map holds the summary of the skip path when the web `Run`
reaches `GenerateHTMLReport`. -/
theorem Web.web_atReport_skipped (p : Web.Pipeline) (x : Web.Externals) (w : Web.World)
    (h : p.SkipTests = true) :
    getStep "APITests" (Web.atReport p x w).Results.Steps =
      some (recorded "APITests" (w.elapsed "APITests")
        (Outcome.returned (Payload.api skipped))) := by
  unfold Web.atReport
  have hsplit : (Web.steps x w).take 6 = (Web.steps x w).take 4 ++
      ([⟨"APITests", fun p => boxed Payload.api (Web.APITests p w.api)⟩] ++
        ((Web.steps x w).drop 5).take 1) := rfl
  rw [hsplit, runSteps_append, runSteps_append]
  simp only [Pipeline.Log_Results]
  have hlast : ∀ c ∈ ((Web.steps x w).drop 5).take 1, Transparent c.fn :=
    fun c hc => Web.web_steps_transparent x w c (List.mem_of_mem_drop (List.mem_of_mem_take hc))
  have hfirst : ∀ c ∈ (Web.steps x w).take 4, Transparent c.fn :=
    fun c hc => Web.web_steps_transparent x w c (List.mem_of_mem_take hc)
  rw [(view_runSteps w.elapsed _ hlast _).2.2.2.2 "APITests" (by simp [Web.steps])]
  rw [runSteps, runSteps]
  simp only []
  rw [ExecuteStep_steps, getStep_setStep_self]
  have hskip := (view_runSteps w.elapsed _ hfirst
    (((p.Log "INFO" "Starting MusafirGO Web Service Pipeline...").Log "INFO"
      ("Base URL: " ++ p.BaseURL)).Log "INFO" ("Project Path: " ++ Web.ProjectPath))).1
  simp only [Pipeline.Log_SkipTests, h] at hskip
  generalize runSteps w.elapsed (List.take 4 (Web.steps x w)) _ = q at hskip ⊢
  rw [Web.web_APITests_skip (q.Log "INFO" ("Executing step: " ++ "APITests")) w.api hskip]
  simp only [boxed, recorded]

/-- The verdict of the common tail of the loop body: a pass exactly for a response with the
expected status; a failure otherwise, with the pair of codes in the line when the status
differs. -/
theorem classify_verdict {P : Type} (st : ApiState P) (m u : String) (e : Int) (el : String)
    (o : HttpOutcome) :
    (o = HttpOutcome.response e →
      (classify st m u e el o).result.Passed = st.result.Passed + 1 ∧
      (classify st m u e el o).result.Failed = st.result.Failed) ∧
    (o ≠ HttpOutcome.response e →
      (classify st m u e el o).result.Passed = st.result.Passed ∧
      (classify st m u e el o).result.Failed = st.result.Failed + 1) ∧
    (∀ code, o = HttpOutcome.response code → code ≠ e →
      (classify st m u e el o).result.Details = st.result.Details ++
        [m ++ " " ++ u ++ " - FAILED (Expected: " ++ fmt.d e ++ ", Got: " ++ fmt.d code ++ ")"]) := by
  refine ⟨?_, ?_, ?_⟩
  · rintro rfl
    simp [classify]
  · intro h
    cases o with
    | failed err => simp [classify]
    | response code =>
      have hc : code ≠ e := fun hc => h (by rw [hc])
      simp [classify, hc]
  · rintro code rfl hc
    simp [classify, hc]

/-! ## Flags, commands and files: what the operations leave on the host -/

theorem plain_footprint {P : Type} : Plain (footprint : Pipeline P → _) := by
  refine ⟨?_, ?_, ?_⟩
  · intro p level message
    simp [footprint, flags, commands, written, Pipeline.Log, List.filterMap_append]
  · intro p r
    simp [footprint, flags, commands, written, Pipeline.send, List.filterMap_append]
  · intro p results
    rfl

theorem keep_measureEndpoint {P α : Type} (obs : Pipeline P → α) (h : Plain obs)
    (sample : String → Sample) (p : Pipeline P) (method url name body : String) :
    obs (measureEndpoint sample p method url name body).1 = obs p := by
  unfold measureEndpoint
  split_ifs <;> split <;> simp only [h.1, h.2.1]

theorem keep_logStatistics {P α : Type} (obs : Pipeline P → α) (h : Plain obs)
    (p : Pipeline P) (a b c : ℚ) (n m : Nat) :
    obs (logStatistics p a b c n m) = obs p := by
  unfold logStatistics
  simp only [h.1]

theorem keep_logSummary {P α : Type} (obs : Pipeline P → α) (h : Plain obs)
    (p : Pipeline P) (r : APITestResult) : obs (logSummary p r) = obs p := by
  unfold logSummary
  simp only [h.1]

theorem keep_healthProbe {P α : Type} (obs : Pipeline P → α) (h : Plain obs)
    (p : Pipeline P) (url : String) (o : HttpOutcome) (failLevel failText okText : String) :
    obs (healthProbe p url o failLevel failText okText).1 = obs p := by
  unfold healthProbe
  split
  · simp only [h.1, h.2.1]
  · split_ifs <;> simp only [h.1, h.2.1]

theorem keep_classify {P α : Type} (obs : Pipeline P → α) (h : Plain obs)
    (st : ApiState P) (m u : String) (e : Int) (el : String) (o : HttpOutcome) :
    obs (classify st m u e el o).p = obs st.p := by
  obtain ⟨level, detail, hc⟩ := classify_trace st m u e el o
  rw [hc, h.1]

theorem Itinerary.keep_apiCase {α : Type} (obs : Itinerary.Pipeline → α) (h : Plain obs)
    (cw : Itinerary.CaseWorld) (e : Endpoint) (st : ApiState Itinerary.PerformanceResult) :
    obs (Itinerary.apiCase cw e st).1.p = obs st.p := by
  unfold Itinerary.apiCase
  simp only []
  split_ifs
  all_goals (repeat' split)
  all_goals
    simp only [keep_classify obs h, ApiState.send, h.2.1, Itinerary.uploadAbort, h.1]

theorem Itinerary.keep_APITests {α : Type} (obs : Itinerary.Pipeline → α) (h : Plain obs)
    (p : Itinerary.Pipeline) (w : Nat → Itinerary.CaseWorld) :
    obs (Itinerary.APITests p w).1 = obs p := by
  unfold Itinerary.APITests
  split_ifs
  · exact h.1 _ _ _
  · simp only []
    have hl := loopFrom_preserves obs Itinerary.apiCase w
      (Itinerary.keep_apiCase obs h) Itinerary.endpoints 0
      ⟨p.Log "INFO" "Running comprehensive API tests for all documented endpoints...",
        { Details := [] }⟩
    simp only [h.1] at hl
    split
    · rename_i heq; rw [heq] at hl; exact hl
    · rename_i heq; rw [heq] at hl; rw [keep_logSummary obs h]; exact hl

theorem Itinerary.keep_HealthChecks {α : Type} (obs : Itinerary.Pipeline → α) (h : Plain obs)
    (p : Itinerary.Pipeline) (w : Nat → HttpOutcome) :
    obs (Itinerary.HealthChecks p w).1 = obs p := by
  unfold Itinerary.HealthChecks
  simp only []
  split_ifs <;> simp only [keep_healthProbe obs h, h.1]

theorem Itinerary.keep_finishPerformance {α : Type} (obs : Itinerary.Pipeline → α)
    (h : Plain obs) (p : Itinerary.Pipeline) (result : Itinerary.PerformanceResult) :
    obs (Itinerary.finishPerformance p result).1 = obs p := by
  unfold Itinerary.finishPerformance
  simp only []
  split_ifs <;> simp only [keep_logStatistics obs h]

theorem Itinerary.keep_measureCreated {α : Type} (obs : Itinerary.Pipeline → α)
    (h : Plain obs) (p : Itinerary.Pipeline) (w : Itinerary.PerfWorld)
    (result : Itinerary.PerformanceResult) (id : String) :
    obs (Itinerary.measureCreated p w result id).1 = obs p := by
  unfold Itinerary.measureCreated
  simp only []
  split <;> simp only [keep_measureEndpoint obs h, h.2.1]

theorem Itinerary.keep_PerformanceTests {α : Type} (obs : Itinerary.Pipeline → α)
    (h : Plain obs) (p : Itinerary.Pipeline) (w : Itinerary.PerfWorld) :
    obs (Itinerary.PerformanceTests p w).1 = obs p := by
  unfold Itinerary.PerformanceTests
  simp only []
  split
  · simp only [keep_measureEndpoint obs h, h.2.1, h.1]
  · split_ifs
    · split
      · rename_i heq
        have hc := congrArg
          (fun r : Itinerary.Pipeline × Outcome Itinerary.PerformanceResult => obs r.1) heq
        simp only [Itinerary.keep_measureCreated obs h] at hc
        rw [← hc]
        simp only [keep_measureEndpoint obs h, h.2.1, h.1]
      · rename_i heq
        have hc := congrArg
          (fun r : Itinerary.Pipeline × Outcome Itinerary.PerformanceResult => obs r.1) heq
        simp only [Itinerary.keep_measureCreated obs h] at hc
        rw [Itinerary.keep_finishPerformance obs h, ← hc]
        simp only [keep_measureEndpoint obs h, h.2.1, h.1]
    · rw [Itinerary.keep_finishPerformance obs h]
      simp only [keep_measureEndpoint obs h, h.2.1, h.1]

theorem Itinerary.keep_logDetails {α : Type} (obs : Itinerary.Pipeline → α) (h : Plain obs)
    (details : List String) :
    ∀ (p : Itinerary.Pipeline) (i : Nat), obs (Itinerary.logDetails p i details) = obs p := by
  induction details with
  | nil => intro p i; rfl
  | cons d rest ih => intro p i; rw [Itinerary.logDetails, ih, h.1]

theorem Itinerary.keep_logSteps {α : Type} (obs : Itinerary.Pipeline → α) (h : Plain obs)
    (steps : List (String × Step Itinerary.PerformanceResult)) :
    ∀ p : Itinerary.Pipeline, obs (Itinerary.logSteps p steps) = obs p := by
  induction steps with
  | nil => intro p; rfl
  | cons s rest ih =>
    intro p
    obtain ⟨k, v⟩ := s
    rw [Itinerary.logSteps, ih, h.1]

theorem Itinerary.keep_DisplayDetailedResults {α : Type} (obs : Itinerary.Pipeline → α)
    (h : Plain obs) (p : Itinerary.Pipeline) :
    obs (Itinerary.DisplayDetailedResults p).1 = obs p := by
  unfold Itinerary.DisplayDetailedResults
  simp only []
  rw [h.1, Itinerary.keep_logSteps obs h, h.1]
  split <;> split
  all_goals (try split_ifs)
  all_goals simp only [h.1, Itinerary.keep_logDetails obs h]

theorem keep_plain {P α : Type} (obs : Pipeline P → α) (f : Pipeline P → Outcome Bool) :
    Keeps obs (plain f) := fun p => by rw [plain_fst]

theorem keep_ExecuteStep {P α : Type} (obs : Pipeline P → α) (h : Plain obs) (p : Pipeline P)
    (name : String) (elapsed : Nat) (fn : Pipeline P → Pipeline P × Outcome (Payload P)) :
    obs (ExecuteStep p name elapsed fn) =
      obs (fn (p.Log "INFO" ("Executing step: " ++ name))).1 := by
  generalize hfn : fn (p.Log "INFO" ("Executing step: " ++ name)) = res
  obtain ⟨p2, o⟩ := res
  cases o with
  | returned value =>
    simp only [ExecuteStep, hfn, if_true]
    rw [h.1, h.2.2]
  | faulted r =>
    simp only [ExecuteStep, hfn, Bool.false_eq_true, if_false]
    rw [h.1, h.2.2]

theorem keep_runSteps {P α : Type} (obs : Pipeline P → α) (h : Plain obs)
    (elapsed : String → Nat) (calls : List (StepCall P)) (hc : ∀ c ∈ calls, Keeps obs c.fn) :
    ∀ p : Pipeline P, obs (runSteps elapsed calls p) = obs p := by
  induction calls with
  | nil => intro p; rfl
  | cons c rest ih =>
    intro p
    rw [runSteps, ih (fun d hd => hc d (List.mem_cons_of_mem _ hd)), keep_ExecuteStep obs h,
      hc c (List.mem_cons_self _ _), h.1]

theorem footprint_renderReport {P : Type} (p : Pipeline P) (w : ReportWorld)
    (data : ReportData P) (stem : String) :
    footprint (renderReport p w data stem).1 =
      (flags p, commands p.Trace, written p.Trace ++ reportFiles w stem) := by
  unfold renderReport reportFiles
  repeat' split
  all_goals
    simp_all [footprint, flags, commands, written, Pipeline.Log, List.filterMap_append]

theorem Itinerary.footprint_GenerateHTMLReport (p : Itinerary.Pipeline) (w : ReportWorld) :
    footprint (Itinerary.GenerateHTMLReport p w).1 =
      (flags p, commands p.Trace,
        written p.Trace ++ reportFiles w "MusafirGO_Pipeline_Report_") := by
  unfold Itinerary.GenerateHTMLReport
  simp only []
  rw [footprint_renderReport]
  have hg : ∀ q : Itinerary.Pipeline, footprint (Itinerary.getAPIResults q).1 = footprint q := by
    intro q
    unfold Itinerary.getAPIResults
    split <;> exact plain_footprint.1 _ _ _
  have h := hg (p.Log "INFO" "Generating HTML report with visualizations...")
  rw [plain_footprint.1] at h
  simp only [footprint, Prod.mk.injEq] at h
  rw [h.1, h.2.1, h.2.2]

theorem Web.web_footprint_GenerateHTMLReport (p : Web.Pipeline) (w : ReportWorld) :
    footprint (Web.GenerateHTMLReport p w).1 =
      (flags p, commands p.Trace,
        written p.Trace ++ reportFiles w "MusafirGO_Web_Pipeline_Report_") := by
  unfold Web.GenerateHTMLReport
  simp only []
  rw [footprint_renderReport]
  have h := plain_footprint.1 p "INFO" "Generating HTML report with visualizations..."
  simp only [footprint, Prod.mk.injEq] at h
  rw [h.1, h.2.1, h.2.2]

theorem keep_finalize {P α : Type} (obs : Pipeline P → α) (h : Plain obs) (p : Pipeline P)
    (now : Nat) (layout : Nat → String) : obs (finalize p now layout).1 = obs p := by
  unfold finalize
  simp only []
  split_ifs <;> simp only [h.1, h.2.2]

theorem Itinerary.steps_keep {α : Type} (obs : Itinerary.Pipeline → α) (h : Plain obs)
    (x : Itinerary.Externals) (w : Itinerary.World) :
    ∀ c ∈ Itinerary.steps x w, c.name ≠ "GenerateHTMLReport" → Keeps obs c.fn := by
  intro c hc hn
  simp only [Itinerary.steps, List.mem_cons, List.mem_singleton, List.not_mem_nil,
    or_false] at hc
  rcases hc with rfl | rfl | rfl | rfl | rfl | rfl | rfl | rfl | rfl | rfl | rfl | rfl
  · exact keep_plain obs _
  · exact keep_plain obs _
  · exact keep_plain obs _
  · exact keep_plain obs _
  · exact fun p => Itinerary.keep_HealthChecks obs h p _
  · exact fun p => Itinerary.keep_APITests obs h p _
  · exact fun p => Itinerary.keep_PerformanceTests obs h p _
  · intro p
    show obs (plain _ _).1 = obs p
    rw [plain_fst, h.1]
  · exact fun p => Itinerary.keep_DisplayDetailedResults obs h p
  · exact keep_plain obs _
  · exact absurd rfl hn
  · exact keep_plain obs _

/-- The flags with which the itinerary `Run` calls each of its steps are those of the
pipeline it is called on. -/
theorem Itinerary.flags_atStep (k : Nat) (p : Itinerary.Pipeline) (x : Itinerary.Externals)
    (w : Itinerary.World) : flags (Itinerary.atStep k p x w) = flags p := by
  have hp : Plain (flags : Itinerary.Pipeline → _) :=
    ⟨fun _ _ _ => rfl, fun _ _ => rfl, fun _ _ => rfl⟩
  have hk : ∀ c ∈ (Itinerary.steps x w).take k, Keeps flags c.fn := by
    intro c hc
    by_cases hn : c.name = "GenerateHTMLReport"
    · have hm := List.mem_of_mem_take hc
      simp only [Itinerary.steps, List.mem_cons, List.mem_singleton, List.not_mem_nil,
        or_false] at hm
      rcases hm with rfl | rfl | rfl | rfl | rfl | rfl | rfl | rfl | rfl | rfl | rfl | rfl
      · exact absurd hn (by simp)
      · exact absurd hn (by simp)
      · exact absurd hn (by simp)
      · exact absurd hn (by simp)
      · exact absurd hn (by simp)
      · exact absurd hn (by simp)
      · exact absurd hn (by simp)
      · exact absurd hn (by simp)
      · exact absurd hn (by simp)
      · exact absurd hn (by simp)
      · intro q
        show flags (returning (Itinerary.GenerateHTMLReport q w.report)).1 = flags q
        have := Itinerary.footprint_GenerateHTMLReport q w.report
        simp only [footprint, Prod.mk.injEq] at this
        exact this.1
      · exact absurd hn (by simp)
    · exact Itinerary.steps_keep flags hp x w c (List.mem_of_mem_take hc) hn
  unfold Itinerary.atStep
  rw [hp.1, keep_runSteps flags hp w.elapsed _ hk, hp.1, hp.1]

/-- What the itinerary `Run` leaves on the host: no command of its own, and the report file.
The operations taken as given are not part of the trace. -/
theorem Itinerary.footprint_Run (p : Itinerary.Pipeline) (x : Itinerary.Externals)
    (w : Itinerary.World) :
    footprint (Itinerary.Run p x w).1 =
      (flags p, commands p.Trace,
        written p.Trace ++ reportFiles w.report "MusafirGO_Pipeline_Report_") := by
  have hrun : ∀ q : Itinerary.Pipeline, runSteps w.elapsed (Itinerary.steps x w) q =
      ExecuteStep
        (ExecuteStep (runSteps w.elapsed ((Itinerary.steps x w).take 10) q)
          "GenerateHTMLReport" (w.elapsed "GenerateHTMLReport")
          (fun p => returning (Itinerary.GenerateHTMLReport p w.report)))
        "OpenReportInChrome" (w.elapsed "OpenReportInChrome") (plain x.OpenReportInChrome) :=
    fun q => runSteps_append w.elapsed ((Itinerary.steps x w).take 10)
      ((Itinerary.steps x w).drop 10) q
  have hkeep : ∀ c ∈ (Itinerary.steps x w).take 10, Keeps footprint c.fn := by
    intro c hc
    apply Itinerary.steps_keep footprint plain_footprint x w c (List.mem_of_mem_take hc)
    simp only [Itinerary.steps, List.take, List.mem_cons, List.mem_singleton,
      List.not_mem_nil, or_false] at hc
    rcases hc with rfl | rfl | rfl | rfl | rfl | rfl | rfl | rfl | rfl | rfl <;> simp
  unfold Itinerary.Run
  simp only [Pipeline.Log_BaseURL]
  rw [keep_finalize footprint plain_footprint, hrun, keep_ExecuteStep footprint plain_footprint,
    plain_fst, plain_footprint.1, keep_ExecuteStep footprint plain_footprint]
  show footprint (Itinerary.GenerateHTMLReport _ w.report).1 = _
  rw [Itinerary.footprint_GenerateHTMLReport]
  have h := keep_runSteps footprint plain_footprint w.elapsed _ hkeep
    ((p.Log "INFO" "Starting MusafirGO Itinerary Service Pipeline...").Log "INFO"
      ("Base URL: " ++ p.BaseURL))
  rw [plain_footprint.1, plain_footprint.1] at h
  have h2 := plain_footprint.1 (runSteps w.elapsed ((Itinerary.steps x w).take 10)
    ((p.Log "INFO" "Starting MusafirGO Itinerary Service Pipeline...").Log "INFO"
      ("Base URL: " ++ p.BaseURL))) "INFO" ("Executing step: " ++ "GenerateHTMLReport")
  rw [h] at h2
  simp only [footprint, Prod.mk.injEq] at h2
  rw [h2.1, h2.2.1, h2.2.2]

theorem Web.web_keep_apiCase {α : Type} (obs : Web.Pipeline → α) (h : Plain obs)
    (cw : Web.CaseWorld) (e : Endpoint) (st : ApiState Web.PerformanceResult) :
    obs (Web.apiCase cw e st).1.p = obs st.p := by
  unfold Web.apiCase
  simp only []
  split_ifs <;> simp only [keep_classify obs h, ApiState.send, h.2.1]

theorem Web.web_keep_APITests {α : Type} (obs : Web.Pipeline → α) (h : Plain obs)
    (p : Web.Pipeline) (w : Nat → Web.CaseWorld) : obs (Web.APITests p w).1 = obs p := by
  unfold Web.APITests
  split_ifs
  · exact h.1 _ _ _
  · simp only []
    have hl := loopFrom_preserves obs Web.apiCase w (Web.web_keep_apiCase obs h)
      Web.endpoints 0
      ⟨p.Log "INFO" "Running comprehensive API tests for mock endpoints...", { Details := [] }⟩
    simp only [h.1] at hl
    split
    · rename_i heq; rw [heq] at hl; exact hl
    · rename_i heq; rw [heq] at hl; rw [keep_logSummary obs h]; exact hl

theorem Web.web_keep_HealthChecks {α : Type} (obs : Web.Pipeline → α) (h : Plain obs)
    (p : Web.Pipeline) (w : Nat → HttpOutcome) : obs (Web.HealthChecks p w).1 = obs p := by
  unfold Web.HealthChecks
  simp only []
  split_ifs <;> simp only [keep_healthProbe obs h, h.1]

theorem Web.web_keep_PerformanceTests {α : Type} (obs : Web.Pipeline → α) (h : Plain obs)
    (p : Web.Pipeline) (sample : String → Sample) :
    obs (Web.PerformanceTests p sample).1 = obs p := by
  unfold Web.PerformanceTests
  simp only []
  split_ifs <;> simp only [keep_measureEndpoint obs h, keep_logStatistics obs h, h.1]

theorem Web.web_steps_keep {α : Type} (obs : Web.Pipeline → α) (h : Plain obs)
    (x : Web.Externals) (w : Web.World) :
    ∀ c ∈ Web.steps x w, c.name ≠ "GenerateHTMLReport" → Keeps obs c.fn := by
  intro c hc hn
  simp only [Web.steps, List.mem_cons, List.mem_singleton, List.not_mem_nil,
    or_false] at hc
  rcases hc with rfl | rfl | rfl | rfl | rfl | rfl | rfl
  · exact keep_plain obs _
  · exact keep_plain obs _
  · exact keep_plain obs _
  · exact fun p => Web.web_keep_HealthChecks obs h p _
  · exact fun p => Web.web_keep_APITests obs h p _
  · exact fun p => Web.web_keep_PerformanceTests obs h p _
  · exact absurd rfl hn

/-- What the web `Run` leaves on the host: no command of its own, and the report file.  The
operations taken as given are not part of the trace. -/
theorem Web.web_footprint_Run (p : Web.Pipeline) (x : Web.Externals) (w : Web.World) :
    footprint (Web.Run p x w).1 =
      (flags p, commands p.Trace,
        written p.Trace ++ reportFiles w.report "MusafirGO_Web_Pipeline_Report_") := by
  have hrun : ∀ q : Web.Pipeline, runSteps w.elapsed (Web.steps x w) q =
      ExecuteStep (runSteps w.elapsed ((Web.steps x w).take 6) q)
        "GenerateHTMLReport" (w.elapsed "GenerateHTMLReport")
        (fun p => returning (Web.GenerateHTMLReport p w.report)) :=
    fun q => runSteps_append w.elapsed ((Web.steps x w).take 6) ((Web.steps x w).drop 6) q
  have hkeep : ∀ c ∈ (Web.steps x w).take 6, Keeps footprint c.fn := by
    intro c hc
    apply Web.web_steps_keep footprint plain_footprint x w c (List.mem_of_mem_take hc)
    simp only [Web.steps, List.take, List.mem_cons, List.mem_singleton,
      List.not_mem_nil, or_false] at hc
    rcases hc with rfl | rfl | rfl | rfl | rfl | rfl <;> simp
  unfold Web.Run
  simp only [Pipeline.Log_BaseURL]
  rw [keep_finalize footprint plain_footprint, hrun, keep_ExecuteStep footprint plain_footprint]
  show footprint (Web.GenerateHTMLReport _ w.report).1 = _
  rw [Web.web_footprint_GenerateHTMLReport]
  have h := keep_runSteps footprint plain_footprint w.elapsed _ hkeep
    (((p.Log "INFO" "Starting MusafirGO Web Service Pipeline...").Log "INFO"
      ("Base URL: " ++ p.BaseURL)).Log "INFO" ("Project Path: " ++ Web.ProjectPath))
  rw [plain_footprint.1, plain_footprint.1, plain_footprint.1] at h
  have h2 := plain_footprint.1 (runSteps w.elapsed ((Web.steps x w).take 6)
    (((p.Log "INFO" "Starting MusafirGO Web Service Pipeline...").Log "INFO"
      ("Base URL: " ++ p.BaseURL)).Log "INFO" ("Project Path: " ++ Web.ProjectPath)))
    "INFO" ("Executing step: " ++ "GenerateHTMLReport")
  rw [h] at h2
  simp only [footprint, Prod.mk.injEq] at h2
  rw [h2.1, h2.2.1, h2.2.2]

theorem skipFlags_spec (Args : List String) :
    ∀ a b c : Bool, skipFlags Args (a, b, c) =
      (a || decide ("--skip-init" ∈ Args), b || decide ("--skip-data-load" ∈ Args),
        c || decide ("--skip-tests" ∈ Args)) := by
  induction Args with
  | nil => intro a b c; simp [skipFlags]
  | cons arg rest ih =>
    intro a b c
    rw [skipFlags]
    split_ifs with h1 h2 h3
    · subst h1; rw [ih]; simp
    · subst h2; rw [ih]; simp
    · subst h3; rw [ih]; simp
    · rw [ih]
      have e1 : ¬ "--skip-init" = arg := fun h => h1 h.symm
      have e2 : ¬ "--skip-data-load" = arg := fun h => h2 h.symm
      have e3 : ¬ "--skip-tests" = arg := fun h => h3 h.symm
      simp [e1, e2, e3]

theorem arguments_spec (defaultURL : String) (Args : List String) :
    arguments defaultURL Args =
      (Args.getD 1 defaultURL, decide ("--skip-init" ∈ Args),
        decide ("--skip-data-load" ∈ Args), decide ("--skip-tests" ∈ Args)) := by
  unfold arguments
  simp only [skipFlags_spec, Bool.false_or]
  congr 1
  split_ifs with h
  · simp only [List.getD_eq_getElem?_getD, List.getElem?_eq_getElem h, Option.getD_some]
  · simp only [List.getD_eq_getElem?_getD]
    rw [List.getElem?_eq_none (by omega)]
    rfl

theorem Web.StartMockServices_ignores_SkipInit (p : Web.Pipeline) (b : Bool)
    (w : Web.MockWorld) :
    (Web.StartMockServices { p with SkipInit := b } w).2 = (Web.StartMockServices p w).2 ∧
    commands (Web.StartMockServices { p with SkipInit := b } w).1.Trace =
      commands (Web.StartMockServices p w).1.Trace := by
  unfold Web.StartMockServices
  simp only []
  repeat' split
  all_goals exact ⟨rfl, rfl⟩

theorem allOk_eq_all (m : List (String × Bool)) : allOk m = m.all (fun e => e.2) := by
  induction m with
  | nil => rfl
  | cons e rest ih =>
    obtain ⟨k, v⟩ := e
    cases v <;> simp [allOk, ih]

theorem allOk_perm {m n : List (String × Bool)} (h : m.Perm n) : allOk m = allOk n := by
  rw [allOk_eq_all, allOk_eq_all]
  induction h with
  | nil => rfl
  | cons x _ ih => simp [ih]
  | swap x y l => simp [Bool.and_left_comm]
  | trans _ _ ih1 ih2 => exact ih1.trans ih2

theorem checkDocker_snd {P : Type} (p : Pipeline P) (w : HostWorld)
    (m : List (String × Bool)) :
    (checkDocker p w m).2 =
      if p.DockerClient = true ∧
          (w.ping 0 = none ∨
            (StartDockerService (p.Log "WARN" "Docker: NOT RUNNING - Attempting to start...")
              w 1).2 = true)
      then setKey "Docker" true m else m := by
  unfold checkDocker
  cases hc : p.DockerClient
  · simp
  · cases hp : w.ping 0 with
    | none => simp
    | some err =>
      simp only [true_and, if_true]
      cases hs : (StartDockerService
        (p.Log "WARN" "Docker: NOT RUNNING - Attempting to start...") w 1).2 <;> simp [hs]

theorem checkTool_snd {P : Type} (p : Pipeline P) (w : HostWorld) (cmd : Command)
    (key label : String) (m : List (String × Bool)) :
    (checkTool p w cmd key label m).2 =
      if (w.run cmd).succeeded = true then setKey key true m else m := by
  unfold checkTool
  cases h : w.run cmd <;> simp [CmdOutcome.succeeded]

theorem verdict_snd {P : Type} (p : Pipeline P) (w : HostWorld) (m : List (String × Bool))
    (horder : ∀ m, (w.order m).Perm m) : (verdict p w m).2 = allOk m := by
  unfold verdict
  rw [allOk_perm (horder m)]
  cases allOk m <;> rfl

theorem Itinerary.CheckPrerequisites_verdict (p : Itinerary.Pipeline) (w : HostWorld)
    (horder : ∀ m, (w.order m).Perm m) :
    (Itinerary.CheckPrerequisites p w).2 = true ↔
      engineReachable p w "Checking prerequisites..." ∧
      (w.run ⟨["docker-compose", "--version"], ""⟩).succeeded = true ∧
      (w.run ⟨["go", "version"], ""⟩).succeeded = true := by
  unfold Itinerary.CheckPrerequisites engineReachable
  simp only []
  rw [verdict_snd _ _ _ horder, checkTool_snd, checkTool_snd, checkDocker_snd]
  have hd : (p.Log "INFO" "Checking prerequisites...").DockerClient = p.DockerClient := rfl
  rw [hd]
  split_ifs with h1 h2 h3 <;> simp_all [setKey, allOk]

theorem Web.web_CheckPrerequisites_verdict (p : Web.Pipeline) (w : HostWorld)
    (horder : ∀ m, (w.order m).Perm m) :
    (Web.CheckPrerequisites p w).2 = true ↔
      engineReachable p w "Checking prerequisites for Angular project..." ∧
      (w.run ⟨["docker-compose", "--version"], ""⟩).succeeded = true ∧
      (w.run ⟨["node", "--version"], ""⟩).succeeded = true ∧
      (w.run ⟨["ng", "version"], ""⟩).succeeded = true := by
  unfold Web.CheckPrerequisites engineReachable
  simp only []
  rw [verdict_snd _ _ _ horder, checkTool_snd, checkTool_snd, checkTool_snd, checkDocker_snd]
  have hd : (p.Log "INFO" "Checking prerequisites for Angular project...").DockerClient
      = p.DockerClient := rfl
  rw [hd]
  split_ifs with h1 h2 h3 h4 <;> simp_all [setKey, allOk]

theorem removable_filter {dir : Directory} (h : Removable dir) (f : DirEntry → Bool) :
    Removable (dir.filter f) :=
  fun e he => h e (List.mem_of_mem_filter he)

theorem Itinerary.removeMatch_dir (st : Itinerary.CleanupState) (file : String)
    (h : Removable st.dir) : (Itinerary.removeMatch st file).dir = Remove st.dir file := by
  unfold Itinerary.removeMatch
  cases hs : Stat st.dir file with
  | none =>
    simp only [Stat, List.find?_eq_none] at hs
    simp only [Remove]
    exact (List.filter_eq_self.mpr (fun e he => by simpa using hs e he)).symm
  | some info =>
    have hm : info ∈ st.dir := List.mem_of_find?_eq_some hs
    obtain ⟨h1, h2⟩ := h info hm
    simp only [h1, h2, Bool.false_eq_true, if_false]

theorem Itinerary.foldl_removeMatch_dir (files : List String) :
    ∀ st : Itinerary.CleanupState, Removable st.dir →
      (files.foldl Itinerary.removeMatch st).dir
        = st.dir.filter (fun e => decide (e.name ∉ files)) := by
  induction files with
  | nil => intro st _; simp
  | cons f rest ih =>
    intro st h
    have h1 := Itinerary.removeMatch_dir st f h
    rw [List.foldl_cons, ih _ (by rw [h1]; exact removable_filter h _), h1, Remove,
      List.filter_filter]
    apply List.filter_congr
    intro e _
    by_cases hf : e.name = f <;> simp [hf]

theorem Itinerary.cleanPattern_dir (st : Itinerary.CleanupState) (pattern : String)
    (h : Removable st.dir) :
    (Itinerary.cleanPattern st pattern).dir
      = st.dir.filter (fun e => !filepath.Match pattern e.name) := by
  unfold Itinerary.cleanPattern
  rw [Itinerary.foldl_removeMatch_dir _ st h]
  apply List.filter_congr
  intro e he
  by_cases hm : filepath.Match pattern e.name = true
  · have : e.name ∈ Glob st.dir pattern := by
      simp only [Glob, List.mem_map, List.mem_filter]
      exact ⟨e, ⟨he, hm⟩, rfl⟩
    simp [this, hm]
  · have : e.name ∉ Glob st.dir pattern := by
      simp only [Glob, List.mem_map, List.mem_filter, not_exists, not_and, and_imp]
      intro e2 _ h2 h3
      rw [h3] at h2
      exact hm h2
    simp [this, hm]

theorem Itinerary.foldl_cleanPattern_dir (ps : List String) :
    ∀ st : Itinerary.CleanupState, Removable st.dir →
      (ps.foldl Itinerary.cleanPattern st).dir
        = st.dir.filter (fun e => !ps.any (fun pattern => filepath.Match pattern e.name)) := by
  induction ps with
  | nil => intro st _; simp
  | cons pat rest ih =>
    intro st h
    have h1 := Itinerary.cleanPattern_dir st pat h
    rw [List.foldl_cons, ih _ (by rw [h1]; exact removable_filter h _), h1, List.filter_filter]
    apply List.filter_congr
    intro e _
    simp [Bool.and_comm]

/-- The directory after `CleanupOldReports`, when every entry is a removable regular file. -/
theorem Itinerary.CleanupOldReports_dir (p : Itinerary.Pipeline) (dir : Directory)
    (h : Removable dir) :
    (Itinerary.CleanupOldReports p dir).2.1
      = dir.filter (fun e => !Itinerary.isOldReport e.name) := by
  unfold Itinerary.CleanupOldReports
  simp only []
  exact Itinerary.foldl_cleanPattern_dir Itinerary.patterns ⟨_, dir, 0⟩ h

/-- On a directory without a matching name `CleanupOldReports` only writes two log lines. -/
theorem Itinerary.CleanupOldReports_nothing (p : Itinerary.Pipeline) (dir : Directory)
    (h : ∀ e ∈ dir, Itinerary.isOldReport e.name = false) :
    Itinerary.CleanupOldReports p dir =
      ((p.Log "INFO" "Nettoyage des anciens rapports...").Log "INFO"
        "Aucun ancien rapport trouvé à supprimer", dir, true) := by
  have hg : ∀ pattern ∈ Itinerary.patterns, Glob dir pattern = [] := by
    intro pattern hp
    simp only [Glob, List.map_eq_nil_iff, List.filter_eq_nil_iff]
    intro e he
    have := h e he
    simp only [Itinerary.isOldReport, List.any_eq_false] at this
    exact this pattern hp
  have hf : ∀ (ps : List String) (st : Itinerary.CleanupState), st.dir = dir →
      (∀ pattern ∈ ps, pattern ∈ Itinerary.patterns) →
      ps.foldl Itinerary.cleanPattern st = st := by
    intro ps
    induction ps with
    | nil => intro st _ _; rfl
    | cons pat rest ih =>
      intro st hd hp
      have h1 : Itinerary.cleanPattern st pat = st := by
        unfold Itinerary.cleanPattern
        rw [hd, hg pat (hp pat (List.mem_cons_self _ _))]
        rfl
      rw [List.foldl_cons, h1]
      exact ih st hd (fun q hq => hp q (List.mem_cons_of_mem _ hq))
  unfold Itinerary.CleanupOldReports
  simp only []
  rw [hf Itinerary.patterns ⟨_, dir, 0⟩ rfl (fun _ hq => hq)]
  simp

theorem filepath.matchChars_literal (pre : List Char) (h : '*' ∉ pre)
    (pattern name : List Char) :
    filepath.matchChars (pre ++ pattern) (pre ++ name) = filepath.matchChars pattern name := by
  induction pre with
  | nil => rfl
  | cons c rest ih =>
    have hc : c ≠ '*' := fun e => h (by simp [e])
    have hr : '*' ∉ rest := fun e => h (List.mem_cons_of_mem _ e)
    simp only [List.cons_append, filepath.matchChars, hc, if_false, beq_self_eq_true,
      Bool.true_and]
    exact ih hr

theorem filepath.starChars_append (rest : List Char → Bool) (suffix : List Char)
    (hs : rest suffix = true) :
    ∀ middle : List Char, '/' ∉ middle → filepath.starChars rest (middle ++ suffix) = true := by
  intro middle
  induction middle with
  | nil =>
    intro _
    cases suffix with
    | nil => simpa [filepath.starChars] using hs
    | cons c s => simp [filepath.starChars, hs]
  | cons c m ih =>
    intro h
    have hc : c ≠ '/' := fun e => h (by simp [e])
    have hm : '/' ∉ m := fun e => h (List.mem_cons_of_mem _ e)
    simp [filepath.starChars, ih hm, hc]

/-- A name made of a literal stem, a middle part without separator and a literal extension
matches the pattern `stem*extension`. -/
theorem filepath.Match_stem (stem middle extension : String) (h1 : '*' ∉ stem.data)
    (h2 : '*' ∉ extension.data) (hm : '/' ∉ middle.data) :
    filepath.Match (stem ++ "*" ++ extension) (stem ++ middle ++ extension) = true := by
  have he : filepath.matchChars extension.data extension.data = true := by
    have := filepath.matchChars_literal extension.data h2 [] []
    simpa [filepath.matchChars] using this
  unfold filepath.Match
  simp only [String.data_append, List.append_assoc]
  rw [filepath.matchChars_literal _ h1]
  show filepath.matchChars ('*' :: extension.data) _ = true
  simp only [filepath.matchChars, if_true]
  exact filepath.starChars_append _ _ he _ hm

/-- The report that the itinerary `GenerateHTMLReport` writes is an old report for the next
`CleanupOldReports`. -/
theorem Itinerary.report_isOldReport (w : ReportWorld) (h : '/' ∉ w.timestamp.data) :
    ∀ name ∈ reportFiles w "MusafirGO_Pipeline_Report_",
      Itinerary.isOldReport name = true := by
  intro name hn
  unfold reportFiles at hn
  split_ifs at hn
  · simp only [List.mem_singleton] at hn
    subst hn
    have := filepath.Match_stem "MusafirGO_Pipeline_Report_" w.timestamp ".html"
      (by decide) (by decide) h
    simp only [Itinerary.isOldReport, Itinerary.patterns, List.any_cons, Bool.or_eq_true]
    exact Or.inl this
  · simp at hn

theorem newPipeline_footprint {P : Type} (baseURL : String)
    (skipInit skipDataLoad skipTests : Bool) (clientError : Option String) (now : Nat) :
    footprint (newPipeline baseURL skipInit skipDataLoad skipTests clientError now :
      Pipeline P) = ((skipInit, skipDataLoad, skipTests), [], []) := by
  cases clientError <;> simp [newPipeline, footprint, flags, commands, written]

theorem Itinerary.written_GenerateExcelReport (p : Itinerary.Pipeline)
    (w : Itinerary.ExcelWorld) :
    written (Itinerary.GenerateExcelReport p w).1.Trace =
      written p.Trace ++ ["MusafirGO_Pipeline_Report_" ++ w.timestamp ++ ".xlsx"] := by
  unfold Itinerary.GenerateExcelReport
  simp only []
  repeat' split
  all_goals simp_all [written, Pipeline.Log, List.filterMap_append]

theorem requests_Log {P : Type} (p : Pipeline P) (level message : String) :
    requests (p.Log level message).Trace = requests p.Trace := by
  simp [requests, Pipeline.Log, List.filterMap_append]

theorem requests_send {P : Type} (p : Pipeline P) (r : Request) :
    requests (p.send r).Trace = requests p.Trace ++ [r] := by
  simp [requests, Pipeline.send, List.filterMap_append]

theorem requests_classify {P : Type} (st : ApiState P) (m u : String) (e : Int) (el : String)
    (o : HttpOutcome) : requests (classify st m u e el o).p.Trace = requests st.p.Trace := by
  obtain ⟨level, detail, hc⟩ := classify_trace st m u e el o
  rw [hc, requests_Log]

/-- The requests that the loop body sends for a row with method `POST`. -/
theorem Itinerary.apiCase_post (cw : Itinerary.CaseWorld) (e : Endpoint)
    (st : ApiState Itinerary.PerformanceResult) (h : e.Method = "POST") :
    requests (Itinerary.apiCase cw e st).1.p.Trace =
      requests st.p.Trace ++
        (if Itinerary.takesUploadBranch e = true then
          (if Itinerary.uploadSent cw = true then
            [⟨"POST", st.p.BaseURL ++ Itinerary.substitute e.URL,
              RequestBody.multipartFile "file" "test-image.png"⟩]
           else [])
         else
          [⟨"POST", st.p.BaseURL ++ Itinerary.substitute e.URL, RequestBody.json e.Body⟩]) := by
  unfold Itinerary.apiCase Itinerary.takesUploadBranch Itinerary.uploadSent
  simp only [h, if_true, decide_True, Bool.true_and]
  split_ifs with hu
  all_goals (repeat' split)
  all_goals
    simp only [requests_classify, ApiState.send, requests_send, Itinerary.uploadAbort,
      requests_Log]
  all_goals try simp_all [requests, List.filterMap_append]

theorem strings.replaceChars_absent (old new : List Char) :
    ∀ s : List Char, strings.containsChars old s = false →
      strings.replaceChars old new 0 s = s := by
  intro s
  induction s with
  | nil => intro _; rfl
  | cons c t ih =>
    intro h
    simp only [strings.containsChars, Bool.or_eq_false_iff] at h
    simp only [strings.replaceChars, h.1, Bool.false_eq_true, if_false, ih h.2]

theorem strings.ReplaceAll_absent (s old new : String) (h : strings.Contains s old = false) :
    strings.ReplaceAll s old new = s := by
  unfold strings.Contains at h
  unfold strings.ReplaceAll
  split_ifs with he
  · rw [he] at h
    cases hs : s.data with
    | nil => rw [hs] at h; simp [strings.containsChars] at h
    | cons c t => rw [hs] at h; simp [strings.containsChars] at h
  · rw [strings.replaceChars_absent _ _ _ h]

/-- The path requested for a declared path: five replacements, one after the other. -/
theorem Itinerary.substitute_eq (declared : String) :
    Itinerary.substitute declared =
      strings.ReplaceAll
        (strings.ReplaceAll
          (strings.ReplaceAll (Itinerary.placeholdersReplaced declared)
            "83a3b4ca-8d0c-4faf-ab02-caf3287f28cf" Itinerary.predefinedItineraryID)
          "c0fc6c3d-38fe-4f37-8c6a-4cd4badf65d3" Itinerary.predefinedItineraryID)
        "123e4567-e89b-12d3-a456-426614174000" Itinerary.predefinedMediaID := by
  unfold Itinerary.substitute Itinerary.placeholdersReplaced
  simp only []
  have h1 : (if strings.Contains declared "{id}" = true then
      strings.ReplaceAll declared "{id}" Itinerary.predefinedItineraryID else declared)
      = strings.ReplaceAll declared "{id}" Itinerary.predefinedItineraryID := by
    split_ifs with h
    · rfl
    · exact (strings.ReplaceAll_absent _ _ _ (by simpa using h)).symm
  rw [h1]
  have h2 : ∀ u : String, (if strings.Contains u "{mediaId}" = true then
      strings.ReplaceAll u "{mediaId}" Itinerary.predefinedMediaID else u)
      = strings.ReplaceAll u "{mediaId}" Itinerary.predefinedMediaID := by
    intro u
    split_ifs with h
    · rfl
    · exact (strings.ReplaceAll_absent _ _ _ (by simpa using h)).symm
  rw [h2]

set_option maxRecDepth 100000 in
theorem Itinerary.table_no_placeholder :
    ∀ e ∈ Itinerary.endpoints,
      strings.Contains (Itinerary.substitute e.URL) "{id}" = false ∧
      strings.Contains (Itinerary.substitute e.URL) "{mediaId}" = false := by
  decide

set_option maxRecDepth 100000 in
theorem Itinerary.table_literal_rows :
    Itinerary.endpoints.map
      (fun e => decide (Itinerary.substitute e.URL = Itinerary.placeholdersReplaced e.URL)) =
      List.replicate 33 true ++ [false, false, false] ++ List.replicate 20 true := by
  decide

theorem measureEndpoint_snd {P : Type} (sample : String → Sample) (p : Pipeline P)
    (method url name body : String) :
    (measureEndpoint sample p method url name body).2 = latency (sample name) := by
  unfold measureEndpoint
  simp only []
  cases sample name <;> rfl

theorem Itinerary.finishPerformance_snd (p : Itinerary.Pipeline)
    (result : Itinerary.PerformanceResult) :
    (Itinerary.finishPerformance p result).2 = Outcome.returned (Itinerary.aggregate result) := by
  unfold Itinerary.finishPerformance
  simp only []
  split_ifs <;> rfl

theorem Itinerary.measureCreated_snd (p : Itinerary.Pipeline) (w : Itinerary.PerfWorld)
    (result : Itinerary.PerformanceResult) (id : String) :
    (Itinerary.measureCreated p w result id).2 =
      match w.cleanup with
      | some _ => Outcome.faulted nilDereference
      | none =>
        Outcome.returned
          { result with
            GetItinerary := latency (w.sample "Get Itinerary"),
            AddItem := latency (w.sample "Add Item"),
            RemoveItem := latency (w.sample "Remove Item"),
            GetMedia := latency (w.sample "Get Media"),
            CreateMedia := latency (w.sample "Create Media"),
            DeleteMedia := latency (w.sample "Delete Media") } := by
  unfold Itinerary.measureCreated
  simp only [measureEndpoint_snd]
  cases w.cleanup <;> rfl

theorem Itinerary.afterCreated_snd (x : Itinerary.Pipeline × Outcome Itinerary.PerformanceResult) :
    (match x with
      | (p, Outcome.faulted description) => (p, Outcome.faulted description)
      | (p, Outcome.returned result) => Itinerary.finishPerformance p result).2 =
      match x.2 with
      | Outcome.faulted description => Outcome.faulted description
      | Outcome.returned result => Outcome.returned (Itinerary.aggregate result) := by
  obtain ⟨p, o⟩ := x
  cases o with
  | faulted d => rfl
  | returned r => exact Itinerary.finishPerformance_snd p r

/-- What the itinerary `PerformanceTests` returns, or the panic it ends in. -/
theorem Itinerary.PerformanceTests_snd (p : Itinerary.Pipeline) (w : Itinerary.PerfWorld) :
    (Itinerary.PerformanceTests p w).2 =
      match Itinerary.createdID w with
      | Outcome.faulted description => Outcome.faulted description
      | Outcome.returned id =>
        if id ≠ "" then
          match w.cleanup with
          | some _ => Outcome.faulted nilDereference
          | none => Outcome.returned (Itinerary.aggregate (Itinerary.measured w true))
        else Outcome.returned (Itinerary.aggregate (Itinerary.measured w false)) := by
  unfold Itinerary.PerformanceTests Itinerary.createdID
  simp only [measureEndpoint_snd]
  cases hc : w.create with
  | failed =>
    simp only [ne_eq, not_true_eq_false, if_false, Itinerary.finishPerformance_snd]
    rfl
  | response code id =>
    by_cases h201 : code = 201
    · cases id with
      | other t => simp only [h201, if_true]
      | text s =>
        simp only [h201, if_true]
        by_cases he : s = ""
        · simp only [he, ne_eq, not_true_eq_false, if_false, Itinerary.finishPerformance_snd]
          rfl
        · simp only [he, ne_eq, not_false_eq_true, if_true]
          refine (Itinerary.afterCreated_snd _).trans ?_
          rw [Itinerary.measureCreated_snd]
          cases w.cleanup <;> rfl
    · simp only [h201, if_false, ne_eq, not_true_eq_false, Itinerary.finishPerformance_snd]
      rfl

theorem Web.web_PerformanceTests_snd (p : Web.Pipeline) (sample : String → Sample) :
    (Web.PerformanceTests p sample).2 =
      Outcome.returned (Web.aggregate (Web.measured sample)) := by
  unfold Web.PerformanceTests
  simp only [measureEndpoint_snd]
  split_ifs <;> rfl

theorem latency_cases (s : Sample) : latency s = -1 ∨ 0 ≤ latency s := by
  cases s with
  | failed => exact Or.inl rfl
  | done ms => exact Or.inr (by simp [latency])

theorem Itinerary.measured_samples (w : Itinerary.PerfWorld) (created : Bool) :
    ∀ x ∈ Itinerary.samples (Itinerary.measured w created), x = -1 ∨ 0 ≤ x := by
  intro x hx
  simp only [Itinerary.samples, Itinerary.measured, List.mem_cons, List.mem_singleton,
    List.not_mem_nil, or_false] at hx
  cases created <;>
    rcases hx with h | h | h | h | h | h | h | h | h | h | h | h | h | h | h | h <;>
    first
      | (rw [h]; exact latency_cases _)
      | (rw [h]; simp)

theorem Web.web_measured_samples (sample : String → Sample) :
    ∀ x ∈ Web.samples (Web.measured sample), x = -1 ∨ 0 ≤ x := by
  intro x hx
  simp only [Web.samples, Web.measured, List.mem_cons, List.mem_singleton,
    List.not_mem_nil, or_false] at hx
  rcases hx with h | h | h | h | h | h <;> (rw [h]; exact latency_cases _)

/-- The mean of a non-empty list lies between a lower and an upper bound of its elements. -/
theorem mean_between (valid : List ℚ) (lower upper : ℚ) (hne : valid ≠ [])
    (hl : ∀ v ∈ valid, lower ≤ v) (hu : ∀ v ∈ valid, v ≤ upper) :
    lower ≤ valid.sum / (valid.length : ℚ) ∧ valid.sum / (valid.length : ℚ) ≤ upper := by
  have hpos : (0 : ℚ) < (valid.length : ℚ) := by
    have : 0 < valid.length := List.length_pos.mpr hne
    exact_mod_cast this
  have h1 := List.card_nsmul_le_sum valid lower hl
  have h2 := List.sum_le_card_nsmul valid upper hu
  simp only [nsmul_eq_mul] at h1 h2
  constructor
  · rw [le_div_iff₀ hpos]; linarith
  · rw [div_le_iff₀ hpos]; linarith

/-- The derived fields of an aggregated result whose statistics fields were zero before. -/
theorem statistics_bounds (valid : List ℚ) (average max min : ℚ) (count : Nat)
    (h : StatisticsOf valid average max min count) (hne : valid ≠ [])
    (hpos : ∀ v ∈ valid, 0 ≤ v) :
    min ≤ average ∧ average ≤ max ∧ 0 ≤ min := by
  obtain ⟨ha, ⟨_, hmax⟩, ⟨hmin, hmin2⟩, _⟩ := h
  obtain ⟨h1, h2⟩ := mean_between valid min max hne hmin2 hmax
  rw [ha]
  exact ⟨h1, h2, hpos min hmin⟩

theorem requests_measureEndpoint {P : Type} (sample : String → Sample) (p : Pipeline P)
    (method url name body : String) :
    requests (measureEndpoint sample p method url name body).1.Trace =
      requests p.Trace ++
        [if method = "POST" then ⟨"POST", p.BaseURL ++ url, RequestBody.json body⟩
         else ⟨"GET", p.BaseURL ++ url, RequestBody.empty⟩] := by
  unfold measureEndpoint
  simp only []
  split_ifs <;> split <;> simp only [requests_Log, requests_send]

/-- What `PerformanceTests` returns in a run: the aggregate of the measured samples. -/
theorem Itinerary.PerformanceTests_returned (p : Itinerary.Pipeline) (w : Itinerary.PerfWorld)
    (r : Itinerary.PerformanceResult)
    (h : (Itinerary.PerformanceTests p w).2 = Outcome.returned r) :
    ∃ created, r = Itinerary.aggregate (Itinerary.measured w created) := by
  rw [Itinerary.PerformanceTests_snd] at h
  cases hid : Itinerary.createdID w with
  | faulted d => rw [hid] at h; simp at h
  | returned id =>
    rw [hid] at h
    simp only at h
    split_ifs at h with he
    · cases hw : w.cleanup with
      | some err => rw [hw] at h; simp at h
      | none =>
        rw [hw] at h
        simp only [Outcome.returned.injEq] at h
        exact ⟨true, h.symm⟩
    · simp only [Outcome.returned.injEq] at h
      exact ⟨false, h.symm⟩

theorem Itinerary.aggregate_bounds (r0 : Itinerary.PerformanceResult)
    (hz : r0.AverageTime = 0 ∧ r0.MaxTime = 0 ∧ r0.MinTime = 0 ∧ r0.SuccessfulTests = 0) :
    (0 < (Itinerary.aggregate r0).SuccessfulTests →
      (Itinerary.aggregate r0).MinTime ≤ (Itinerary.aggregate r0).AverageTime ∧
      (Itinerary.aggregate r0).AverageTime ≤ (Itinerary.aggregate r0).MaxTime ∧
      0 ≤ (Itinerary.aggregate r0).MinTime) ∧
    ((∀ x ∈ Itinerary.samples (Itinerary.aggregate r0), x < 0) →
      (Itinerary.aggregate r0).AverageTime = 0 ∧ (Itinerary.aggregate r0).MaxTime = 0 ∧
      (Itinerary.aggregate r0).MinTime = 0 ∧ (Itinerary.aggregate r0).SuccessfulTests = 0) := by
  obtain ⟨k1, k2, k3⟩ := Itinerary.aggregate_spec r0
  constructor
  · intro hpos
    by_cases hv : (Itinerary.samples r0).filter (fun v => decide (0 ≤ v)) = []
    · rw [k2 hv, hz.2.2.2] at hpos
      exact absurd hpos (by decide)
    · exact statistics_bounds _ _ _ _ _ (k3 hv) hv
        (fun v hv2 => by simpa using (List.mem_filter.mp hv2).2)
  · intro hneg
    rw [k1] at hneg
    have hv : (Itinerary.samples r0).filter (fun v => decide (0 ≤ v)) = [] := by
      rw [List.filter_eq_nil_iff]
      intro x hx
      have := hneg x hx
      simp only [decide_eq_true_eq, not_le]
      exact this
    rw [k2 hv]
    exact hz

theorem Web.web_aggregate_bounds (r0 : Web.PerformanceResult)
    (hz : r0.AverageTime = 0 ∧ r0.MaxTime = 0 ∧ r0.MinTime = 0 ∧ r0.SuccessfulTests = 0) :
    (0 < (Web.aggregate r0).SuccessfulTests →
      (Web.aggregate r0).MinTime ≤ (Web.aggregate r0).AverageTime ∧
      (Web.aggregate r0).AverageTime ≤ (Web.aggregate r0).MaxTime ∧
      0 ≤ (Web.aggregate r0).MinTime) ∧
    ((∀ x ∈ Web.samples (Web.aggregate r0), x < 0) →
      (Web.aggregate r0).AverageTime = 0 ∧ (Web.aggregate r0).MaxTime = 0 ∧
      (Web.aggregate r0).MinTime = 0 ∧ (Web.aggregate r0).SuccessfulTests = 0) := by
  obtain ⟨k1, k2, k3⟩ := Web.web_aggregate_spec r0
  constructor
  · intro hpos
    by_cases hv : (Web.samples r0).filter (fun v => decide (0 ≤ v)) = []
    · rw [k2 hv, hz.2.2.2] at hpos
      exact absurd hpos (by decide)
    · exact statistics_bounds _ _ _ _ _ (k3 hv) hv
        (fun v hv2 => by simpa using (List.mem_filter.mp hv2).2)
  · intro hneg
    rw [k1] at hneg
    have hv : (Web.samples r0).filter (fun v => decide (0 ≤ v)) = [] := by
      rw [List.filter_eq_nil_iff]
      intro x hx
      have := hneg x hx
      simp only [decide_eq_true_eq, not_le]
      exact this
    rw [k2 hv]
    exact hz

theorem Itinerary.displayStatistics_spec (r : Itinerary.PerformanceResult) :
    (Itinerary.displayStatistics r).1 = (Itinerary.samples r).sum / 16 ∧
    (((Itinerary.displayStatistics r).2.1 = 0 ∨
        (Itinerary.displayStatistics r).2.1 ∈ Itinerary.samples r) ∧
      0 ≤ (Itinerary.displayStatistics r).2.1 ∧
      ∀ v ∈ Itinerary.samples r, v ≤ (Itinerary.displayStatistics r).2.1) ∧
    ((Itinerary.displayStatistics r).2.2 ∈ Itinerary.samples r ∧
      ∀ v ∈ Itinerary.samples r, (Itinerary.displayStatistics r).2.2 ≤ v) := by
  obtain ⟨h1, h2, ⟨h5, _, h7⟩⟩ := statsLoop_spec (Itinerary.samples r) 0 0 r.HealthCheck
  have ht : Itinerary.times r = Itinerary.samples r := rfl
  have e1 : (Itinerary.displayStatistics r).1 =
      (statsLoop (Itinerary.samples r) (0, 0, r.HealthCheck)).1 / 16 := by
    unfold Itinerary.displayStatistics
    rw [ht]
    simp [Itinerary.samples]
  have e2 : (Itinerary.displayStatistics r).2.1 =
      (statsLoop (Itinerary.samples r) (0, 0, r.HealthCheck)).2.1 := rfl
  have e3 : (Itinerary.displayStatistics r).2.2 =
      (statsLoop (Itinerary.samples r) (0, 0, r.HealthCheck)).2.2 := rfl
  rw [e1, e2, e3]
  refine ⟨by rw [h1, zero_add], h2, ⟨?_, h7⟩⟩
  rcases h5 with h5 | h5
  · simp only [h5]
    simp [Itinerary.samples]
  · exact h5

theorem Itinerary.displayStatistics_of_nonneg (r0 : Itinerary.PerformanceResult)
    (hpos : ∀ x ∈ Itinerary.samples r0, 0 ≤ x) :
    Itinerary.displayStatistics (Itinerary.aggregate r0) =
      ((Itinerary.aggregate r0).AverageTime, (Itinerary.aggregate r0).MaxTime,
        (Itinerary.aggregate r0).MinTime) := by
  obtain ⟨k1, _, k3⟩ := Itinerary.aggregate_spec r0
  have hf : (Itinerary.samples r0).filter (fun v => decide (0 ≤ v)) = Itinerary.samples r0 := by
    apply List.filter_eq_self.mpr
    intro x hx
    simpa using hpos x hx
  rw [hf] at k3
  obtain ⟨a1, ⟨a2, a3⟩, ⟨a4, a5⟩, _⟩ := k3 (by simp [Itinerary.samples])
  obtain ⟨d1, ⟨d2, d3, d4⟩, ⟨d5, d6⟩⟩ := Itinerary.displayStatistics_spec (Itinerary.aggregate r0)
  rw [k1] at d1 d2 d4 d5 d6
  refine Prod.ext ?_ (Prod.ext ?_ ?_)
  · rw [d1, a1]
    simp [Itinerary.samples]
  · apply le_antisymm
    · rcases d2 with d2 | d2
      · simp only [d2]
        exact hpos _ a2
      · exact a3 _ d2
    · exact d4 _ a2
  · exact le_antisymm (d6 _ a4) (a5 _ d5)

theorem ExecuteStep_frame {P : Type} (p : Pipeline P) (name : String) (elapsed : Nat)
    (fn : Pipeline P → Pipeline P × Outcome (Payload P)) (h : Transparent fn) :
    (ExecuteStep p name elapsed fn).Results =
      { p.Results with
        Steps := setStep name
          (recorded name elapsed (fn (p.Log "INFO" ("Executing step: " ++ name))).2)
          p.Results.Steps } :=
  congrArg View.Results (view_ExecuteStep p name elapsed fn h)

theorem recorded_Name {P : Type} (name : String) (elapsed : Nat) (o : Outcome (Payload P)) :
    (recorded name elapsed o).Name = name := by
  cases o <;> rfl

theorem recorded_Success {P : Type} (name : String) (elapsed : Nat) (o : Outcome (Payload P)) :
    (recorded name elapsed o).Success = Outcome.isReturned o := by
  cases o <;> rfl

theorem runSteps_frame {P : Type} (elapsed : String → Nat) (calls : List (StepCall P))
    (h : ∀ c ∈ calls, Transparent c.fn) :
    ∀ p : Pipeline P,
      (runSteps elapsed calls p).Results.EndTime = p.Results.EndTime ∧
      (runSteps elapsed calls p).Results.TotalDuration = p.Results.TotalDuration ∧
      (runSteps elapsed calls p).Results.Success = p.Results.Success := by
  induction calls with
  | nil => intro p; exact ⟨rfl, rfl, rfl⟩
  | cons c rest ih =>
    intro p
    obtain ⟨i1, i2, i3⟩ := ih (fun d hd => h d (List.mem_cons_of_mem _ hd))
      (ExecuteStep p c.name (elapsed c.name) c.fn)
    have hc := ExecuteStep_frame p c.name (elapsed c.name) c.fn (h c (List.mem_cons_self _ _))
    simp only [runSteps]
    rw [i1, i2, i3, hc]
    exact ⟨rfl, rfl, rfl⟩

theorem mem_setStep {P : Type} (name : String) (s : Step P) (m : List (String × Step P)) :
    ∀ e ∈ setStep name s m, e.2 = s ∨ e ∈ m := by
  induction m with
  | nil =>
    intro e he
    simp only [setStep, List.mem_singleton] at he
    exact Or.inl (by rw [he])
  | cons kv rest ih =>
    obtain ⟨k, v⟩ := kv
    intro e he
    by_cases hk : k = name
    · simp only [setStep, hk, if_true, List.mem_cons] at he
      rcases he with he | he
      · exact Or.inl (by rw [he])
      · exact Or.inr (List.mem_cons_of_mem _ he)
    · simp only [setStep, hk, if_false, List.mem_cons] at he
      rcases he with he | he
      · exact Or.inr (by rw [he]; exact List.mem_cons_self _ _)
      · rcases ih e he with h1 | h1
        · exact Or.inl h1
        · exact Or.inr (List.mem_cons_of_mem _ h1)

/-- When no operation faults, every step of the map is successful after the calls. -/
theorem runSteps_faultless {P : Type} (elapsed : String → Nat) (calls : List (StepCall P))
    (h : ∀ c ∈ calls, Transparent c.fn) :
    ∀ p : Pipeline P, faultless elapsed calls p = true →
      (∀ e ∈ p.Results.Steps, e.2.Success = true) →
      ∀ e ∈ (runSteps elapsed calls p).Results.Steps, e.2.Success = true := by
  induction calls with
  | nil => intro p _ hp; exact hp
  | cons c rest ih =>
    intro p hf hp
    simp only [faultless, Bool.and_eq_true] at hf
    apply ih (fun d hd => h d (List.mem_cons_of_mem _ hd)) _ hf.2
    intro e he
    rw [ExecuteStep_frame p c.name (elapsed c.name) c.fn (h c (List.mem_cons_self _ _))] at he
    rcases mem_setStep _ _ _ e he with h1 | h1
    · rw [h1, recorded_Success]
      exact hf.1
    · exact hp e h1

theorem foldl_withKey (names : List String) :
    ∀ keys : List String, keys.Nodup →
      (names.foldl withKey keys).Nodup ∧
      ∀ k, k ∈ names.foldl withKey keys ↔ k ∈ keys ∨ k ∈ names := by
  induction names with
  | nil => intro keys hk; simp [hk]
  | cons n rest ih =>
    intro keys hk
    have hn : (withKey keys n).Nodup ∧ ∀ k, k ∈ withKey keys n ↔ k ∈ keys ∨ k = n := by
      unfold withKey
      by_cases hm : n ∈ keys
      · simp only [hm, if_true]
        refine ⟨hk, fun k => ⟨Or.inl, fun hh => hh.elim id (fun e => e ▸ hm)⟩⟩
      · simp only [hm, if_false]
        refine ⟨?_, fun k => by simp⟩
        rw [List.nodup_append]
        exact ⟨hk, List.nodup_singleton _, by
          intro a ha hb
          rw [List.mem_singleton] at hb
          exact hm (hb ▸ ha)⟩
    obtain ⟨i1, i2⟩ := ih (withKey keys n) hn.1
    refine ⟨i1, fun k => ?_⟩
    simp only [List.foldl_cons, i2, hn.2, List.mem_cons]
    tauto

theorem foldl_withKey_length (names : List String) :
    (names.foldl withKey []).length = names.dedup.length := by
  obtain ⟨h1, h2⟩ := foldl_withKey names [] List.nodup_nil
  apply List.Perm.length_eq
  rw [List.perm_ext_iff_of_nodup h1 (List.nodup_dedup _)]
  intro k
  rw [h2, List.mem_dedup]
  simp

theorem getStep_mem {P : Type} (name : String) (s : Step P) (m : List (String × Step P))
    (h : getStep name m = some s) : (name, s) ∈ m := by
  induction m with
  | nil => simp [getStep] at h
  | cons kv rest ih =>
    obtain ⟨k, v⟩ := kv
    by_cases hk : k = name
    · simp only [getStep, hk, if_true, Option.some.injEq] at h
      rw [hk, h]
      exact List.mem_cons_self _ _
    · simp only [getStep, hk, if_false] at h
      exact List.mem_cons_of_mem _ (ih h)

theorem finalize_duration {P : Type} (p : Pipeline P) (now : Nat) (layout : Nat → String) :
    (finalize p now layout).1.Results.TotalDuration =
      (((now : Int) - (p.Results.StartTime : Int) : Int) : ℚ) / 1000000000 := by
  unfold finalize
  cases h : allSucceeded p.Results.Steps <;> simp [h]

theorem Itinerary.Run_eq (p : Itinerary.Pipeline) (x : Itinerary.Externals)
    (w : Itinerary.World) :
    Itinerary.Run p x w =
      finalize (runSteps w.elapsed (Itinerary.steps x w) (Itinerary.opened p)) w.now w.layout :=
  rfl

theorem Web.web_Run_eq (p : Web.Pipeline) (x : Web.Externals) (w : Web.World) :
    Web.Run p x w =
      finalize (runSteps w.elapsed (Web.steps x w) (Web.opened p)) w.now w.layout :=
  rfl

/-- A run in which no step operation faults, from a pipeline whose step map holds no failed
step, ends with overall success and exit code 0. -/
theorem Itinerary.Run_faultless (p : Itinerary.Pipeline) (x : Itinerary.Externals)
    (w : Itinerary.World) (hp : ∀ e ∈ p.Results.Steps, e.2.Success = true)
    (h : faultless w.elapsed (Itinerary.steps x w) (Itinerary.opened p) = true) :
    (Itinerary.Run p x w).1.Results.Success = true ∧ (Itinerary.Run p x w).2 = 0 := by
  have hall := runSteps_faultless w.elapsed (Itinerary.steps x w)
    (Itinerary.steps_transparent x w) (Itinerary.opened p) h hp
  obtain ⟨_, h2, _, _, h5⟩ := finalize_results
    (runSteps w.elapsed (Itinerary.steps x w) (Itinerary.opened p)) w.now w.layout
  rw [Itinerary.Run_eq, h2, h5, (allSucceeded_iff _).mpr hall]
  exact ⟨rfl, rfl⟩

theorem Web.web_Run_faultless (p : Web.Pipeline) (x : Web.Externals) (w : Web.World)
    (hp : ∀ e ∈ p.Results.Steps, e.2.Success = true)
    (h : faultless w.elapsed (Web.steps x w) (Web.opened p) = true) :
    (Web.Run p x w).1.Results.Success = true ∧ (Web.Run p x w).2 = 0 := by
  have hall := runSteps_faultless w.elapsed (Web.steps x w)
    (Web.web_steps_transparent x w) (Web.opened p) h hp
  obtain ⟨_, h2, _, _, h5⟩ := finalize_results
    (runSteps w.elapsed (Web.steps x w) (Web.opened p)) w.now w.layout
  rw [Web.web_Run_eq, h2, h5, (allSucceeded_iff _).mpr hall]
  exact ⟨rfl, rfl⟩

/-- The result fields that the report shows, on the pipeline on which `Run` calls
`GenerateHTMLReport`: they are those of the pipeline that `Run` was called on. -/
theorem Itinerary.atReport_results (p : Itinerary.Pipeline) (x : Itinerary.Externals)
    (w : Itinerary.World) :
    (Itinerary.atReport p x w).Results.Success = p.Results.Success ∧
    (Itinerary.atReport p x w).Results.EndTime = p.Results.EndTime ∧
    (Itinerary.atReport p x w).Results.TotalDuration = p.Results.TotalDuration := by
  obtain ⟨h1, h2, h3⟩ := runSteps_frame w.elapsed ((Itinerary.steps x w).take 10)
    (fun c hc => Itinerary.steps_transparent x w c (List.mem_of_mem_take hc))
    ((p.Log "INFO" "Starting MusafirGO Itinerary Service Pipeline...").Log "INFO"
      ("Base URL: " ++ p.BaseURL))
  exact ⟨h3, h1, h2⟩

theorem Web.web_atReport_results (p : Web.Pipeline) (x : Web.Externals) (w : Web.World) :
    (Web.atReport p x w).Results.Success = p.Results.Success ∧
    (Web.atReport p x w).Results.EndTime = p.Results.EndTime ∧
    (Web.atReport p x w).Results.TotalDuration = p.Results.TotalDuration := by
  obtain ⟨h1, h2, h3⟩ := runSteps_frame w.elapsed ((Web.steps x w).take 6)
    (fun c hc => Web.web_steps_transparent x w c (List.mem_of_mem_take hc))
    (((p.Log "INFO" "Starting MusafirGO Web Service Pipeline...").Log "INFO"
      ("Base URL: " ++ p.BaseURL)).Log "INFO" ("Project Path: " ++ Web.ProjectPath))
  exact ⟨h3, h1, h2⟩

theorem Itinerary.quiet_faultless :
    faultless Itinerary.quietWorld.elapsed
      (Itinerary.steps Itinerary.noExternals Itinerary.quietWorld)
      (Itinerary.opened Itinerary.freshPipeline) = true := by
  decide

theorem strings.Split_length (s : String) (sep : Char) :
    (strings.Split s sep).length = s.data.count sep + 1 := by
  unfold strings.Split
  rw [List.length_map]
  have key : ∀ l : List Char, (l.splitOn sep).length = l.count sep + 1 := by
    intro l
    induction l with
    | nil => simp [List.splitOn, List.splitOnP_nil]
    | cons c rest ih =>
      unfold List.splitOn at ih ⊢
      rw [List.splitOnP_cons]
      by_cases hc : c = sep
      · subst hc
        simp [ih]
      · have hne : (c == sep) = false := by simpa using hc
        simp only [hne, Bool.false_eq_true, if_false]
        rw [List.count_cons_of_ne (fun hh => hc hh.symm)]
        rw [← ih]
        cases hs : List.splitOnP (fun x => x == sep) rest with
        | nil => exact absurd hs (List.splitOnP_ne_nil _ _)
        | cons a b => simp [List.modifyHead]
  exact key s.data

theorem Itinerary.InitializeDatabase_verdict (p : Itinerary.Pipeline)
    (run : Command → CmdOutcome) (started output : String) (hskip : p.SkipInit = false)
    (hup : run ⟨["docker-compose", "up", "-d"], ""⟩ = CmdOutcome.ok started)
    (hps : run ⟨["docker-compose", "ps", "--services", "--filter", "status=running"], ""⟩ =
      CmdOutcome.ok output) :
    (Itinerary.InitializeDatabase p run).2 =
      decide (3 ≤ (strings.Split (strings.TrimSpace output) '\n').length) := by
  unfold Itinerary.InitializeDatabase
  simp only [hskip, Bool.false_eq_true, if_false, hup, hps, ge_iff_le]
  by_cases h : 3 ≤ (strings.Split (strings.TrimSpace output) '\n').length <;> simp [h]

theorem Web.web_StartMockServices_verdict (p : Web.Pipeline) (w : Web.MockWorld)
    (started output : String) (hdir : w.chdir = none)
    (hup : w.run ⟨["docker-compose", "-f", "docker-compose.dev.yml", "up", "-d"],
      Web.ProjectPath⟩ = CmdOutcome.ok started)
    (hps : w.run ⟨["docker-compose", "-f", "docker-compose.dev.yml", "ps", "--services",
      "--filter", "status=running"], Web.ProjectPath⟩ = CmdOutcome.ok output) :
    (Web.StartMockServices p w).2 =
      decide (2 ≤ (strings.Split (strings.TrimSpace output) '\n').length) := by
  unfold Web.StartMockServices
  simp only [hdir, hup, hps, ge_iff_le]
  by_cases h : 2 ≤ (strings.Split (strings.TrimSpace output) '\n').length <;> simp [h]

theorem commands_Log {P : Type} (p : Pipeline P) (level message : String) :
    commands (p.Log level message).Trace = commands p.Trace := by
  simp [commands, Pipeline.Log, List.filterMap_append]

theorem commands_send {P : Type} (p : Pipeline P) (r : Request) :
    commands (p.send r).Trace = commands p.Trace := by
  simp [commands, Pipeline.send, List.filterMap_append]

theorem commands_exec {P : Type} (p : Pipeline P) (cmd : Command) :
    commands (p.exec cmd).Trace = commands p.Trace ++ [cmd] := by
  simp [commands, Pipeline.exec, List.filterMap_append]

theorem requests_exec {P : Type} (p : Pipeline P) (cmd : Command) :
    requests (p.exec cmd).Trace = requests p.Trace := by
  simp [requests, Pipeline.exec, List.filterMap_append]

/-- The loop when no poll from round `i` to the last round answers with status 200: it sends
one request per round and returns `false` from the function. -/
theorem Itinerary.pollLoop_none (poll : Nat → HttpOutcome) (maxRetries : Nat) :
    ∀ (fuel i : Nat) (p : Itinerary.Pipeline), i + fuel + 1 = maxRetries →
      (∀ j, j ≤ fuel → poll (i + j) ≠ HttpOutcome.response 200) →
      (Itinerary.pollLoop poll maxRetries (fuel + 1) i p).2 = false ∧
      requests (Itinerary.pollLoop poll maxRetries (fuel + 1) i p).1.Trace =
        requests p.Trace ++ List.replicate (fuel + 1) (Itinerary.healthPoll p.BaseURL) ∧
      commands (Itinerary.pollLoop poll maxRetries (fuel + 1) i p).1.Trace =
        commands p.Trace := by
  intro fuel
  induction fuel with
  | zero =>
    intro i p hi hpoll
    have h0 : poll i ≠ HttpOutcome.response 200 := by simpa using hpoll 0 (le_refl _)
    have hl : i = maxRetries - 1 := by omega
    rw [Itinerary.pollLoop]
    simp only [h0, if_false]
    rw [if_pos hl]
    refine ⟨rfl, ?_, ?_⟩
    · rw [requests_Log, requests_send]
      rfl
    · rw [commands_Log, commands_send]
  | succ fuel ih =>
    intro i p hi hpoll
    have h0 : poll i ≠ HttpOutcome.response 200 := by simpa using hpoll 0 (Nat.zero_le _)
    have hl : ¬ i = maxRetries - 1 := by omega
    have hrest : ∀ j, j ≤ fuel → poll (i + 1 + j) ≠ HttpOutcome.response 200 := by
      intro j hj
      have := hpoll (j + 1) (by omega)
      rwa [show i + (j + 1) = i + 1 + j by omega] at this
    obtain ⟨i1, i2, i3⟩ := ih (i + 1)
      ((p.send ⟨"GET", p.BaseURL ++ "/actuator/health", RequestBody.empty⟩).Log "INFO"
        ("Waiting for service... (" ++ fmt.d (i + 1) ++ "/" ++ fmt.d maxRetries ++ ")"))
      (by omega) hrest
    rw [Itinerary.pollLoop]
    simp only [h0, if_false, hl]
    refine ⟨i1, ?_, ?_⟩
    · rw [i2, requests_Log, requests_send, List.append_assoc]
      rfl
    · rw [i3, commands_Log, commands_send]

/-- The loop when the poll of round `i + k` is the first from round `i` on that answers with
status 200, before the last round is over: it sends `k + 1` requests and goes on to the load
command. -/
theorem Itinerary.pollLoop_first (poll : Nat → HttpOutcome) (maxRetries : Nat) :
    ∀ (k fuel i : Nat) (p : Itinerary.Pipeline), k < fuel → i + k < maxRetries →
      poll (i + k) = HttpOutcome.response 200 →
      (∀ j, j < k → poll (i + j) ≠ HttpOutcome.response 200) →
      (Itinerary.pollLoop poll maxRetries fuel i p).2 = true ∧
      requests (Itinerary.pollLoop poll maxRetries fuel i p).1.Trace =
        requests p.Trace ++ List.replicate (k + 1) (Itinerary.healthPoll p.BaseURL) ∧
      commands (Itinerary.pollLoop poll maxRetries fuel i p).1.Trace = commands p.Trace := by
  intro k
  induction k with
  | zero =>
    intro fuel i p hf hi hk _
    obtain ⟨f, rfl⟩ : ∃ f, fuel = f + 1 := ⟨fuel - 1, by omega⟩
    have h0 : poll i = HttpOutcome.response 200 := by simpa using hk
    simp only [Itinerary.pollLoop, h0, if_true]
    refine ⟨by trivial, ?_, ?_⟩
    · rw [requests_Log, requests_send]
      rfl
    · rw [commands_Log, commands_send]
  | succ k ih =>
    intro fuel i p hf hi hk hbefore
    obtain ⟨f, rfl⟩ : ∃ f, fuel = f + 1 := ⟨fuel - 1, by omega⟩
    have h0 : poll i ≠ HttpOutcome.response 200 := by simpa using hbefore 0 (Nat.succ_pos _)
    have hl : ¬ i = maxRetries - 1 := by omega
    have hrest : ∀ j, j < k → poll (i + 1 + j) ≠ HttpOutcome.response 200 := by
      intro j hj
      have := hbefore (j + 1) (by omega)
      rwa [show i + (j + 1) = i + 1 + j by omega] at this
    obtain ⟨i1, i2, i3⟩ := ih f (i + 1)
      ((p.send ⟨"GET", p.BaseURL ++ "/actuator/health", RequestBody.empty⟩).Log "INFO"
        ("Waiting for service... (" ++ fmt.d (i + 1) ++ "/" ++ fmt.d maxRetries ++ ")"))
      (by omega) (by omega) (by rwa [show i + 1 + k = i + (k + 1) by omega]) hrest
    rw [Itinerary.pollLoop]
    simp only [h0, if_false, hl]
    refine ⟨i1, ?_, ?_⟩
    · rw [i2, requests_Log, requests_send, List.append_assoc]
      rfl
    · rw [i3, commands_Log, commands_send]

/-- What `LoadTestData` does when no poll of the thirty answers with status 200. -/
theorem Itinerary.LoadTestData_never (p : Itinerary.Pipeline) (w : Itinerary.LoadWorld)
    (hskip : p.SkipDataLoad = false)
    (h : ∀ i, i < 30 → w.poll i ≠ HttpOutcome.response 200) :
    (Itinerary.LoadTestData p w).2 = false ∧
    requests (Itinerary.LoadTestData p w).1.Trace =
      requests p.Trace ++ List.replicate 30 (Itinerary.healthPoll p.BaseURL) ∧
    commands (Itinerary.LoadTestData p w).1.Trace = commands p.Trace := by
  obtain ⟨i1, i2, i3⟩ := Itinerary.pollLoop_none w.poll 30 29 0
    (p.Log "INFO" "Loading test data...") rfl
    (fun j hj => by rw [Nat.zero_add]; exact h j (by omega))
  unfold Itinerary.LoadTestData
  simp only [hskip, Bool.false_eq_true, if_false]
  generalize hres : Itinerary.pollLoop w.poll 30 30 0 (p.Log "INFO" "Loading test data...") = res
    at i1 i2 i3
  obtain ⟨q, b⟩ := res
  simp only at i1 i2 i3
  subst i1
  simp only []
  rw [requests_Log, Pipeline.Log_BaseURL] at i2
  rw [commands_Log] at i3
  exact ⟨by trivial, i2, i3⟩

/-- What `LoadTestData` does when the poll number `k` is the first that answers with status
200. -/
theorem Itinerary.LoadTestData_first (p : Itinerary.Pipeline) (w : Itinerary.LoadWorld)
    (hskip : p.SkipDataLoad = false) (k : Nat) (hk : k < 30)
    (h200 : w.poll k = HttpOutcome.response 200)
    (h : ∀ i, i < k → w.poll i ≠ HttpOutcome.response 200) :
    (Itinerary.LoadTestData p w).2 = true ∧
    requests (Itinerary.LoadTestData p w).1.Trace =
      requests p.Trace ++ List.replicate (k + 1) (Itinerary.healthPoll p.BaseURL) ∧
    commands (Itinerary.LoadTestData p w).1.Trace =
      commands p.Trace ++ [Itinerary.loadCommand] := by
  obtain ⟨i1, i2, i3⟩ := Itinerary.pollLoop_first w.poll 30 k 30 0
    (p.Log "INFO" "Loading test data...") hk (by omega) (by rwa [Nat.zero_add])
    (fun j hj => by rw [Nat.zero_add]; exact h j hj)
  unfold Itinerary.LoadTestData
  simp only [hskip, Bool.false_eq_true, if_false]
  generalize hres : Itinerary.pollLoop w.poll 30 30 0 (p.Log "INFO" "Loading test data...") = res
    at i1 i2 i3
  obtain ⟨q, b⟩ := res
  simp only at i1 i2 i3
  subst i1
  simp only []
  rw [requests_Log] at i2
  rw [commands_Log] at i3
  refine ⟨by trivial, ?_, ?_⟩
  · cases w.run Itinerary.loadCommand <;>
      simp only [requests_Log, requests_exec, i2, Pipeline.Log_BaseURL]
  · cases w.run Itinerary.loadCommand <;>
      simp only [commands_Log, commands_exec, i3]

/-! # Main results -/

/-- C1: in both pipeline variants, whatever the HTTP outcomes of the rows (a status code or a
transport error) and whatever the outcome of opening and encoding the test image, every
summary that `APITests` returns has `Passed + Failed = Total`; this covers the skip path and
the four early `continue` exits of the upload branch.  The itinerary `APITests` returns a
summary whenever every direct `http.NewRequest` succeeds and the exchange of the upload row
(row 14) does not end in an error; the web `APITests` always returns one. -/
theorem C1_passed_plus_failed_eq_total (p : Itinerary.Pipeline) (w : Nat → Itinerary.CaseWorld)
    (q : Web.Pipeline) (v : Nat → Web.CaseWorld) :
    (∀ r, (Itinerary.APITests p w).2 = Outcome.returned r → r.Passed + r.Failed = r.Total) ∧
    ((∀ i, (w i).newRequest = none) → (∀ err, (w 14).http ≠ HttpOutcome.failed err) →
      ∃ r, (Itinerary.APITests p w).2 = Outcome.returned r) ∧
    (∃ r, (Web.APITests q v).2 = Outcome.returned r ∧ r.Passed + r.Failed = r.Total) := by
  refine ⟨?_, Itinerary.APITests_returns p w, ?_⟩
  · intro r hr
    rcases Itinerary.APITests_returned p w r hr with ⟨_, rfl⟩ | ⟨_, _, h, _⟩
    · rfl
    · exact h
  · obtain ⟨r, hr, h⟩ := Web.web_APITests_returned q v
    refine ⟨r, hr, ?_⟩
    rcases h with ⟨_, rfl⟩ | ⟨_, _, h, _⟩
    · rfl
    · exact h

/-- C1 at a run in which every row is answered with status 200: a summary is returned and it
is balanced. -/
theorem C1_passed_plus_failed_eq_total_witness :
    ∃ r, (Itinerary.APITests Itinerary.freshPipeline Itinerary.allOK).2 = Outcome.returned r ∧
      r.Passed + r.Failed = r.Total :=
  let c := C1_passed_plus_failed_eq_total Itinerary.freshPipeline Itinerary.allOK
    Web.freshPipeline Web.allOK
  (c.2.1 (fun _ => rfl) (fun _ h => by simp [Itinerary.allOK] at h)).elim
    (fun r hr => ⟨r, hr, c.1 r hr⟩)

/-- C2, refuted as stated: in the run with `--skip-tests` the summary has `Total = 0` and
`SuccessRate = 100`, which is not `Passed / Total * 100` (both variants). -/
theorem C2_skip_tests_counterexample :
    (∃ r, (Itinerary.APITests Itinerary.skippingPipeline Itinerary.allOK).2 = Outcome.returned r ∧
      r.Total = 0 ∧ r.SuccessRate = 100 ∧
      r.SuccessRate ≠ (r.Passed : ℚ) / (r.Total : ℚ) * 100) ∧
    (∃ r, (Web.APITests Web.skippingPipeline Web.allOK).2 = Outcome.returned r ∧
      r.Total = 0 ∧ r.SuccessRate = 100 ∧
      r.SuccessRate ≠ (r.Passed : ℚ) / (r.Total : ℚ) * 100) := by
  constructor
  · exact ⟨skipped, rfl, rfl, rfl, by norm_num [skipped]⟩
  · exact ⟨skipped, rfl, rfl, rfl, by norm_num [skipped]⟩

/-- C2 as amended: when the tests are not skipped, every summary that `APITests` returns has
`Total > 0` and `SuccessRate = Passed / Total * 100` in exact rational arithmetic; when they
are skipped, the summary is the constant one, with `Total = 0` and `SuccessRate = 100` (both
variants; the web `APITests` always returns). -/
theorem C2_success_rate (p : Itinerary.Pipeline) (w : Nat → Itinerary.CaseWorld)
    (q : Web.Pipeline) (v : Nat → Web.CaseWorld) :
    (p.SkipTests = false → ∀ r, (Itinerary.APITests p w).2 = Outcome.returned r →
      0 < r.Total ∧ r.SuccessRate = (r.Passed : ℚ) / (r.Total : ℚ) * 100) ∧
    (p.SkipTests = true →
      (Itinerary.APITests p w).2 = Outcome.returned
        { Total := 0, Passed := 0, Failed := 0, SuccessRate := 100, Details := [] }) ∧
    (q.SkipTests = false → ∃ r, (Web.APITests q v).2 = Outcome.returned r ∧
      0 < r.Total ∧ r.SuccessRate = (r.Passed : ℚ) / (r.Total : ℚ) * 100) ∧
    (q.SkipTests = true →
      (Web.APITests q v).2 = Outcome.returned
        { Total := 0, Passed := 0, Failed := 0, SuccessRate := 100, Details := [] }) := by
  refine ⟨?_, ?_, ?_, ?_⟩
  · intro hs r hr
    rcases Itinerary.APITests_returned p w r hr with ⟨h, _⟩ | ⟨_, ht, _, h, _⟩
    · rw [hs] at h; exact absurd h (by simp)
    · exact ⟨by rw [ht]; decide, h⟩
  · intro hs
    rw [Itinerary.APITests_skip p w hs]; rfl
  · intro hs
    obtain ⟨r, hr, h⟩ := Web.web_APITests_returned q v
    rcases h with ⟨h, _⟩ | ⟨_, ht, _, h, _⟩
    · rw [hs] at h; exact absurd h (by simp)
    · exact ⟨r, hr, by rw [ht]; decide, h⟩
  · intro hs
    rw [Web.web_APITests_skip q v hs]; rfl

/-- C2 as amended, at a run that is not skipped and in which every row is answered with
status 200. -/
theorem C2_success_rate_witness :
    ∃ r, (Itinerary.APITests Itinerary.freshPipeline Itinerary.allOK).2 = Outcome.returned r ∧
      0 < r.Total ∧ r.SuccessRate = (r.Passed : ℚ) / (r.Total : ℚ) * 100 :=
  (Itinerary.APITests_returns Itinerary.freshPipeline Itinerary.allOK (fun _ => rfl)
    (fun _ h => by simp [Itinerary.allOK] at h)).elim
    (fun r hr => ⟨r, hr, (C2_success_rate Itinerary.freshPipeline Itinerary.allOK
      Web.freshPipeline Web.allOK).1 rfl r hr⟩)

/-- C3: when `Run` finalises (both variants), `Results.Success` is true exactly when every
step stored in `Results.Steps` has `Success = true`, whatever the order in which the map is
enumerated, and the exit code is 0 exactly when `Results.Success` is true and 1 exactly when
it is false. -/
theorem C3_overall_success_and_exit_code (p : Itinerary.Pipeline) (x : Itinerary.Externals)
    (w : Itinerary.World) (q : Web.Pipeline) (y : Web.Externals) (v : Web.World) :
    (((Itinerary.Run p x w).1.Results.Success = true ↔
        ∀ e ∈ (Itinerary.Run p x w).1.Results.Steps, e.2.Success = true) ∧
      (∀ m, m.Perm (Itinerary.Run p x w).1.Results.Steps →
        allSucceeded m = (Itinerary.Run p x w).1.Results.Success) ∧
      ((Itinerary.Run p x w).2 = 0 ↔ (Itinerary.Run p x w).1.Results.Success = true) ∧
      ((Itinerary.Run p x w).2 = 1 ↔ (Itinerary.Run p x w).1.Results.Success = false)) ∧
    (((Web.Run q y v).1.Results.Success = true ↔
        ∀ e ∈ (Web.Run q y v).1.Results.Steps, e.2.Success = true) ∧
      (∀ m, m.Perm (Web.Run q y v).1.Results.Steps →
        allSucceeded m = (Web.Run q y v).1.Results.Success) ∧
      ((Web.Run q y v).2 = 0 ↔ (Web.Run q y v).1.Results.Success = true) ∧
      ((Web.Run q y v).2 = 1 ↔ (Web.Run q y v).1.Results.Success = false)) :=
  ⟨finalize_verdict _ _ _, finalize_verdict _ _ _⟩

/-- C3 at a run in which the upload of the test image is refused: the exit code is 1 exactly
when the overall success is false. -/
theorem C3_overall_success_and_exit_code_witness :
    ((Itinerary.Run Itinerary.freshPipeline Itinerary.noExternals Itinerary.refusingWorld).2 = 1 ↔
      (Itinerary.Run Itinerary.freshPipeline Itinerary.noExternals
        Itinerary.refusingWorld).1.Results.Success = false) :=
  (C3_overall_success_and_exit_code Itinerary.freshPipeline Itinerary.noExternals
    Itinerary.refusingWorld Web.freshPipeline Web.noExternals Web.quietWorld).1.2.2.2

/-- C4: for every step name and every operation that panics, `ExecuteStep` (a total function:
it returns and the fault goes no further) stores under that name a step with
`Success = false`, `Error` equal to `Panic: ` followed by the description of the fault, and a
nil `Result` (the harness is the same text in both variants). -/
theorem C4_fault_becomes_failed_step {P : Type} (p : Pipeline P) (name : String)
    (elapsed : Nat) (fn : Pipeline P → Pipeline P × Outcome (Payload P)) (description : String)
    (h : (fn (p.Log "INFO" ("Executing step: " ++ name))).2 = Outcome.faulted description) :
    getStep name (ExecuteStep p name elapsed fn).Results.Steps =
      some { Name := name, Success := false, Duration := (elapsed : ℚ) / 1000000000,
             Error := "Panic: " ++ description, Result := none } := by
  rw [ExecuteStep_steps, getStep_setStep_self, h]

/-- C4 at the step `InitializeDatabase` with an operation that uses a nil pointer. -/
theorem C4_fault_becomes_failed_step_witness :
    getStep "InitializeDatabase"
      (ExecuteStep Itinerary.freshPipeline "InitializeDatabase" 1500000000
        (fun p => (p, Outcome.faulted nilDereference))).Results.Steps =
      some { Name := "InitializeDatabase", Success := false,
             Duration := ((1500000000 : Nat) : ℚ) / 1000000000,
             Error := "Panic: " ++ nilDereference, Result := none } :=
  C4_fault_becomes_failed_step Itinerary.freshPipeline "InitializeDatabase" 1500000000
    (fun p => (p, Outcome.faulted nilDereference)) nilDereference rfl

/-- C5: the step that `ExecuteStep` records, whether its operation returned or panicked,
satisfies exactly one of: `Success = true` and `Error = ""`, or `Success = false` and `Error`
is not empty. -/
theorem C5_success_xor_error {P : Type} (p : Pipeline P) (name : String) (elapsed : Nat)
    (fn : Pipeline P → Pipeline P × Outcome (Payload P)) :
    ∃ s, getStep name (ExecuteStep p name elapsed fn).Results.Steps = some s ∧
      ((s.Success = true ∧ s.Error = "") ∨ (s.Success = false ∧ s.Error ≠ "")) ∧
      ¬ ((s.Success = true ∧ s.Error = "") ∧ (s.Success = false ∧ s.Error ≠ "")) := by
  rw [ExecuteStep_steps, getStep_setStep_self]
  refine ⟨_, rfl, ?_, ?_⟩
  · cases (fn (p.Log "INFO" ("Executing step: " ++ name))).2 with
    | returned value => exact Or.inl ⟨rfl, rfl⟩
    | faulted r => exact Or.inr ⟨rfl, panic_text_ne_empty r⟩
  · rintro ⟨⟨h1, _⟩, h2, _⟩
    rw [h1] at h2
    exact absurd h2 (by simp)

/-- C5 at the step `InitializeDatabase` with an operation that uses a nil pointer. -/
theorem C5_success_xor_error_witness :
    ∃ s, getStep "InitializeDatabase"
        (ExecuteStep Itinerary.freshPipeline "InitializeDatabase" 1500000000
          (fun p => (p, Outcome.faulted nilDereference))).Results.Steps = some s ∧
      ((s.Success = true ∧ s.Error = "") ∨ (s.Success = false ∧ s.Error ≠ "")) ∧
      ¬ ((s.Success = true ∧ s.Error = "") ∧ (s.Success = false ∧ s.Error ≠ "")) :=
  C5_success_xor_error Itinerary.freshPipeline "InitializeDatabase" 1500000000
    (fun p => (p, Outcome.faulted nilDereference))

/-- C6: whatever the step operations do (each returns any value or panics), `Run` on a
pipeline made by `NewPipeline` announces and executes every step of its fixed list exactly
once and in the fixed order, and afterwards the step map holds exactly those names: the
twelve of the itinerary variant, the seven of the web variant. -/
theorem C6_every_step_once_in_order (baseURL : String) (skipInit skipDataLoad skipTests : Bool)
    (clientError : Option String) (now : Nat)
    (x : Itinerary.Externals) (w : Itinerary.World) (y : Web.Externals) (v : Web.World) :
    (announced (Itinerary.Run
        (Itinerary.NewPipeline baseURL skipInit skipDataLoad skipTests clientError now)
        x w).1.Trace =
        ["CheckPrerequisites", "BuildApplicationImage", "InitializeDatabase", "LoadTestData",
         "HealthChecks", "APITests", "PerformanceTests", "ReloadTestData",
         "DisplayDetailedResults", "CleanupOldReports", "GenerateHTMLReport",
         "OpenReportInChrome"] ∧
      (Itinerary.Run
        (Itinerary.NewPipeline baseURL skipInit skipDataLoad skipTests clientError now)
        x w).1.Results.Steps.map Prod.fst =
        ["CheckPrerequisites", "BuildApplicationImage", "InitializeDatabase", "LoadTestData",
         "HealthChecks", "APITests", "PerformanceTests", "ReloadTestData",
         "DisplayDetailedResults", "CleanupOldReports", "GenerateHTMLReport",
         "OpenReportInChrome"] ∧
      (Itinerary.Run
        (Itinerary.NewPipeline baseURL skipInit skipDataLoad skipTests clientError now)
        x w).1.Results.Steps.length = 12) ∧
    (announced (Web.Run
        (Web.NewWebPipeline baseURL skipInit skipDataLoad skipTests clientError now)
        y v).1.Trace =
        ["CheckPrerequisites", "BuildAngularApplication", "StartMockServices", "HealthChecks",
         "APITests", "PerformanceTests", "GenerateHTMLReport"] ∧
      (Web.Run
        (Web.NewWebPipeline baseURL skipInit skipDataLoad skipTests clientError now)
        y v).1.Results.Steps.map Prod.fst =
        ["CheckPrerequisites", "BuildAngularApplication", "StartMockServices", "HealthChecks",
         "APITests", "PerformanceTests", "GenerateHTMLReport"] ∧
      (Web.Run
        (Web.NewWebPipeline baseURL skipInit skipDataLoad skipTests clientError now)
        y v).1.Results.Steps.length = 7) := by
  obtain ⟨f1, _, f3, _⟩ := newPipeline_fresh (P := Itinerary.PerformanceResult)
    baseURL skipInit skipDataLoad skipTests clientError now
  obtain ⟨g1, _, g3, _⟩ := newPipeline_fresh (P := Web.PerformanceResult)
    baseURL skipInit skipDataLoad skipTests clientError now
  obtain ⟨a1, a2⟩ := Itinerary.Run_steps
    (Itinerary.NewPipeline baseURL skipInit skipDataLoad skipTests clientError now) x w
  obtain ⟨b1, b2⟩ := Web.web_Run_steps
    (Web.NewWebPipeline baseURL skipInit skipDataLoad skipTests clientError now) y v
  simp only [Itinerary.NewPipeline, f1, f3, List.nil_append, List.map_nil] at a1 a2
  simp only [Web.NewWebPipeline, g1, g3, List.nil_append, List.map_nil] at b1 b2
  have ka : Itinerary.stepNames.foldl withKey [] = Itinerary.stepNames := by decide
  have kb : Web.stepNames.foldl withKey [] = Web.stepNames := by decide
  rw [ka] at a2
  rw [kb] at b2
  refine ⟨⟨a1, a2, ?_⟩, ⟨b1, b2, ?_⟩⟩
  · have := congrArg List.length a2
    simpa [Itinerary.stepNames] using this
  · have := congrArg List.length b2
    simpa [Web.stepNames] using this

/-- C6 at a run of the itinerary pipeline in which `APITests` and `PerformanceTests` panic
(the upload of the test image is refused, the creation response carries no identifier): the
step map has twelve entries all the same. -/
theorem C6_every_step_once_in_order_witness :
    (Itinerary.Run (Itinerary.NewPipeline "http://localhost:8080" false false false none 0)
      Itinerary.noExternals Itinerary.refusingWorld).1.Results.Steps.length = 12 :=
  (C6_every_step_once_in_order "http://localhost:8080" false false false none 0
    Itinerary.noExternals Itinerary.refusingWorld Web.noExternals Web.quietWorld).1.2.2

/-- C7: for every assignment of the sampled latency fields, each the sentinel `-1` or a
non-negative number, with at least one that is not the sentinel, the statistics block of
`PerformanceTests` sets `AverageTime` to the arithmetic mean, `MaxTime` to the greatest and
`MinTime` to the least of exactly the samples that are not the sentinel, and
`SuccessfulTests` to their number, and leaves the samples as they are (both variants, exact
arithmetic). -/
theorem C7_latency_aggregation (r : Itinerary.PerformanceResult) (s : Web.PerformanceResult) :
    ((∀ x ∈ Itinerary.samples r, x = -1 ∨ 0 ≤ x) → (∃ x ∈ Itinerary.samples r, x ≠ -1) →
      StatisticsOf (nonSentinel (Itinerary.samples r))
        (Itinerary.aggregate r).AverageTime (Itinerary.aggregate r).MaxTime
        (Itinerary.aggregate r).MinTime (Itinerary.aggregate r).SuccessfulTests ∧
      Itinerary.samples (Itinerary.aggregate r) = Itinerary.samples r) ∧
    ((∀ x ∈ Web.samples s, x = -1 ∨ 0 ≤ x) → (∃ x ∈ Web.samples s, x ≠ -1) →
      StatisticsOf (nonSentinel (Web.samples s))
        (Web.aggregate s).AverageTime (Web.aggregate s).MaxTime
        (Web.aggregate s).MinTime (Web.aggregate s).SuccessfulTests ∧
      Web.samples (Web.aggregate s) = Web.samples s) := by
  constructor
  · intro h1 h2
    obtain ⟨k1, _, k3⟩ := Itinerary.aggregate_spec r
    rw [filter_nonneg_eq_nonSentinel _ h1] at k3
    exact ⟨k3 (nonSentinel_ne_nil _ h2), k1⟩
  · intro h1 h2
    obtain ⟨k1, _, k3⟩ := Web.web_aggregate_spec s
    rw [filter_nonneg_eq_nonSentinel _ h1] at k3
    exact ⟨k3 (nonSentinel_ne_nil _ h2), k1⟩

/-- C7 at sample sets with one sentinel each. -/
theorem C7_latency_aggregation_witness :
    StatisticsOf (nonSentinel (Itinerary.samples Itinerary.oneSentinel))
      (Itinerary.aggregate Itinerary.oneSentinel).AverageTime
      (Itinerary.aggregate Itinerary.oneSentinel).MaxTime
      (Itinerary.aggregate Itinerary.oneSentinel).MinTime
      (Itinerary.aggregate Itinerary.oneSentinel).SuccessfulTests ∧
    StatisticsOf (nonSentinel (Web.samples Web.oneSentinel))
      (Web.aggregate Web.oneSentinel).AverageTime (Web.aggregate Web.oneSentinel).MaxTime
      (Web.aggregate Web.oneSentinel).MinTime (Web.aggregate Web.oneSentinel).SuccessfulTests :=
  ⟨((C7_latency_aggregation Itinerary.oneSentinel Web.oneSentinel).1
      (by simp [Itinerary.samples, Itinerary.oneSentinel])
      ⟨12, by simp [Itinerary.samples, Itinerary.oneSentinel], by norm_num⟩).1,
   ((C7_latency_aggregation Itinerary.oneSentinel Web.oneSentinel).2
      (by simp [Web.samples, Web.oneSentinel])
      ⟨12, by simp [Web.samples, Web.oneSentinel], by norm_num⟩).1⟩

/-- C8, the failing input: row 14 of the itinerary table is the upload of the test image; the
image is read, the request is created and the exchange ends in a transport error.  The body
then uses the nil response: `APITests` panics instead of counting a failure, and returns no
summary. -/
theorem C8_upload_transport_error_faults :
    Itinerary.endpoints[14]? =
      some ⟨"POST", "/api/v1/itineraries/40a4a646-9ede-4660-9f0d-bd1d2190a845/media",
        "Upload test image", "", 201, "Media"⟩ ∧
    Itinerary.uploadRefused 14 =
      ⟨Itinerary.ImageOutcome.ready, none, HttpOutcome.failed "connection refused", "1ms"⟩ ∧
    (Itinerary.APITests Itinerary.freshPipeline Itinerary.uploadRefused).2 =
      Outcome.faulted "runtime error: invalid memory address or nil pointer dereference" := by
  refine ⟨by decide, rfl, by decide⟩

/-- C9: in every summary that `APITests` returns, `Details` has exactly `Total` lines; when the
tests are not skipped there is one line per row of the table, in the order of the table, and
line `i` starts with the method of row `i`, a blank and the path requested for that row (the
declared path after substitution in the itinerary variant, the declared path in the web
variant), whatever the outcome of the row; every request that the body sends for a row goes
to the base URL followed by that path. -/
theorem C9_one_line_per_case (p : Itinerary.Pipeline) (w : Nat → Itinerary.CaseWorld)
    (q : Web.Pipeline) (v : Nat → Web.CaseWorld) :
    (∀ r, (Itinerary.APITests p w).2 = Outcome.returned r →
      r.Details.length = r.Total ∧
      (p.SkipTests = false → r.Details.length = Itinerary.endpoints.length ∧
        ∀ (i : Nat) (e : Endpoint), Itinerary.endpoints[i]? = some e → ∃ rest : String,
          r.Details[i]? = some (e.Method ++ " " ++ Itinerary.substitute e.URL ++ rest))) ∧
    (∀ (cw : Itinerary.CaseWorld) (e : Endpoint) (st : ApiState Itinerary.PerformanceResult)
        (req : Request), Event.http req ∈ (Itinerary.apiCase cw e st).1.p.Trace →
      Event.http req ∈ st.p.Trace ∨ req.URL = st.p.BaseURL ++ Itinerary.substitute e.URL) ∧
    (∃ r, (Web.APITests q v).2 = Outcome.returned r ∧
      r.Details.length = r.Total ∧
      (q.SkipTests = false → r.Details.length = Web.endpoints.length ∧
        ∀ (i : Nat) (e : Endpoint), Web.endpoints[i]? = some e → ∃ rest : String,
          r.Details[i]? = some (e.Method ++ " " ++ e.URL ++ rest))) ∧
    (∀ (cw : Web.CaseWorld) (e : Endpoint) (st : ApiState Web.PerformanceResult)
        (req : Request), Event.http req ∈ (Web.apiCase cw e st).1.p.Trace →
      Event.http req ∈ st.p.Trace ∨ req.URL = st.p.BaseURL ++ e.URL) := by
  refine ⟨?_, Itinerary.apiCase_requests, ?_, Web.web_apiCase_requests⟩
  · intro r hr
    rcases Itinerary.APITests_returned p w r hr with ⟨hs, rfl⟩ | ⟨_, ht, _, _, h⟩
    · exact ⟨rfl, fun hf => by rw [hs] at hf; exact absurd hf (by simp)⟩
    · exact ⟨by rw [h.line_at.1, ht], fun _ => h.line_at⟩
  · obtain ⟨r, hr, h⟩ := Web.web_APITests_returned q v
    refine ⟨r, hr, ?_⟩
    rcases h with ⟨hs, rfl⟩ | ⟨_, ht, _, _, h⟩
    · exact ⟨rfl, fun hf => by rw [hs] at hf; exact absurd hf (by simp)⟩
    · exact ⟨by rw [h.line_at.1, ht], fun _ => h.line_at⟩

/-- C9 at a run in which every row is answered with status 200: a summary is returned, with
one line per row. -/
theorem C9_one_line_per_case_witness :
    ∃ r, (Itinerary.APITests Itinerary.freshPipeline Itinerary.allOK).2 = Outcome.returned r ∧
      r.Details.length = r.Total ∧ r.Details.length = Itinerary.endpoints.length :=
  (Itinerary.APITests_returns Itinerary.freshPipeline Itinerary.allOK (fun _ => rfl)
    (fun _ h => by simp [Itinerary.allOK] at h)).elim
    (fun r hr =>
      let c := (C9_one_line_per_case Itinerary.freshPipeline Itinerary.allOK
        Web.freshPipeline Web.allOK).1 r hr
      ⟨r, hr, c.1, (c.2 rfl).1⟩)

/-- C10: when `SkipTests` is set, `APITests` only writes the log line of the skip path (it
sends no request) and returns the summary with `Total = 0`, `Passed = 0`, `Failed = 0`,
`SuccessRate = 100` and no details; the data that `Run` hands to the report template are
those built on the pipeline on which `GenerateHTMLReport` is called, and the API summary in
them, read through `getAPIResults`, is exactly that summary (both variants). -/
theorem C10_skip_tests_summary (p : Itinerary.Pipeline) (w : Nat → Itinerary.CaseWorld)
    (x : Itinerary.Externals) (W : Itinerary.World)
    (q : Web.Pipeline) (v : Nat → Web.CaseWorld) (y : Web.Externals) (V : Web.World) :
    (p.SkipTests = true →
      Itinerary.APITests p w =
        (p.Log "INFO" "Skipping API tests...",
          Outcome.returned
            { Total := 0, Passed := 0, Failed := 0, SuccessRate := 100, Details := [] }) ∧
      requests (Itinerary.APITests p w).1.Trace = requests p.Trace ∧
      (Itinerary.getAPIResults (Itinerary.atReport p x W)).2 =
        { Total := 0, Passed := 0, Failed := 0, SuccessRate := 100, Details := [] } ∧
      rendered (Itinerary.Run p x W).1.Trace =
        rendered p.Trace ++
          (if W.report.parse = none then [Itinerary.reportData (Itinerary.atReport p x W)]
           else []) ∧
      (Itinerary.reportData (Itinerary.atReport p x W)).APIResults =
        { Total := 0, Passed := 0, Failed := 0, SuccessRate := 100, Details := [] }) ∧
    (q.SkipTests = true →
      Web.APITests q v =
        (q.Log "INFO" "Skipping API tests...",
          Outcome.returned
            { Total := 0, Passed := 0, Failed := 0, SuccessRate := 100, Details := [] }) ∧
      requests (Web.APITests q v).1.Trace = requests q.Trace ∧
      Web.getAPIResults (Web.atReport q y V) =
        { Total := 0, Passed := 0, Failed := 0, SuccessRate := 100, Details := [] } ∧
      rendered (Web.Run q y V).1.Trace =
        rendered q.Trace ++
          (if V.report.parse = none then [Web.reportData (Web.atReport q y V)] else []) ∧
      (Web.reportData (Web.atReport q y V)).APIResults =
        { Total := 0, Passed := 0, Failed := 0, SuccessRate := 100, Details := [] }) := by
  constructor
  · intro h
    have hget : (Itinerary.getAPIResults (Itinerary.atReport p x W)).2 = skipped := by
      unfold Itinerary.getAPIResults
      rw [Itinerary.atReport_skipped p x W h]
      rfl
    refine ⟨Itinerary.APITests_skip p w h, ?_, hget, Itinerary.rendered_Run p x W, hget⟩
    rw [Itinerary.APITests_skip p w h]
    simp [requests, List.filterMap_append]
  · intro h
    have hget : Web.getAPIResults (Web.atReport q y V) = skipped := by
      unfold Web.getAPIResults
      rw [Web.web_atReport_skipped q y V h]
      rfl
    refine ⟨Web.web_APITests_skip q v h, ?_, hget, Web.web_rendered_Run q y V, hget⟩
    rw [Web.web_APITests_skip q v h]
    simp [requests, List.filterMap_append]

/-- C10 at the pipelines that `main` creates for `--skip-tests`. -/
theorem C10_skip_tests_summary_witness :
    (Itinerary.reportData (Itinerary.atReport Itinerary.skippingPipeline Itinerary.noExternals
        Itinerary.quietWorld)).APIResults =
      { Total := 0, Passed := 0, Failed := 0, SuccessRate := 100, Details := [] } ∧
    (Web.reportData (Web.atReport Web.skippingPipeline Web.noExternals
        Web.quietWorld)).APIResults =
      { Total := 0, Passed := 0, Failed := 0, SuccessRate := 100, Details := [] } :=
  ⟨((C10_skip_tests_summary Itinerary.skippingPipeline Itinerary.allOK Itinerary.noExternals
      Itinerary.quietWorld Web.skippingPipeline Web.allOK Web.noExternals
      Web.quietWorld).1 rfl).2.2.2.2,
   ((C10_skip_tests_summary Itinerary.skippingPipeline Itinerary.allOK Itinerary.noExternals
      Itinerary.quietWorld Web.skippingPipeline Web.allOK Web.noExternals
      Web.quietWorld).2 rfl).2.2.2.2⟩

/-- C11: in the itinerary pipeline, with `SkipInit` set `InitializeDatabase` only writes the
log line of its skip path (it starts no command) and returns `true`; with `SkipDataLoad` set
`LoadTestData`, and so the closure of the step `ReloadTestData` after its own log line, only
writes the log line of its skip path (no poll of the health endpoint, no command) and returns
`true`; with `SkipTests` set `APITests` sends no request; and `Run` calls each of its steps
with the flags of the pipeline it was called on. -/
theorem C11_skip_flags_disable_phases (p : Itinerary.Pipeline) (run : Command → CmdOutcome)
    (lw : Itinerary.LoadWorld) (cw : Nat → Itinerary.CaseWorld) (x : Itinerary.Externals)
    (w : Itinerary.World) :
    (p.SkipInit = true →
      Itinerary.InitializeDatabase p run =
        (p.Log "INFO" "Skipping database initialization...", true) ∧
      commands (Itinerary.InitializeDatabase p run).1.Trace = commands p.Trace) ∧
    (p.SkipDataLoad = true →
      Itinerary.LoadTestData p lw = (p.Log "INFO" "Skipping test data loading...", true) ∧
      requests (Itinerary.LoadTestData p lw).1.Trace = requests p.Trace ∧
      commands (Itinerary.LoadTestData p lw).1.Trace = commands p.Trace ∧
      Itinerary.ReloadTestData p lw =
        ((p.Log "INFO" "Reloading test data after destructive tests...").Log "INFO"
          "Skipping test data loading...", true) ∧
      requests (Itinerary.ReloadTestData p lw).1.Trace = requests p.Trace ∧
      commands (Itinerary.ReloadTestData p lw).1.Trace = commands p.Trace) ∧
    (p.SkipTests = true →
      requests (Itinerary.APITests p cw).1.Trace = requests p.Trace) ∧
    (∀ k, flags (Itinerary.atStep k p x w) = flags p) := by
  refine ⟨?_, ?_, ?_, fun k => Itinerary.flags_atStep k p x w⟩
  · intro h
    have e : Itinerary.InitializeDatabase p run =
        (p.Log "INFO" "Skipping database initialization...", true) := by
      simp only [Itinerary.InitializeDatabase, h, if_true]
    rw [e]
    exact ⟨rfl, by simp [commands, Pipeline.Log, List.filterMap_append]⟩
  · intro h
    have e : Itinerary.LoadTestData p lw =
        (p.Log "INFO" "Skipping test data loading...", true) := by
      simp only [Itinerary.LoadTestData, h, if_true]
    have e2 : Itinerary.ReloadTestData p lw =
        ((p.Log "INFO" "Reloading test data after destructive tests...").Log "INFO"
          "Skipping test data loading...", true) := by
      have h2 : (p.Log "INFO" "Reloading test data after destructive tests...").SkipDataLoad
          = true := h
      simp only [Itinerary.ReloadTestData, Itinerary.LoadTestData, h2, if_true]
    rw [e, e2]
    refine ⟨rfl, ?_, ?_, rfl, ?_, ?_⟩ <;>
      simp [requests, commands, Pipeline.Log, List.filterMap_append]
  · intro h
    rw [Itinerary.APITests_skip p cw h]
    simp [requests, Pipeline.Log, List.filterMap_append]

/-- C11 at the pipeline that `main` creates when the three flags are given. -/
theorem C11_skip_flags_disable_phases_witness :
    commands (Itinerary.InitializeDatabase Itinerary.idlePipeline allRun).1.Trace = [] ∧
    requests (Itinerary.ReloadTestData Itinerary.idlePipeline
      ⟨fun _ => HttpOutcome.response 200, allRun⟩).1.Trace = [] ∧
    requests (Itinerary.APITests Itinerary.idlePipeline Itinerary.allOK).1.Trace = [] :=
  let c := C11_skip_flags_disable_phases Itinerary.idlePipeline allRun
    ⟨fun _ => HttpOutcome.response 200, allRun⟩ Itinerary.allOK Itinerary.noExternals
    Itinerary.quietWorld
  ⟨(c.1 rfl).2, (c.2.1 rfl).2.2.2.2.1, c.2.2.1 rfl⟩

/-- C12, the failing input: the web pipeline that `main` creates for the arguments
`pipeline http://localhost:3000 --skip-init` has `SkipInit` set, and `StartMockServices` on
it, on a host where the directory change and the commands succeed, still starts
`docker-compose -f docker-compose.dev.yml up -d` and the readiness check, and returns `true`.
No flag changes what `StartMockServices` starts or returns, and every run announces the step.
With `SkipTests` set `APITests` sends no request. -/
theorem C12_web_skip_init_is_ignored :
    arguments "http://localhost:3000" ["pipeline", "http://localhost:3000", "--skip-init"] =
      ("http://localhost:3000", true, false, false) ∧
    Web.skipInitPipeline.SkipInit = true ∧
    commands (Web.StartMockServices Web.skipInitPipeline Web.mockReady).1.Trace =
      [⟨["docker-compose", "-f", "docker-compose.dev.yml", "up", "-d"], Web.ProjectPath⟩,
       ⟨["docker-compose", "-f", "docker-compose.dev.yml", "ps", "--services", "--filter",
          "status=running"], Web.ProjectPath⟩] ∧
    (Web.StartMockServices Web.skipInitPipeline Web.mockReady).2 = true ∧
    (∀ (p : Web.Pipeline) (b : Bool) (w : Web.MockWorld),
      (Web.StartMockServices { p with SkipInit := b } w).2 = (Web.StartMockServices p w).2 ∧
      commands (Web.StartMockServices { p with SkipInit := b } w).1.Trace =
        commands (Web.StartMockServices p w).1.Trace) ∧
    (∀ (x : Web.Externals) (w : Web.World),
      "StartMockServices" ∈ announced (Web.Run Web.skipInitPipeline x w).1.Trace) ∧
    (∀ (p : Web.Pipeline) (cw : Nat → Web.CaseWorld), p.SkipTests = true →
      requests (Web.APITests p cw).1.Trace = requests p.Trace) := by
  refine ⟨by decide, rfl, by decide, by decide, Web.StartMockServices_ignores_SkipInit, ?_, ?_⟩
  · intro x w
    rw [(Web.web_Run_steps _ x w).1]
    simp [Web.stepNames]
  · intro p cw h
    rw [Web.web_APITests_skip p cw h]
    simp [requests, Pipeline.Log, List.filterMap_append]

/-- C13: for every argument vector `Args`, `main` runs the pipeline created with these
arguments: the base URL is `Args[1]` when the vector has more than one element and the default
of the variant otherwise (`http://localhost:8080` for the itinerary pipeline,
`http://localhost:3000` for the web pipeline), and each of the three skip flags is true
exactly when its token occurs somewhere in the vector.  For the arguments
`pipeline --skip-tests` the base URL is the text `--skip-tests` and `skipTests` is true. -/
theorem C13_main_arguments (Args : List String) (clientError : Option String) (now : Nat)
    (x : Itinerary.Externals) (w : Itinerary.World) (y : Web.Externals) (v : Web.World) :
    Itinerary.main Args clientError now x w =
      Itinerary.Run
        (Itinerary.NewPipeline (Args.getD 1 "http://localhost:8080")
          (decide ("--skip-init" ∈ Args)) (decide ("--skip-data-load" ∈ Args))
          (decide ("--skip-tests" ∈ Args)) clientError now) x w ∧
    Web.main Args clientError now y v =
      Web.Run
        (Web.NewWebPipeline (Args.getD 1 "http://localhost:3000")
          (decide ("--skip-init" ∈ Args)) (decide ("--skip-data-load" ∈ Args))
          (decide ("--skip-tests" ∈ Args)) clientError now) y v ∧
    (∀ defaultURL : String, ∀ h : 1 < Args.length,
      (arguments defaultURL Args).1 = Args[1]) ∧
    (∀ defaultURL : String, Args.length ≤ 1 → (arguments defaultURL Args).1 = defaultURL) ∧
    arguments "http://localhost:8080" ["pipeline", "--skip-tests"] =
      ("--skip-tests", false, false, true) ∧
    arguments "http://localhost:3000" ["pipeline", "--skip-tests"] =
      ("--skip-tests", false, false, true) := by
  refine ⟨?_, ?_, ?_, ?_, by decide, by decide⟩
  · simp only [Itinerary.main, arguments_spec]
  · simp only [Web.main, arguments_spec]
  · intro d h
    rw [arguments_spec]
    simp only [List.getD_eq_getElem?_getD, List.getElem?_eq_getElem h, Option.getD_some]
  · intro d h
    rw [arguments_spec]
    simp only [List.getD_eq_getElem?_getD]
    rw [List.getElem?_eq_none (by omega)]
    rfl

/-- C14: on a host where `range` enumerates the map `prerequisites` in some order of its
entries, `CheckPrerequisites` returns `true` exactly when the container engine is reachable
(the client exists, and the first ping succeeds or `StartDockerService` returns `true`) and
every version command succeeds: `docker-compose --version` and `go version` in the itinerary
variant, `docker-compose --version`, `node --version` and `ng version` in the web variant.
Without a Docker client it returns `false`, and the result is the same for every order of
enumeration. -/
theorem C14_prerequisites_verdict (p : Itinerary.Pipeline) (q : Web.Pipeline) (w : HostWorld)
    (horder : ∀ m, (w.order m).Perm m) :
    ((Itinerary.CheckPrerequisites p w).2 = true ↔
      engineReachable p w "Checking prerequisites..." ∧
      (w.run ⟨["docker-compose", "--version"], ""⟩).succeeded = true ∧
      (w.run ⟨["go", "version"], ""⟩).succeeded = true) ∧
    ((Web.CheckPrerequisites q w).2 = true ↔
      engineReachable q w "Checking prerequisites for Angular project..." ∧
      (w.run ⟨["docker-compose", "--version"], ""⟩).succeeded = true ∧
      (w.run ⟨["node", "--version"], ""⟩).succeeded = true ∧
      (w.run ⟨["ng", "version"], ""⟩).succeeded = true) ∧
    (p.DockerClient = false → (Itinerary.CheckPrerequisites p w).2 = false) ∧
    (q.DockerClient = false → (Web.CheckPrerequisites q w).2 = false) ∧
    (∀ order : List (String × Bool) → List (String × Bool), (∀ m, (order m).Perm m) →
      (Itinerary.CheckPrerequisites p { w with order := order }).2 =
        (Itinerary.CheckPrerequisites p w).2 ∧
      (Web.CheckPrerequisites q { w with order := order }).2 =
        (Web.CheckPrerequisites q w).2) := by
  have hi := Itinerary.CheckPrerequisites_verdict p w horder
  have hw := Web.web_CheckPrerequisites_verdict q w horder
  refine ⟨hi, hw, ?_, ?_, ?_⟩
  · intro hc
    cases hr : (Itinerary.CheckPrerequisites p w).2
    · rfl
    · have := (hi.mp hr).1.1
      rw [hc] at this
      exact absurd this (by simp)
  · intro hc
    cases hr : (Web.CheckPrerequisites q w).2
    · rfl
    · have := (hw.mp hr).1.1
      rw [hc] at this
      exact absurd this (by simp)
  · intro order ho
    have hi2 := Itinerary.CheckPrerequisites_verdict p { w with order := order } ho
    have hw2 := Web.web_CheckPrerequisites_verdict q { w with order := order } ho
    constructor
    · exact Bool.eq_iff_iff.mpr (hi2.trans hi.symm)
    · exact Bool.eq_iff_iff.mpr (hw2.trans hw.symm)

/-- C14 on a host where the engine is started by `StartDockerService`, every tool is found
and the map is enumerated backwards: both variants return `true`. -/
theorem C14_prerequisites_verdict_witness :
    (Itinerary.CheckPrerequisites Itinerary.freshPipeline startingHost).2 = true ∧
    (Web.CheckPrerequisites Web.freshPipeline startingHost).2 = true :=
  let c := C14_prerequisites_verdict Itinerary.freshPipeline Web.freshPipeline startingHost
    (fun m => List.reverse_perm m)
  ⟨c.1.mpr ⟨⟨rfl, Or.inr (by decide)⟩, rfl, rfl⟩,
   c.2.1.mpr ⟨⟨rfl, Or.inr (by decide)⟩, rfl, rfl, rfl⟩⟩

/-- C15, refuted for the web variant: in the run of the web pipeline in which every request
is answered with status 200 and the report is rendered, the steps are the seven of the fixed
list, none of them a cleanup, and the report
`MusafirGO_Web_Pipeline_Report_20250101_120000.html` is written. -/
theorem C15_web_has_no_cleanup_counterexample :
    announced (Web.Run Web.freshPipeline Web.noExternals Web.quietWorld).1.Trace =
      ["CheckPrerequisites", "BuildAngularApplication", "StartMockServices", "HealthChecks",
       "APITests", "PerformanceTests", "GenerateHTMLReport"] ∧
    "CleanupOldReports" ∉
      announced (Web.Run Web.freshPipeline Web.noExternals Web.quietWorld).1.Trace ∧
    written (Web.Run Web.freshPipeline Web.noExternals Web.quietWorld).1.Trace =
      ["MusafirGO_Web_Pipeline_Report_20250101_120000.html"] := by
  have h1 := (Web.web_Run_steps Web.freshPipeline Web.noExternals Web.quietWorld).1
  have h2 := Web.web_footprint_Run Web.freshPipeline Web.noExternals Web.quietWorld
  have h3 : announced Web.freshPipeline.Trace = [] := rfl
  rw [h3, List.nil_append] at h1
  simp only [footprint, Prod.mk.injEq] at h2
  refine ⟨h1, ?_, ?_⟩
  · rw [h1]; decide
  · rw [h2.2.2]; decide

/-- C15 as amended: every run of the itinerary pipeline on a pipeline made by `NewPipeline`
announces the step `CleanupOldReports` before the step `GenerateHTMLReport`; the only file
that the run writes is the report `MusafirGO_Pipeline_Report_<timestamp>.html`, whose name
matches the first pattern of `CleanupOldReports`, so that a later cleanup of a directory of
removable regular files leaves no file of that name.  Every run of the web pipeline announces
its seven steps, none of which is a cleanup, and writes
`MusafirGO_Web_Pipeline_Report_<timestamp>.html`. -/
theorem C15_cleanup_before_report (baseURL : String) (skipInit skipDataLoad skipTests : Bool)
    (clientError : Option String) (now : Nat)
    (x : Itinerary.Externals) (w : Itinerary.World) (y : Web.Externals) (v : Web.World)
    (htime : '/' ∉ w.report.timestamp.data) :
    (announced (Itinerary.Run
        (Itinerary.NewPipeline baseURL skipInit skipDataLoad skipTests clientError now)
        x w).1.Trace =
        ["CheckPrerequisites", "BuildApplicationImage", "InitializeDatabase", "LoadTestData",
         "HealthChecks", "APITests", "PerformanceTests", "ReloadTestData",
         "DisplayDetailedResults"] ++
          "CleanupOldReports" :: "GenerateHTMLReport" :: ["OpenReportInChrome"] ∧
      written (Itinerary.Run
        (Itinerary.NewPipeline baseURL skipInit skipDataLoad skipTests clientError now)
        x w).1.Trace = reportFiles w.report "MusafirGO_Pipeline_Report_" ∧
      (∀ name ∈ reportFiles w.report "MusafirGO_Pipeline_Report_",
        filepath.Match "MusafirGO_Pipeline_Report_*.html" name = true ∧
        "MusafirGO_Pipeline_Report_*.html" ∈ Itinerary.patterns ∧
        ∀ (p : Itinerary.Pipeline) (dir : Directory),
          (∀ e ∈ dir, e.isDir = false ∧ e.removeError = none) →
          ∀ e ∈ (Itinerary.CleanupOldReports p dir).2.1, e.name ≠ name)) ∧
    (announced (Web.Run
        (Web.NewWebPipeline baseURL skipInit skipDataLoad skipTests clientError now)
        y v).1.Trace =
        ["CheckPrerequisites", "BuildAngularApplication", "StartMockServices", "HealthChecks",
         "APITests", "PerformanceTests", "GenerateHTMLReport"] ∧
      "CleanupOldReports" ∉ announced (Web.Run
        (Web.NewWebPipeline baseURL skipInit skipDataLoad skipTests clientError now)
        y v).1.Trace ∧
      written (Web.Run
        (Web.NewWebPipeline baseURL skipInit skipDataLoad skipTests clientError now)
        y v).1.Trace = reportFiles v.report "MusafirGO_Web_Pipeline_Report_") := by
  obtain ⟨f1, _, _, _⟩ := newPipeline_fresh (P := Itinerary.PerformanceResult)
    baseURL skipInit skipDataLoad skipTests clientError now
  obtain ⟨g1, _, _, _⟩ := newPipeline_fresh (P := Web.PerformanceResult)
    baseURL skipInit skipDataLoad skipTests clientError now
  have a1 := (Itinerary.Run_steps
    (Itinerary.NewPipeline baseURL skipInit skipDataLoad skipTests clientError now) x w).1
  have b1 := (Web.web_Run_steps
    (Web.NewWebPipeline baseURL skipInit skipDataLoad skipTests clientError now) y v).1
  have a2 := Itinerary.footprint_Run
    (Itinerary.NewPipeline baseURL skipInit skipDataLoad skipTests clientError now) x w
  have b2 := Web.web_footprint_Run
    (Web.NewWebPipeline baseURL skipInit skipDataLoad skipTests clientError now) y v
  have a3 := newPipeline_footprint (P := Itinerary.PerformanceResult)
    baseURL skipInit skipDataLoad skipTests clientError now
  have b3 := newPipeline_footprint (P := Web.PerformanceResult)
    baseURL skipInit skipDataLoad skipTests clientError now
  simp only [Itinerary.NewPipeline, f1, List.nil_append] at a1
  simp only [Web.NewWebPipeline, g1, List.nil_append] at b1
  simp only [footprint, Prod.mk.injEq, Itinerary.NewPipeline] at a2 a3
  simp only [footprint, Prod.mk.injEq, Web.NewWebPipeline] at b2 b3
  refine ⟨⟨a1, ?_, ?_⟩, ⟨b1, ?_, ?_⟩⟩
  · simp only [Itinerary.NewPipeline]
    rw [a2.2.2, a3.2.2, List.nil_append]
  · intro name hn
    have hold := Itinerary.report_isOldReport w.report htime name hn
    refine ⟨?_, by decide, ?_⟩
    · unfold reportFiles at hn
      split_ifs at hn
      · simp only [List.mem_singleton] at hn
        subst hn
        exact filepath.Match_stem "MusafirGO_Pipeline_Report_" w.report.timestamp ".html"
          (by decide) (by decide) htime
      · simp at hn
    · intro p dir hdir e he hname
      rw [Itinerary.CleanupOldReports_dir p dir hdir, List.mem_filter] at he
      rw [hname, hold] at he
      simp at he
  · simp only [Web.NewWebPipeline]
    rw [b1]; decide
  · simp only [Web.NewWebPipeline]
    rw [b2.2.2, b3.2.2, List.nil_append]

/-- C15 as amended, at the runs of the two pipelines in which every request is answered with
status 200 and the report is rendered. -/
theorem C15_cleanup_before_report_witness :
    written (Itinerary.Run (Itinerary.NewPipeline "http://localhost:8080" false false false
      none 0) Itinerary.noExternals Itinerary.quietWorld).1.Trace =
      ["MusafirGO_Pipeline_Report_20250101_120000.html"] ∧
    filepath.Match "MusafirGO_Pipeline_Report_*.html"
      "MusafirGO_Pipeline_Report_20250101_120000.html" = true :=
  let c := C15_cleanup_before_report "http://localhost:8080" false false false none 0
    Itinerary.noExternals Itinerary.quietWorld Web.noExternals Web.quietWorld (by decide)
  ⟨c.1.2.1.trans (by decide), (c.1.2.2 _ (by decide)).1⟩

/-- C16: on a working directory whose entries are regular files that can be removed,
`CleanupOldReports` returns `true` and leaves exactly the entries whose name matches none of
`MusafirGO_Pipeline_Report_*.html`, `MusafirGO_Pipeline_Report_*.xlsx` and
`MusafirGO_Pipeline_Report_*.csv`, in their order: no matching file remains and every other
file is untouched.  A second call right after it finds nothing: it leaves the directory as it
is, only writes its first log line and the line that no old report was found, and returns
`true`. -/
theorem C16_cleanup_is_idempotent (p : Itinerary.Pipeline) (dir : Directory)
    (hdir : ∀ e ∈ dir, e.isDir = false ∧ e.removeError = none) :
    (Itinerary.CleanupOldReports p dir).2.2 = true ∧
    (Itinerary.CleanupOldReports p dir).2.1 =
      dir.filter (fun e => !Itinerary.isOldReport e.name) ∧
    (∀ e ∈ (Itinerary.CleanupOldReports p dir).2.1, ∀ pattern ∈ Itinerary.patterns,
      filepath.Match pattern e.name = false) ∧
    (∀ e ∈ dir, (∀ pattern ∈ Itinerary.patterns, filepath.Match pattern e.name = false) →
      e ∈ (Itinerary.CleanupOldReports p dir).2.1) ∧
    Itinerary.CleanupOldReports (Itinerary.CleanupOldReports p dir).1
        (Itinerary.CleanupOldReports p dir).2.1 =
      (((Itinerary.CleanupOldReports p dir).1.Log "INFO"
          "Nettoyage des anciens rapports...").Log "INFO"
          "Aucun ancien rapport trouvé à supprimer",
        (Itinerary.CleanupOldReports p dir).2.1, true) := by
  have hd := Itinerary.CleanupOldReports_dir p dir hdir
  have hclean : ∀ e ∈ (Itinerary.CleanupOldReports p dir).2.1,
      Itinerary.isOldReport e.name = false := by
    intro e he
    rw [hd, List.mem_filter] at he
    simpa using he.2
  refine ⟨rfl, hd, ?_, ?_, Itinerary.CleanupOldReports_nothing _ _ hclean⟩
  · intro e he pattern hp
    have := hclean e he
    simp only [Itinerary.isOldReport, List.any_eq_false] at this
    simpa using this pattern hp
  · intro e he hn
    rw [hd, List.mem_filter]
    refine ⟨he, ?_⟩
    simp only [Itinerary.isOldReport, Bool.not_eq_true', List.any_eq_false]
    intro pattern hp
    simpa using hn pattern hp

/-- C16 on a directory with two old reports, a report of the web pipeline and a source file:
the two old reports are removed and the other two files stay. -/
theorem C16_cleanup_is_idempotent_witness :
    (Itinerary.CleanupOldReports Itinerary.freshPipeline Itinerary.usedDirectory).2.1 =
      [ { name := "MusafirGO_Web_Pipeline_Report_20250101_120000.html" },
        { name := "pipeline.go" } ] :=
  (C16_cleanup_is_idempotent Itinerary.freshPipeline Itinerary.usedDirectory
    (by decide)).2.1.trans (by decide)

/-- C17, refuted: the run of the itinerary pipeline in which every request is answered with
status 200 and the report is rendered announces the twelve steps of the fixed list, none of
them `GenerateExcelReport`, and writes the HTML report and no other file, whereas
`GenerateExcelReport` would write `MusafirGO_Pipeline_Report_20250101_120000.xlsx`. -/
theorem C17_no_spreadsheet_counterexample :
    "GenerateExcelReport" ∉
      announced (Itinerary.Run Itinerary.freshPipeline Itinerary.noExternals
        Itinerary.quietWorld).1.Trace ∧
    written (Itinerary.Run Itinerary.freshPipeline Itinerary.noExternals
      Itinerary.quietWorld).1.Trace = ["MusafirGO_Pipeline_Report_20250101_120000.html"] ∧
    written (Itinerary.GenerateExcelReport Itinerary.freshPipeline
      Itinerary.excelReady).1.Trace = ["MusafirGO_Pipeline_Report_20250101_120000.xlsx"] := by
  have h1 := (Itinerary.Run_steps Itinerary.freshPipeline Itinerary.noExternals
    Itinerary.quietWorld).1
  have h2 := Itinerary.footprint_Run Itinerary.freshPipeline Itinerary.noExternals
    Itinerary.quietWorld
  have h3 : announced Itinerary.freshPipeline.Trace = [] := rfl
  rw [h3, List.nil_append] at h1
  simp only [footprint, Prod.mk.injEq] at h2
  refine ⟨?_, ?_, ?_⟩
  · rw [h1]; decide
  · rw [h2.2.2]; decide
  · rw [Itinerary.written_GenerateExcelReport]; decide

/-- C17 as amended: every run of the itinerary pipeline on a pipeline made by `NewPipeline`
announces exactly the twelve steps of the fixed list, which does not contain
`GenerateExcelReport`, and writes at most one file, the report
`MusafirGO_Pipeline_Report_<timestamp>.html` (written when the template is parsed and
executed).  `GenerateExcelReport`, on whatever pipeline it is called, asks for the file
`MusafirGO_Pipeline_Report_<timestamp>.xlsx`; `Run` does not call it. -/
theorem C17_run_writes_html_only (baseURL : String) (skipInit skipDataLoad skipTests : Bool)
    (clientError : Option String) (now : Nat) (x : Itinerary.Externals) (w : Itinerary.World) :
    announced (Itinerary.Run
      (Itinerary.NewPipeline baseURL skipInit skipDataLoad skipTests clientError now)
      x w).1.Trace = Itinerary.stepNames ∧
    "GenerateExcelReport" ∉ Itinerary.stepNames ∧
    written (Itinerary.Run
      (Itinerary.NewPipeline baseURL skipInit skipDataLoad skipTests clientError now)
      x w).1.Trace =
      (if w.report.parse = none ∧ w.report.execute = none then
        ["MusafirGO_Pipeline_Report_" ++ w.report.timestamp ++ ".html"] else []) ∧
    (∀ (p : Itinerary.Pipeline) (e : Itinerary.ExcelWorld),
      written (Itinerary.GenerateExcelReport p e).1.Trace =
        written p.Trace ++ ["MusafirGO_Pipeline_Report_" ++ e.timestamp ++ ".xlsx"]) := by
  obtain ⟨f1, _, _, _⟩ := newPipeline_fresh (P := Itinerary.PerformanceResult)
    baseURL skipInit skipDataLoad skipTests clientError now
  have a1 := (Itinerary.Run_steps
    (Itinerary.NewPipeline baseURL skipInit skipDataLoad skipTests clientError now) x w).1
  have a2 := Itinerary.footprint_Run
    (Itinerary.NewPipeline baseURL skipInit skipDataLoad skipTests clientError now) x w
  have a3 := newPipeline_footprint (P := Itinerary.PerformanceResult)
    baseURL skipInit skipDataLoad skipTests clientError now
  simp only [Itinerary.NewPipeline, f1, List.nil_append] at a1
  simp only [footprint, Prod.mk.injEq, Itinerary.NewPipeline] at a2 a3
  refine ⟨a1, by decide, ?_, Itinerary.written_GenerateExcelReport⟩
  simp only [Itinerary.NewPipeline]
  rw [a2.2.2, a3.2.2, List.nil_append]
  rfl

/-- C18, the failing input: the table of the itinerary `APITests` has 56 rows, not the 47 of
the comment above it.  Every summary returned when the tests are not skipped has
`Total = 56` and 56 lines, and the run in which every row is answered with status 200 returns
such a summary. -/
theorem C18_table_has_56_rows :
    Itinerary.endpoints.length = 56 ∧
    (∀ (p : Itinerary.Pipeline) (w : Nat → Itinerary.CaseWorld) (r : APITestResult),
      p.SkipTests = false → (Itinerary.APITests p w).2 = Outcome.returned r →
      r.Total = 56 ∧ r.Details.length = 56) ∧
    (∃ r, (Itinerary.APITests Itinerary.freshPipeline Itinerary.allOK).2 = Outcome.returned r ∧
      r.Total = 56 ∧ r.Details.length = 56 ∧ r.Total ≠ 47) := by
  have hlen : Itinerary.endpoints.length = 56 := by decide
  have key : ∀ (p : Itinerary.Pipeline) (w : Nat → Itinerary.CaseWorld) (r : APITestResult),
      p.SkipTests = false → (Itinerary.APITests p w).2 = Outcome.returned r →
      r.Total = 56 ∧ r.Details.length = 56 := by
    intro p w r hs hr
    rcases Itinerary.APITests_returned p w r hr with ⟨h, _⟩ | ⟨_, ht, _, _, hl⟩
    · rw [hs] at h; exact absurd h (by simp)
    · exact ⟨by rw [ht, hlen], by rw [hl.line_at.1, hlen]⟩
  refine ⟨hlen, key, ?_⟩
  obtain ⟨r, hr⟩ := Itinerary.APITests_returns Itinerary.freshPipeline Itinerary.allOK
    (fun _ => rfl) (fun _ h => by simp [Itinerary.allOK] at h)
  obtain ⟨h1, h2⟩ := key _ _ r rfl hr
  exact ⟨r, hr, h1, h2, by rw [h1]; decide⟩

/-- C19, refuted: row 22 of the itinerary table is a `POST` to the media collection path
(`Upload media file`, expected status 201); its requested path is
`/api/v1/itineraries/50b5b757-afef-5771-af1e-ce2e3291b956/media`, and the loop body sends it
with `http.Post` and the JSON body of the row, which is empty: no multipart upload. -/
theorem C19_media_post_sent_as_json_counterexample :
    Itinerary.endpoints[22]? =
      some ⟨"POST", "/api/v1/itineraries/{id}/media", "Upload media file", "", 201, "Media"⟩ ∧
    Itinerary.substitute "/api/v1/itineraries/{id}/media" =
      "/api/v1/itineraries/50b5b757-afef-5771-af1e-ce2e3291b956/media" ∧
    requests (Itinerary.apiCase (Itinerary.allOK 22)
      ⟨"POST", "/api/v1/itineraries/{id}/media", "Upload media file", "", 201, "Media"⟩
      ⟨Itinerary.freshPipeline, { Details := [] }⟩).1.p.Trace =
      [⟨"POST", "http://localhost:8080/api/v1/itineraries/50b5b757-afef-5771-af1e-ce2e3291b956/media",
        RequestBody.json ""⟩] := by
  refine ⟨by decide, by decide, by decide⟩

/-- C19 as amended: a row with method `POST` enters the upload branch exactly when its
requested path contains `/media` and its description contains `Upload test image`; in the
table this is row 14 alone.  For such a row the only request sent is the multipart upload of
the test image, sent when the image is read and encoded and the request is created.  Every
other `POST` row, the rows to the media collection path whose description is another one
included, is sent once, with the JSON body of the row. -/
theorem C19_upload_selected_by_description (cw : Itinerary.CaseWorld) (e : Endpoint)
    (st : ApiState Itinerary.PerformanceResult) (hpost : e.Method = "POST") :
    (Itinerary.takesUploadBranch e =
      (strings.Contains (Itinerary.substitute e.URL) "/media" &&
        strings.Contains e.Desc "Upload test image")) ∧
    (Itinerary.takesUploadBranch e = true →
      requests (Itinerary.apiCase cw e st).1.p.Trace =
        requests st.p.Trace ++
          (if Itinerary.uploadSent cw = true then
            [⟨"POST", st.p.BaseURL ++ Itinerary.substitute e.URL,
              RequestBody.multipartFile "file" "test-image.png"⟩]
           else [])) ∧
    (Itinerary.takesUploadBranch e = false →
      requests (Itinerary.apiCase cw e st).1.p.Trace =
        requests st.p.Trace ++
          [⟨"POST", st.p.BaseURL ++ Itinerary.substitute e.URL, RequestBody.json e.Body⟩]) ∧
    Itinerary.endpoints.map Itinerary.takesUploadBranch =
      List.replicate 14 false ++ [true] ++ List.replicate 41 false := by
  have h := Itinerary.apiCase_post cw e st hpost
  refine ⟨?_, ?_, ?_, Itinerary.upload_rows⟩
  · simp [Itinerary.takesUploadBranch, hpost]
  · intro hu
    rw [h, if_pos hu]
  · intro hu
    rw [h, if_neg (by simp [hu])]

/-- C19 as amended, at row 14 of the table, the upload of the test image, when the image is
read and the request created: one multipart request. -/
theorem C19_upload_selected_by_description_witness :
    requests (Itinerary.apiCase (Itinerary.allOK 14)
      ⟨"POST", "/api/v1/itineraries/40a4a646-9ede-4660-9f0d-bd1d2190a845/media",
        "Upload test image", "", 201, "Media"⟩
      ⟨Itinerary.freshPipeline, { Details := [] }⟩).1.p.Trace =
      [⟨"POST",
        "http://localhost:8080/api/v1/itineraries/40a4a646-9ede-4660-9f0d-bd1d2190a845/media",
        RequestBody.multipartFile "file" "test-image.png"⟩] :=
  ((C19_upload_selected_by_description (Itinerary.allOK 14)
    ⟨"POST", "/api/v1/itineraries/40a4a646-9ede-4660-9f0d-bd1d2190a845/media",
      "Upload test image", "", 201, "Media"⟩
    ⟨Itinerary.freshPipeline, { Details := [] }⟩ rfl).2.1 (by decide)).trans (by decide)

/-- C20, refuted: row 33 of the itinerary table (`Get non-existent media`) declares a path
without placeholder, and the path requested for it is another one: the literal
`123e4567-e89b-12d3-a456-426614174000` is replaced by the predefined media identifier. -/
theorem C20_literal_identifier_replaced_counterexample :
    Itinerary.endpoints[33]? =
      some ⟨"GET",
        "/api/v1/itineraries/00000000-0000-0000-0000-000000000000/media/123e4567-e89b-12d3-a456-426614174000",
        "Get non-existent media", "", 404, "Media"⟩ ∧
    strings.Contains
      "/api/v1/itineraries/00000000-0000-0000-0000-000000000000/media/123e4567-e89b-12d3-a456-426614174000"
      "{id}" = false ∧
    strings.Contains
      "/api/v1/itineraries/00000000-0000-0000-0000-000000000000/media/123e4567-e89b-12d3-a456-426614174000"
      "{mediaId}" = false ∧
    Itinerary.substitute
      "/api/v1/itineraries/00000000-0000-0000-0000-000000000000/media/123e4567-e89b-12d3-a456-426614174000"
      = "/api/v1/itineraries/00000000-0000-0000-0000-000000000000/media/40a4a646-9ede-4660-9f0d-bd1d2190a901" ∧
    Itinerary.substitute
      "/api/v1/itineraries/00000000-0000-0000-0000-000000000000/media/123e4567-e89b-12d3-a456-426614174000"
      ≠ "/api/v1/itineraries/00000000-0000-0000-0000-000000000000/media/123e4567-e89b-12d3-a456-426614174000" := by
  refine ⟨by decide, by decide, by decide, by decide, by decide⟩

/-- C20 as amended: the path requested for a declared path is the declared path after five
replacements, one after the other: every `{id}` by
`50b5b757-afef-5771-af1e-ce2e3291b956`, every `{mediaId}` by
`40a4a646-9ede-4660-9f0d-bd1d2190a901`, then the literals
`83a3b4ca-8d0c-4faf-ab02-caf3287f28cf` and `c0fc6c3d-38fe-4f37-8c6a-4cd4badf65d3` by the
former and `123e4567-e89b-12d3-a456-426614174000` by the latter.  For every row of the table
it contains no placeholder; a declared path with neither placeholder nor one of the three
literals is requested as it is; the rows 33, 34 and 35 are the ones that the literals change;
and whatever the outside answers, every request of the loop body for a row goes to the base
URL followed by that path. -/
theorem C20_requested_path (declared : String) :
    Itinerary.substitute declared =
      strings.ReplaceAll
        (strings.ReplaceAll
          (strings.ReplaceAll
            (strings.ReplaceAll
              (strings.ReplaceAll declared "{id}" "50b5b757-afef-5771-af1e-ce2e3291b956")
              "{mediaId}" "40a4a646-9ede-4660-9f0d-bd1d2190a901")
            "83a3b4ca-8d0c-4faf-ab02-caf3287f28cf" "50b5b757-afef-5771-af1e-ce2e3291b956")
          "c0fc6c3d-38fe-4f37-8c6a-4cd4badf65d3" "50b5b757-afef-5771-af1e-ce2e3291b956")
        "123e4567-e89b-12d3-a456-426614174000" "40a4a646-9ede-4660-9f0d-bd1d2190a901" ∧
    (strings.Contains declared "{id}" = false → strings.Contains declared "{mediaId}" = false →
      strings.Contains declared "83a3b4ca-8d0c-4faf-ab02-caf3287f28cf" = false →
      strings.Contains declared "c0fc6c3d-38fe-4f37-8c6a-4cd4badf65d3" = false →
      strings.Contains declared "123e4567-e89b-12d3-a456-426614174000" = false →
      Itinerary.substitute declared = declared) ∧
    (∀ e ∈ Itinerary.endpoints,
      strings.Contains (Itinerary.substitute e.URL) "{id}" = false ∧
      strings.Contains (Itinerary.substitute e.URL) "{mediaId}" = false) ∧
    Itinerary.endpoints.map
      (fun e => decide (Itinerary.substitute e.URL = Itinerary.placeholdersReplaced e.URL)) =
      List.replicate 33 true ++ [false, false, false] ++ List.replicate 20 true ∧
    (∀ (cw : Itinerary.CaseWorld) (e : Endpoint) (st : ApiState Itinerary.PerformanceResult)
        (req : Request), Event.http req ∈ (Itinerary.apiCase cw e st).1.p.Trace →
      Event.http req ∈ st.p.Trace ∨
        req.URL = st.p.BaseURL ++ Itinerary.substitute e.URL) := by
  refine ⟨Itinerary.substitute_eq declared, ?_, Itinerary.table_no_placeholder,
    Itinerary.table_literal_rows, Itinerary.apiCase_requests⟩
  intro h1 h2 h3 h4 h5
  rw [Itinerary.substitute_eq, Itinerary.placeholdersReplaced,
    strings.ReplaceAll_absent _ _ _ h1, strings.ReplaceAll_absent _ _ _ h2,
    strings.ReplaceAll_absent _ _ _ h3, strings.ReplaceAll_absent _ _ _ h4,
    strings.ReplaceAll_absent _ _ _ h5]

/-- C21, the failing input: every measurement of the itinerary `PerformanceTests` takes 5 ms
and the creation of the throwaway itinerary fails.  The run sends eleven requests, none for
the six operations that need the identifier; their fields keep the zero value, pass the test
`>= 0` of the statistics block and are counted: the result has `SuccessfulTests = 16`,
`MinTime = 0` and `AverageTime = 25/8`, where the ten measurements made have the mean and the
minimum 5.  The same holds whenever the run goes on without identifier: the six fields are 0,
at least six samples are counted and `MinTime` is 0. -/
theorem C21_unmeasured_samples_are_counted :
    (requests (Itinerary.PerformanceTests Itinerary.freshPipeline
      Itinerary.creationRefused).1.Trace).length = 11 ∧
    (∃ r, (Itinerary.PerformanceTests Itinerary.freshPipeline Itinerary.creationRefused).2 =
        Outcome.returned r ∧
      Itinerary.samples r = [5, 5, 5, 5, 5, 5, 5, 5, 5, 5, 0, 0, 0, 0, 0, 0] ∧
      r.SuccessfulTests = 16 ∧ r.MinTime = 0 ∧ r.AverageTime = 25 / 8 ∧ r.MaxTime = 5) ∧
    (∀ (p : Itinerary.Pipeline) (w : Itinerary.PerfWorld),
      Itinerary.createdID w = Outcome.returned "" →
      ∃ r, (Itinerary.PerformanceTests p w).2 = Outcome.returned r ∧
        r.GetItinerary = 0 ∧ r.AddItem = 0 ∧ r.RemoveItem = 0 ∧ r.GetMedia = 0 ∧
        r.CreateMedia = 0 ∧ r.DeleteMedia = 0 ∧ 6 ≤ r.SuccessfulTests ∧ r.MinTime = 0) := by
  refine ⟨by decide, ?_, ?_⟩
  · refine ⟨_, Itinerary.PerformanceTests_snd _ _, ?_⟩
    simp only [Itinerary.createdID, Itinerary.creationRefused, ne_eq, not_true_eq_false,
      if_false]
    norm_num [Itinerary.aggregate, Itinerary.validResults, appendValid, statsLoop,
      Itinerary.measured, latency, Itinerary.samples]
  · intro p w hid
    refine ⟨Itinerary.aggregate (Itinerary.measured w false), ?_, ?_⟩
    · rw [Itinerary.PerformanceTests_snd, hid]
      simp
    · obtain ⟨k1, _, k3⟩ := Itinerary.aggregate_spec (Itinerary.measured w false)
      have hs := congrArg (fun l => l.drop 10) k1
      have hmem : (0 : ℚ) ∈ (Itinerary.samples (Itinerary.measured w false)).filter
          (fun v => decide (0 ≤ v)) := by
        simp [Itinerary.samples, Itinerary.measured]
      have hne : (Itinerary.samples (Itinerary.measured w false)).filter
          (fun v => decide (0 ≤ v)) ≠ [] := List.ne_nil_of_mem hmem
      obtain ⟨_, _, ⟨hmin, hmin2⟩, hcount⟩ := k3 hne
      have h0 : 0 ≤ (Itinerary.aggregate (Itinerary.measured w false)).MinTime := by
        simpa using (List.mem_filter.mp hmin).2
      have hsix : 6 ≤ ((Itinerary.samples (Itinerary.measured w false)).filter
          (fun v => decide (0 ≤ v))).length := by
        have hsub : List.Sublist [(0 : ℚ), 0, 0, 0, 0, 0]
            ((Itinerary.samples (Itinerary.measured w false)).filter
              (fun v => decide (0 ≤ v))) := by
          have h1 : List.Sublist [(0 : ℚ), 0, 0, 0, 0, 0]
              (Itinerary.samples (Itinerary.measured w false)) := by
            have : Itinerary.samples (Itinerary.measured w false) =
                (Itinerary.samples (Itinerary.measured w false)).take 10 ++
                  [(0 : ℚ), 0, 0, 0, 0, 0] := by
              simp [Itinerary.samples, Itinerary.measured]
            rw [this]
            exact List.sublist_append_right _ _
          have h2 := h1.filter (fun v => decide (0 ≤ v))
          simpa using h2
        simpa using hsub.length_le
      simp only [Itinerary.samples, Itinerary.measured, Bool.false_eq_true, if_false,
        List.drop, List.cons.injEq, and_true] at hs
      obtain ⟨a1, a2, a3, a4, a5, a6⟩ := hs
      refine ⟨a1, a2, a3, a4, a5, a6, by rw [hcount]; exact hsix, ?_⟩
      exact le_antisymm (hmin2 0 hmem) h0

/-- C22, the failing input: the run of the itinerary pipeline made by `NewPipeline` in which
every exchange and every step succeeds.  `GenerateHTMLReport` is the eleventh step (the
seventh and last of the web variant) and `Run` sets `EndTime`, `TotalDuration` and `Success`
only after its last step: the data handed to the template has `Success = false`, the zero
end time and the total duration 0, while the finalised result has `Success = true`, the end
time 12000000000 and the duration 12 seconds, and the exit code is 0.  This holds for every
run from a new pipeline, in both variants: whatever the steps do, each rendered report shows
`Success = false`, the zero end time and the duration 0, and the finalised `EndTime` is the
clock read after the last step. -/
theorem C22_report_is_rendered_before_finalisation :
    ((rendered (Itinerary.Run Itinerary.freshPipeline Itinerary.noExternals
        Itinerary.quietWorld).1.Trace).map
        (fun data => (data.Success, data.EndTime, data.TotalDuration)) = [(false, 0, 0)] ∧
      (Itinerary.Run Itinerary.freshPipeline Itinerary.noExternals
        Itinerary.quietWorld).1.Results.Success = true ∧
      (Itinerary.Run Itinerary.freshPipeline Itinerary.noExternals
        Itinerary.quietWorld).1.Results.EndTime = 12000000000 ∧
      (Itinerary.Run Itinerary.freshPipeline Itinerary.noExternals
        Itinerary.quietWorld).1.Results.TotalDuration = 12 ∧
      (Itinerary.Run Itinerary.freshPipeline Itinerary.noExternals
        Itinerary.quietWorld).2 = 0) ∧
    (∀ (baseURL : String) (skipInit skipDataLoad skipTests : Bool)
      (clientError : Option String) (now : Nat) (x : Itinerary.Externals)
      (w : Itinerary.World),
      (∀ data ∈ rendered (Itinerary.Run
          (Itinerary.NewPipeline baseURL skipInit skipDataLoad skipTests clientError now)
          x w).1.Trace,
        data.Success = false ∧ data.EndTime = 0 ∧ data.TotalDuration = 0) ∧
      (Itinerary.Run
        (Itinerary.NewPipeline baseURL skipInit skipDataLoad skipTests clientError now)
        x w).1.Results.EndTime = w.now) ∧
    (∀ (baseURL : String) (skipInit skipDataLoad skipTests : Bool)
      (clientError : Option String) (now : Nat) (y : Web.Externals) (v : Web.World),
      (∀ data ∈ rendered (Web.Run
          (Web.NewWebPipeline baseURL skipInit skipDataLoad skipTests clientError now)
          y v).1.Trace,
        data.Success = false ∧ data.EndTime = 0 ∧ data.TotalDuration = 0) ∧
      (Web.Run
        (Web.NewWebPipeline baseURL skipInit skipDataLoad skipTests clientError now)
        y v).1.Results.EndTime = v.now) := by
  refine ⟨⟨?_, ?_, ?_, ?_, ?_⟩, ?_, ?_⟩
  · obtain ⟨a1, a2, a3⟩ := Itinerary.atReport_results Itinerary.freshPipeline
      Itinerary.noExternals Itinerary.quietWorld
    rw [Itinerary.rendered_Run]
    have hp : Itinerary.quietWorld.report.parse = none := rfl
    have h0 : rendered Itinerary.freshPipeline.Trace = [] := rfl
    simp only [hp, if_true, h0, List.nil_append, List.map_cons, List.map_nil,
      Itinerary.reportData, a1, a2, a3]
    rfl
  · exact (Itinerary.Run_faultless _ _ _ (fun e he => by simp [Itinerary.freshPipeline,
      Itinerary.NewPipeline, newPipeline] at he) Itinerary.quiet_faultless).1
  · rw [Itinerary.Run_eq]
    exact (finalize_results _ _ _).2.2.1
  · rw [Itinerary.Run_eq, finalize_duration,
      (view_runSteps _ _ (Itinerary.steps_transparent _ _) _).2.2.2.1]
    simp [Itinerary.opened, Itinerary.freshPipeline, Itinerary.NewPipeline, newPipeline,
      Itinerary.quietWorld]
    norm_num
  · exact (Itinerary.Run_faultless _ _ _ (fun e he => by simp [Itinerary.freshPipeline,
      Itinerary.NewPipeline, newPipeline] at he) Itinerary.quiet_faultless).2
  · intro baseURL skipInit skipDataLoad skipTests clientError now x w
    refine ⟨?_, by rw [Itinerary.Run_eq]; exact (finalize_results _ _ _).2.2.1⟩
    intro data hd
    obtain ⟨a1, a2, a3⟩ := Itinerary.atReport_results
      (Itinerary.NewPipeline baseURL skipInit skipDataLoad skipTests clientError now) x w
    rw [Itinerary.rendered_Run] at hd
    have h0 : rendered (Itinerary.NewPipeline baseURL skipInit skipDataLoad skipTests
        clientError now).Trace = [] :=
      (newPipeline_fresh baseURL skipInit skipDataLoad skipTests clientError now).2.1
    rw [h0, List.nil_append] at hd
    split_ifs at hd
    · rw [List.mem_singleton] at hd
      rw [hd]
      simp only [Itinerary.reportData, a1, a2, a3]
      exact ⟨rfl, rfl, rfl⟩
    · exact absurd hd (List.not_mem_nil _)
  · intro baseURL skipInit skipDataLoad skipTests clientError now y v
    refine ⟨?_, by rw [Web.web_Run_eq]; exact (finalize_results _ _ _).2.2.1⟩
    intro data hd
    obtain ⟨a1, a2, a3⟩ := Web.web_atReport_results
      (Web.NewWebPipeline baseURL skipInit skipDataLoad skipTests clientError now) y v
    rw [Web.web_rendered_Run] at hd
    have h0 : rendered (Web.NewWebPipeline baseURL skipInit skipDataLoad skipTests
        clientError now).Trace = [] :=
      (newPipeline_fresh baseURL skipInit skipDataLoad skipTests clientError now).2.1
    rw [h0, List.nil_append] at hd
    split_ifs at hd
    · rw [List.mem_singleton] at hd
      rw [hd]
      simp only [Web.reportData, a1, a2, a3]
      exact ⟨rfl, rfl, rfl⟩
    · exact absurd hd (List.not_mem_nil _)

/-- C23, the failing input: the measurement `List Itineraries` fails and every other one takes
5 ms.  The result of `PerformanceTests` has `AverageTime = 5`, `MaxTime = 5`, `MinTime = 5`
over its fifteen valid samples, and the statistics that `DisplayDetailedResults` computes from
the same result, over all sixteen fields, the sentinel included, are the mean `37/8`, the
maximum 5 and the minimum `-1`.  When no sample of a result is negative, the two agree. -/
theorem C23_display_statistics_include_sentinels :
    (∃ r, (Itinerary.PerformanceTests Itinerary.freshPipeline Itinerary.oneFailure).2 =
        Outcome.returned r ∧
      r.ListItineraries = -1 ∧
      r.AverageTime = 5 ∧ r.MaxTime = 5 ∧ r.MinTime = 5 ∧ r.SuccessfulTests = 15 ∧
      Itinerary.displayStatistics r = (37 / 8, 5, -1)) ∧
    (∀ r0 : Itinerary.PerformanceResult, (∀ x ∈ Itinerary.samples r0, 0 ≤ x) →
      Itinerary.displayStatistics (Itinerary.aggregate r0) =
        ((Itinerary.aggregate r0).AverageTime, (Itinerary.aggregate r0).MaxTime,
          (Itinerary.aggregate r0).MinTime)) := by
  constructor
  · refine ⟨_, Itinerary.PerformanceTests_snd _ _, ?_⟩
    simp [Itinerary.createdID, Itinerary.measured, latency, Itinerary.oneFailure]
    norm_num [Itinerary.aggregate, Itinerary.validResults, appendValid, statsLoop,
      Itinerary.displayStatistics, Itinerary.times]
  · exact Itinerary.displayStatistics_of_nonneg

/-- C24, the failing input: for a method other than `POST`, `PUT` and `DELETE` included,
`measureEndpoint` sends a `GET` without body.  In the run of the itinerary `PerformanceTests`
in which every exchange succeeds, the samples `Update Itinerary`, `Delete Itinerary`,
`Remove Item` and `Delete Media` are measured with `GET` requests; the only request with
another method than `GET` and `POST` is the final deletion of the throwaway itinerary, which
is not a sample. -/
theorem C24_put_and_delete_are_measured_with_get :
    (∀ (sample : String → Sample) (p : Itinerary.Pipeline) (method url name body : String),
      method ≠ "POST" →
      requests (measureEndpoint sample p method url name body).1.Trace =
        requests p.Trace ++ [⟨"GET", p.BaseURL ++ url, RequestBody.empty⟩]) ∧
    requests (measureEndpoint (fun _ => Sample.done 5) Itinerary.freshPipeline "PUT"
      "/api/itineraries/00000000-0000-0000-0000-000000000000" "Update Itinerary"
      "\x7b\"city\":\"Updated Performance Test City\"\x7d").1.Trace =
      [⟨"GET", "http://localhost:8080/api/itineraries/00000000-0000-0000-0000-000000000000",
        RequestBody.empty⟩] ∧
    (requests (Itinerary.PerformanceTests Itinerary.freshPipeline
      Itinerary.allMeasured).1.Trace).map (fun r => (r.Method, r.URL)) =
      [("GET", "http://localhost:8080/actuator/health"),
       ("GET", "http://localhost:8080/api/itineraries"),
       ("GET", "http://localhost:8080/api/itineraries?city=Casablanca"),
       ("GET", "http://localhost:8080/actuator/info"),
       ("GET", "http://localhost:8080/actuator/metrics"),
       ("GET", "http://localhost:8080/swagger-ui.html"),
       ("GET", "http://localhost:8080/v3/api-docs"),
       ("POST", "http://localhost:8080/api/itineraries"),
       ("GET", "http://localhost:8080/api/itineraries/00000000-0000-0000-0000-000000000000"),
       ("GET", "http://localhost:8080/api/itineraries/00000000-0000-0000-0000-000000000000"),
       ("POST", "http://localhost:8080/api/itineraries"),
       ("GET", "http://localhost:8080/api/itineraries/42"),
       ("POST", "http://localhost:8080/api/itineraries/42/days/1/items"),
       ("GET", "http://localhost:8080/api/itineraries/42/days/1/items/0"),
       ("GET", "http://localhost:8080/api/v1/itineraries/42/media"),
       ("POST", "http://localhost:8080/api/v1/itineraries/42/media"),
       ("GET", "http://localhost:8080/api/v1/itineraries/42/media"),
       ("DELETE", "http://localhost:8080/api/itineraries/42")] := by
  refine ⟨?_, by decide, by decide⟩
  intro sample p method url name body h
  rw [requests_measureEndpoint, if_neg h]

/-- C25, counterexample: the output `postgres`, an empty line, `redis` has two lines that are
not empty, and `InitializeDatabase`, after a successful start and a successful `ps`, returns
`true`: the empty line between the two names is counted. -/
theorem C25_blank_line_is_counted_counterexample :
    (nonEmptyLines "postgres\n\nredis").length = 2 ∧
    (Itinerary.InitializeDatabase Itinerary.freshPipeline
      (printing "postgres\n\nredis")).2 = true := by
  decide

/-- C25, amended: after a successful start and a successful `ps` with output `output`,
`InitializeDatabase` returns `true` exactly when the output, trimmed of the white space
around it, holds at least two newline characters, that is, splits at the newlines into at
least three pieces, empty ones included; `StartMockServices` of the web variant exactly when
it holds at least one newline character (two pieces).  An output that is empty after trimming
is one piece, so both return `false` on it. -/
theorem C25_verdict_counts_pieces (p : Itinerary.Pipeline) (run : Command → CmdOutcome)
    (q : Web.Pipeline) (w : Web.MockWorld) (started output : String)
    (hskip : p.SkipInit = false)
    (hup : run ⟨["docker-compose", "up", "-d"], ""⟩ = CmdOutcome.ok started)
    (hps : run ⟨["docker-compose", "ps", "--services", "--filter", "status=running"], ""⟩ =
      CmdOutcome.ok output)
    (hdir : w.chdir = none)
    (hwup : w.run ⟨["docker-compose", "-f", "docker-compose.dev.yml", "up", "-d"],
      Web.ProjectPath⟩ = CmdOutcome.ok started)
    (hwps : w.run ⟨["docker-compose", "-f", "docker-compose.dev.yml", "ps", "--services",
      "--filter", "status=running"], Web.ProjectPath⟩ = CmdOutcome.ok output) :
    ((Itinerary.InitializeDatabase p run).2 = true ↔
      2 ≤ newlines (strings.TrimSpace output)) ∧
    ((Web.StartMockServices q w).2 = true ↔ 1 ≤ newlines (strings.TrimSpace output)) ∧
    (strings.Split (strings.TrimSpace output) '\n').length =
      newlines (strings.TrimSpace output) + 1 ∧
    (strings.TrimSpace output = "" →
      (Itinerary.InitializeDatabase p run).2 = false ∧ (Web.StartMockServices q w).2 = false) := by
  have hlen := strings.Split_length (strings.TrimSpace output) '\n'
  have h1 := Itinerary.InitializeDatabase_verdict p run started output hskip hup hps
  have h2 := Web.web_StartMockServices_verdict q w started output hdir hwup hwps
  rw [hlen] at h1 h2
  refine ⟨?_, ?_, hlen, ?_⟩
  · rw [h1]
    simp [newlines]
  · rw [h2]
    simp [newlines]
  · intro he
    rw [h1, h2, he]
    exact ⟨by decide, by decide⟩

/-- C25 at the output of three service names, one per line. -/
theorem C25_verdict_counts_pieces_witness :
    ((Itinerary.InitializeDatabase Itinerary.freshPipeline
        (printing "postgres\nredis\nitinerary-service\n")).2 = true ↔
      2 ≤ newlines (strings.TrimSpace "postgres\nredis\nitinerary-service\n")) ∧
    ((Web.StartMockServices Web.freshPipeline
        ⟨none, printing "postgres\nredis\nitinerary-service\n"⟩).2 = true ↔
      1 ≤ newlines (strings.TrimSpace "postgres\nredis\nitinerary-service\n")) :=
  let c := C25_verdict_counts_pieces Itinerary.freshPipeline
    (printing "postgres\nredis\nitinerary-service\n") Web.freshPipeline
    ⟨none, printing "postgres\nredis\nitinerary-service\n"⟩
    "postgres\nredis\nitinerary-service\n" "postgres\nredis\nitinerary-service\n"
    rfl rfl rfl rfl rfl rfl
  ⟨c.1, c.2.1⟩

/-- C26: when data loading is not skipped, `LoadTestData` (a total function) sends at most
thirty requests to the health endpoint.  When none of the thirty polls answers with status
200 it sends thirty, starts no command and returns `false`; when poll number `k` is the first
that does, it sends `k + 1` requests, then starts the load command once and returns `true`,
whether or not the command succeeds; and it returns `false` exactly when none of the thirty
polls answers with status 200. -/
theorem C26_polling_is_bounded (p : Itinerary.Pipeline) (w : Itinerary.LoadWorld)
    (hskip : p.SkipDataLoad = false) :
    ((∀ i, i < 30 → w.poll i ≠ HttpOutcome.response 200) →
      (Itinerary.LoadTestData p w).2 = false ∧
      requests (Itinerary.LoadTestData p w).1.Trace =
        requests p.Trace ++ List.replicate 30 (Itinerary.healthPoll p.BaseURL) ∧
      commands (Itinerary.LoadTestData p w).1.Trace = commands p.Trace) ∧
    (∀ k, k < 30 → w.poll k = HttpOutcome.response 200 →
      (∀ i, i < k → w.poll i ≠ HttpOutcome.response 200) →
      (Itinerary.LoadTestData p w).2 = true ∧
      requests (Itinerary.LoadTestData p w).1.Trace =
        requests p.Trace ++ List.replicate (k + 1) (Itinerary.healthPoll p.BaseURL) ∧
      commands (Itinerary.LoadTestData p w).1.Trace =
        commands p.Trace ++ [Itinerary.loadCommand]) ∧
    ((Itinerary.LoadTestData p w).2 = false ↔
      ∀ i, i < 30 → w.poll i ≠ HttpOutcome.response 200) ∧
    (requests (Itinerary.LoadTestData p w).1.Trace).length ≤
      (requests p.Trace).length + 30 := by
  have hcases : (∀ i, i < 30 → w.poll i ≠ HttpOutcome.response 200) ∨
      ∃ k, k < 30 ∧ w.poll k = HttpOutcome.response 200 ∧
        ∀ i, i < k → w.poll i ≠ HttpOutcome.response 200 := by
    by_cases hex : ∃ k, k < 30 ∧ w.poll k = HttpOutcome.response 200
    · right
      refine ⟨Nat.find hex, (Nat.find_spec hex).1, (Nat.find_spec hex).2, ?_⟩
      intro i hi h200
      exact Nat.find_min hex hi ⟨lt_trans hi (Nat.find_spec hex).1, h200⟩
    · left
      intro i hi h200
      exact hex ⟨i, hi, h200⟩
  refine ⟨Itinerary.LoadTestData_never p w hskip,
    fun k hk h200 hb => Itinerary.LoadTestData_first p w hskip k hk h200 hb, ?_, ?_⟩
  · constructor
    · intro hfalse
      rcases hcases with hn | ⟨k, hk, h200, hb⟩
      · exact hn
      · rw [(Itinerary.LoadTestData_first p w hskip k hk h200 hb).1] at hfalse
        exact absurd hfalse (by decide)
    · intro hn
      exact (Itinerary.LoadTestData_never p w hskip hn).1
  · rcases hcases with hn | ⟨k, hk, h200, hb⟩
    · rw [(Itinerary.LoadTestData_never p w hskip hn).2.1]
      simp
    · rw [(Itinerary.LoadTestData_first p w hskip k hk h200 hb).2.1]
      simp
      omega

/-- C26 at a service that answers the third poll with status 200 while the load command
fails, and at a service that never answers with status 200. -/
theorem C26_polling_is_bounded_witness :
    ((Itinerary.LoadTestData Itinerary.freshPipeline (Itinerary.readyAt 2)).2 = true ∧
      requests (Itinerary.LoadTestData Itinerary.freshPipeline (Itinerary.readyAt 2)).1.Trace =
        requests Itinerary.freshPipeline.Trace ++
          List.replicate 3 (Itinerary.healthPoll Itinerary.freshPipeline.BaseURL) ∧
      commands (Itinerary.LoadTestData Itinerary.freshPipeline (Itinerary.readyAt 2)).1.Trace =
        commands Itinerary.freshPipeline.Trace ++ [Itinerary.loadCommand]) ∧
    (Itinerary.LoadTestData Itinerary.freshPipeline Itinerary.neverReady).2 = false :=
  ⟨(C26_polling_is_bounded Itinerary.freshPipeline (Itinerary.readyAt 2) rfl).2.1 2
      (by decide) rfl (by decide),
    ((C26_polling_is_bounded Itinerary.freshPipeline Itinerary.neverReady rfl).1
      (fun _ _ => by simp [Itinerary.neverReady])).1⟩

/-- C27: for every operation that returns without fault, whatever value it returns, a boolean
`false` included, `ExecuteStep` records under the name of the step `Success = true`, an empty
`Error` and the returned value as `Result`; and a `Run` (both variants) on a pipeline made by
`NewPipeline` in which no step operation faults ends with `Results.Success = true` and the
exit code 0, also when operations return `false`. -/
theorem C27_success_ignores_returned_value (baseURL : String)
    (skipInit skipDataLoad skipTests : Bool) (clientError : Option String) (now : Nat)
    (x : Itinerary.Externals) (w : Itinerary.World) (y : Web.Externals) (v : Web.World) :
    (∀ (P : Type) (p : Pipeline P) (name : String) (elapsed : Nat)
      (fn : Pipeline P → Pipeline P × Outcome (Payload P)) (value : Payload P),
      (fn (p.Log "INFO" ("Executing step: " ++ name))).2 = Outcome.returned value →
      getStep name (ExecuteStep p name elapsed fn).Results.Steps =
        some { Name := name, Success := true, Duration := (elapsed : ℚ) / 1000000000,
               Error := "", Result := some value }) ∧
    (faultless w.elapsed (Itinerary.steps x w) (Itinerary.opened
        (Itinerary.NewPipeline baseURL skipInit skipDataLoad skipTests clientError now)) = true →
      (Itinerary.Run
        (Itinerary.NewPipeline baseURL skipInit skipDataLoad skipTests clientError now)
        x w).1.Results.Success = true ∧
      (Itinerary.Run
        (Itinerary.NewPipeline baseURL skipInit skipDataLoad skipTests clientError now)
        x w).2 = 0) ∧
    (faultless v.elapsed (Web.steps y v) (Web.opened
        (Web.NewWebPipeline baseURL skipInit skipDataLoad skipTests clientError now)) = true →
      (Web.Run
        (Web.NewWebPipeline baseURL skipInit skipDataLoad skipTests clientError now)
        y v).1.Results.Success = true ∧
      (Web.Run
        (Web.NewWebPipeline baseURL skipInit skipDataLoad skipTests clientError now)
        y v).2 = 0) := by
  refine ⟨?_, ?_, ?_⟩
  · intro P p name elapsed fn value h
    rw [ExecuteStep_steps, getStep_setStep_self, h]
  · intro h
    apply Itinerary.Run_faultless _ _ _ _ h
    intro e he
    rw [show (Itinerary.NewPipeline baseURL skipInit skipDataLoad skipTests clientError
      now).Results.Steps = [] from rfl] at he
    exact absurd he (List.not_mem_nil _)
  · intro h
    apply Web.web_Run_faultless _ _ _ _ h
    intro e he
    rw [show (Web.NewWebPipeline baseURL skipInit skipDataLoad skipTests clientError
      now).Results.Steps = [] from rfl] at he
    exact absurd he (List.not_mem_nil _)

/-- C27 at the step `CheckPrerequisites` with an operation that returns `false`, and at the
runs in which every operation taken as given returns `false` (itinerary) and every exchange
succeeds (web). -/
theorem C27_success_ignores_returned_value_witness :
    getStep "CheckPrerequisites"
      (ExecuteStep Itinerary.freshPipeline "CheckPrerequisites" 1500000000
        (plain (fun _ => Outcome.returned false))).Results.Steps =
      some { Name := "CheckPrerequisites", Success := true,
             Duration := ((1500000000 : Nat) : ℚ) / 1000000000,
             Error := "", Result := some (Payload.bool false) } ∧
    ((Itinerary.Run (Itinerary.NewPipeline "http://localhost:8080" false false false none 0)
        Itinerary.reluctant Itinerary.quietWorld).1.Results.Success = true ∧
      (Itinerary.Run (Itinerary.NewPipeline "http://localhost:8080" false false false none 0)
        Itinerary.reluctant Itinerary.quietWorld).2 = 0) ∧
    ((Web.Run (Web.NewWebPipeline "http://localhost:3000" false false false none 0)
        Web.noExternals Web.quietWorld).1.Results.Success = true ∧
      (Web.Run (Web.NewWebPipeline "http://localhost:3000" false false false none 0)
        Web.noExternals Web.quietWorld).2 = 0) :=
  let c := C27_success_ignores_returned_value "http://localhost:8080" false false false none 0
    Itinerary.reluctant Itinerary.quietWorld Web.noExternals Web.quietWorld
  let d := C27_success_ignores_returned_value "http://localhost:3000" false false false none 0
    Itinerary.reluctant Itinerary.quietWorld Web.noExternals Web.quietWorld
  ⟨c.1 Itinerary.PerformanceResult Itinerary.freshPipeline "CheckPrerequisites" 1500000000
      (plain (fun _ => Outcome.returned false)) (Payload.bool false) rfl,
    c.2.1 (by decide), d.2.2 (by decide)⟩

/-- C28: for every step name and every operation that leaves the results as they are (every
step operation of `Run` does), after `ExecuteStep` the step map holds under that name a step
whose `Name` is the name, every entry under another key is as before, `StartTime`, `EndTime`,
`TotalDuration` and the overall `Success` are as before, the keys are those of before with
the name added if it was not there, so that a name already present keeps the number of
entries and a new one adds one; and after any list of such calls on an empty map the number
of entries is the number of distinct names. -/
theorem C28_execute_step_frame {P : Type} (p : Pipeline P) (name : String) (elapsed : Nat)
    (fn : Pipeline P → Pipeline P × Outcome (Payload P)) (h : Transparent fn) :
    (∃ step, getStep name (ExecuteStep p name elapsed fn).Results.Steps = some step ∧
      step.Name = name) ∧
    (∀ other, other ≠ name →
      getStep other (ExecuteStep p name elapsed fn).Results.Steps =
        getStep other p.Results.Steps) ∧
    ((ExecuteStep p name elapsed fn).Results.StartTime = p.Results.StartTime ∧
      (ExecuteStep p name elapsed fn).Results.EndTime = p.Results.EndTime ∧
      (ExecuteStep p name elapsed fn).Results.TotalDuration = p.Results.TotalDuration ∧
      (ExecuteStep p name elapsed fn).Results.Success = p.Results.Success) ∧
    ((ExecuteStep p name elapsed fn).Results.Steps.map Prod.fst =
        withKey (p.Results.Steps.map Prod.fst) name ∧
      (name ∈ p.Results.Steps.map Prod.fst →
        (ExecuteStep p name elapsed fn).Results.Steps.length = p.Results.Steps.length) ∧
      (name ∉ p.Results.Steps.map Prod.fst →
        (ExecuteStep p name elapsed fn).Results.Steps.length = p.Results.Steps.length + 1)) ∧
    (∀ (times : String → Nat) (calls : List (StepCall P)),
      (∀ c ∈ calls, Transparent c.fn) → p.Results.Steps = [] →
      (runSteps times calls p).Results.Steps.length =
        (calls.map (fun c => c.name)).dedup.length) := by
  have hf := ExecuteStep_frame p name elapsed fn h
  have hk : (ExecuteStep p name elapsed fn).Results.Steps.map Prod.fst =
      withKey (p.Results.Steps.map Prod.fst) name := by
    rw [hf]
    exact setStep_keys _ _ _
  refine ⟨?_, ?_, ?_, ⟨hk, ?_, ?_⟩, ?_⟩
  · rw [hf]
    exact ⟨_, getStep_setStep_self _ _ _, recorded_Name _ _ _⟩
  · intro other ho
    rw [hf]
    exact getStep_setStep_other _ _ _ _ ho
  · rw [hf]
    exact ⟨rfl, rfl, rfl, rfl⟩
  · intro hm
    have := congrArg List.length hk
    simpa [withKey, hm] using this
  · intro hm
    have := congrArg List.length hk
    simpa [withKey, hm] using this
  · intro times calls hc he
    have h3 := (view_runSteps times calls hc p).2.2.1
    have := congrArg List.length h3
    rw [he] at this
    simp only [List.length_map, List.map_nil] at this
    rw [this]
    have hfold : calls.foldl (fun keys c => withKey keys c.name) [] =
        (calls.map (fun c => c.name)).foldl withKey [] := by
      rw [List.foldl_map]
    rw [hfold, foldl_withKey_length]

/-- C28 at the step `CheckPrerequisites` of the itinerary `Run`, executed twice: the second
call overwrites the entry of the first, and the map has one entry. -/
theorem C28_execute_step_frame_witness :
    (ExecuteStep (ExecuteStep Itinerary.freshPipeline "CheckPrerequisites" 1000000000
        (plain (fun _ => Outcome.returned true))) "CheckPrerequisites" 1000000000
      (plain (fun _ => Outcome.returned false))).Results.Steps.length = 1 ∧
    getStep "CheckPrerequisites"
      (ExecuteStep (ExecuteStep Itinerary.freshPipeline "CheckPrerequisites" 1000000000
        (plain (fun _ => Outcome.returned true))) "CheckPrerequisites" 1000000000
      (plain (fun _ => Outcome.returned false))).Results.Steps =
      some { Name := "CheckPrerequisites", Success := true,
             Duration := ((1000000000 : Nat) : ℚ) / 1000000000, Error := "",
             Result := some (Payload.bool false) } :=
  ⟨((C28_execute_step_frame
      (ExecuteStep Itinerary.freshPipeline "CheckPrerequisites" 1000000000
        (plain (fun _ => Outcome.returned true))) "CheckPrerequisites" 1000000000
      (plain (fun _ => Outcome.returned false)) (transparent_plain _)).2.2.2.1.2.1
      (by decide)).trans rfl, rfl⟩

/-- C29: every result that `PerformanceTests` returns with `SuccessfulTests > 0` has
`MinTime ≤ AverageTime ≤ MaxTime` and `MinTime ≥ 0`, in exact arithmetic; and when every
sample of the result is negative, `AverageTime`, `MaxTime`, `MinTime` and `SuccessfulTests`
are 0.  The web `PerformanceTests` always returns a result. -/
theorem C29_statistics_are_ordered (p : Itinerary.Pipeline) (w : Itinerary.PerfWorld)
    (q : Web.Pipeline) (sample : String → Sample) :
    (∀ r, (Itinerary.PerformanceTests p w).2 = Outcome.returned r →
      (0 < r.SuccessfulTests →
        r.MinTime ≤ r.AverageTime ∧ r.AverageTime ≤ r.MaxTime ∧ 0 ≤ r.MinTime) ∧
      ((∀ x ∈ Itinerary.samples r, x < 0) →
        r.AverageTime = 0 ∧ r.MaxTime = 0 ∧ r.MinTime = 0 ∧ r.SuccessfulTests = 0)) ∧
    (∃ r, (Web.PerformanceTests q sample).2 = Outcome.returned r ∧
      (0 < r.SuccessfulTests →
        r.MinTime ≤ r.AverageTime ∧ r.AverageTime ≤ r.MaxTime ∧ 0 ≤ r.MinTime) ∧
      ((∀ x ∈ Web.samples r, x < 0) →
        r.AverageTime = 0 ∧ r.MaxTime = 0 ∧ r.MinTime = 0 ∧ r.SuccessfulTests = 0)) := by
  constructor
  · intro r hr
    obtain ⟨created, rfl⟩ := Itinerary.PerformanceTests_returned p w r hr
    exact Itinerary.aggregate_bounds _ ⟨rfl, rfl, rfl, rfl⟩
  · exact ⟨_, Web.web_PerformanceTests_snd q sample,
      Web.web_aggregate_bounds _ ⟨rfl, rfl, rfl, rfl⟩⟩

/-- C29 at the run of the itinerary `PerformanceTests` in which every measurement takes 5 ms:
a result is returned, and its statistics are ordered. -/
theorem C29_statistics_are_ordered_witness :
    ∃ r, (Itinerary.PerformanceTests Itinerary.freshPipeline Itinerary.allMeasured).2 =
        Outcome.returned r ∧
      (0 < r.SuccessfulTests →
        r.MinTime ≤ r.AverageTime ∧ r.AverageTime ≤ r.MaxTime ∧ 0 ≤ r.MinTime) :=
  ⟨_, Itinerary.PerformanceTests_snd Itinerary.freshPipeline Itinerary.allMeasured,
    ((C29_statistics_are_ordered Itinerary.freshPipeline Itinerary.allMeasured
      Web.freshPipeline (fun _ => Sample.done 5)).1 _
      (Itinerary.PerformanceTests_snd Itinerary.freshPipeline Itinerary.allMeasured)).1⟩

/-- C30, the failing input: the creation of the throwaway itinerary is answered with status
201 and a body that has no string under `id` (not JSON, or without the key).  The type
assertion `createResult["id"].(string)` panics and the itinerary `PerformanceTests` returns no
result.  It panics exactly in two cases: after such a response, and when an identifier was
obtained and the request of the final deletion cannot be created. -/
theorem C30_missing_identifier_faults :
    (Itinerary.PerformanceTests Itinerary.freshPipeline Itinerary.creationWithoutID).2 =
      Outcome.faulted "interface conversion: interface \x7b\x7d is nil, not string" ∧
    (∀ (p : Itinerary.Pipeline) (w : Itinerary.PerfWorld),
      (∃ description, (Itinerary.PerformanceTests p w).2 = Outcome.faulted description) ↔
        ((∃ dynamicType, w.create =
            Itinerary.CreateOutcome.response 201 (Itinerary.IdField.other dynamicType)) ∨
         (∃ id, id ≠ "" ∧
            w.create = Itinerary.CreateOutcome.response 201 (Itinerary.IdField.text id) ∧
            w.cleanup ≠ none))) := by
  refine ⟨by decide, ?_⟩
  intro p w
  rw [Itinerary.PerformanceTests_snd]
  unfold Itinerary.createdID
  cases hc : w.create with
  | failed => simp
  | response code id =>
    by_cases h201 : code = 201
    · subst h201
      cases id with
      | other t => simp
      | text s =>
        by_cases he : s = ""
        · subst he
          constructor
          · rintro ⟨description, hd⟩
            simp at hd
          · rintro (⟨dynamicType, hd⟩ | ⟨x, hx, hx2, _⟩)
            · simp at hd
            · simp only [Itinerary.CreateOutcome.response.injEq, Itinerary.IdField.text.injEq,
                true_and] at hx2
              exact absurd hx2.symm hx
        · cases hw : w.cleanup <;> simp [he]
    · simp [h201]

end MusafirGo
